import Mathlib

/-!
# Air quality monitor: classification and provider fallback

A shallow embedding of `task 2/abunesh r p api modules/air quality/script.js`
(class `AirQualityMonitor`), followed by the click handler of the reverse-geocoding
lookup, the class `PhotoVaultApp` and `groupForecastsByDate`, each in its own namespace.

JavaScript numbers are modelled by `JSNum`: `NaN`, the two infinities and the
finite values, the latter carried as exact rationals (every finite double is a
rational).  Comparisons and `toFixed` are exact on that carrier; `*` and `/` round
the exact result to the nearest double (round to nearest, ties to even, overflow to
an infinity).  The two zeros are not distinguished.

Provider bodies are arbitrary JSON values (`JSVal`), and a method is a function of
the environment (providers, host builtins, clock, device) and the monitor that
returns a value or a thrown error together with the monitor it leaves behind.  The
monitor carries `currentData`, the page elements the methods touch, and a trace of
the requests issued and of the calls to `showLoading`, `showError`, `showResults` and
`displayAirQualityData`.  The page is taken to contain every element the script looks
up by id, and `await` is sequencing: one run is followed from its start to its end.
-/

namespace AirQualityMonitor

/-! ## JavaScript numbers -/

/-- JavaScript number values. -/
inductive JSNum where
  | nan
  | negInf
  | fin (q : ℚ)
  | posInf
  deriving DecidableEq

namespace JSNum

instance : OfNat JSNum n := ⟨fin (n : ℚ)⟩

/-- The relational operator `a <= b` on numbers (false as soon as one side is `NaN`). -/
def le : JSNum → JSNum → Bool
  | nan, _ => false
  | _, nan => false
  | negInf, _ => true
  | fin _, negInf => false
  | fin a, fin b => decide (a ≤ b)
  | fin _, posInf => true
  | posInf, posInf => true
  | posInf, _ => false

/-- The relational operator `a < b` on numbers (false as soon as one side is `NaN`). -/
def lt : JSNum → JSNum → Bool
  | nan, _ => false
  | _, nan => false
  | negInf, negInf => false
  | negInf, _ => true
  | fin _, negInf => false
  | fin a, fin b => decide (a < b)
  | fin _, posInf => true
  | posInf, _ => false

/-- The operator `a > b`. -/
def gt (a b : JSNum) : Bool := lt b a

/-- The quotient `x / 2^k` for an integer `k`. -/
def scaleDown (x : ℚ) (k : Int) : ℚ :=
  if 0 ≤ k then x / ((2 ^ k.toNat : ℕ) : ℚ) else x * ((2 ^ (-k).toNat : ℕ) : ℚ)

/-- The integer nearest to `x`, the even one on a tie. -/
def roundHalfEven (x : ℚ) : ℤ :=
  let f := ⌊x⌋
  let r := x - f
  if r < 1 / 2 then f
  else if 1 / 2 < r then f + 1
  else if f % 2 = 0 then f else f + 1

/-- The number of binary digits of `n`, counted with at most `fuel` halvings. -/
def bitLengthAux : Nat → Nat → Nat
  | 0, _ => 0
  | fuel + 1, n => if n = 0 then 0 else bitLengthAux fuel (n / 2) + 1

/-- The number of binary digits of `n`: `2^(bitLength n - 1) <= n < 2^(bitLength n)`
for `n > 0`. -/
def bitLength (n : Nat) : Nat := bitLengthAux n n

/-- The exponent `e` with `2^e <= x < 2^(e+1)`, for `x > 0`: the difference of the bit
lengths of numerator and denominator, or one less. -/
def binaryExponent (x : ℚ) : Int :=
  let e0 : Int := (bitLength x.num.natAbs : Int) - (bitLength x.den : Int)
  if 1 ≤ scaleDown x e0 then e0 else e0 - 1

/-- The Number value for the exact result `q` of an arithmetic operation (IEEE 754
binary64, round to nearest, ties to even): with `2^e <= |q| < 2^(e+1)`, the multiple of
`2^(max e (-1022) - 52)` nearest to `q`, the one with an even multiplier on a tie, and
an infinity when that multiple reaches `2^1024`. -/
def toDouble (q : ℚ) : JSNum :=
  if q = 0 then fin 0
  else
    let x := |q|
    let k := max (binaryExponent x) (-1022) - 52
    let v := scaleDown (roundHalfEven (scaleDown x k) : ℚ) (-k)
    if ((2 ^ 1024 : ℕ) : ℚ) ≤ v then (if 0 < q then posInf else negInf)
    else fin (if 0 < q then v else -v)

/-- The operator `a * b` (`0 * Infinity` is `NaN`). -/
def mul : JSNum → JSNum → JSNum
  | nan, _ => nan
  | _, nan => nan
  | fin a, fin b => toDouble (a * b)
  | fin a, posInf => if a = 0 then nan else if 0 < a then posInf else negInf
  | fin a, negInf => if a = 0 then nan else if 0 < a then negInf else posInf
  | posInf, fin b => if b = 0 then nan else if 0 < b then posInf else negInf
  | negInf, fin b => if b = 0 then nan else if 0 < b then negInf else posInf
  | posInf, posInf => posInf
  | posInf, negInf => negInf
  | negInf, posInf => negInf
  | negInf, negInf => posInf

/-- The operator `a / b` (signed zeros are not distinguished, so a non-zero finite
value divided by zero is taken to `+Infinity` or `-Infinity` by the sign of the
dividend). -/
def div : JSNum → JSNum → JSNum
  | nan, _ => nan
  | _, nan => nan
  | fin a, fin b =>
    if b = 0 then (if a = 0 then nan else if 0 < a then posInf else negInf)
    else toDouble (a / b)
  | fin _, posInf => fin 0
  | fin _, negInf => fin 0
  | posInf, fin b => if 0 ≤ b then posInf else negInf
  | negInf, fin b => if 0 ≤ b then negInf else posInf
  | posInf, posInf => nan
  | posInf, negInf => nan
  | negInf, posInf => nan
  | negInf, negInf => nan

/-- Truthiness of a number: `0` and `NaN` are falsy. -/
def truthy : JSNum → Bool
  | nan => false
  | fin q => decide (q ≠ 0)
  | _ => true

end JSNum

/-! ## The two classifiers -/

/-- The record returned by `getAQIInfo`. -/
structure AQIInfo where
  category : String
  description : String
  className : String
  deriving DecidableEq

/-- The record returned by `getPollutantStatus`. -/
structure PollutantStatus where
  text : String
  className : String
  deriving DecidableEq

/-- Reading `thresholds[i]` for comparison: an index past the end reads `undefined`,
which a relational operator converts to `NaN`. -/
def thresholdAt (thresholds : List JSNum) (i : Nat) : JSNum :=
  (thresholds.get? i).getD JSNum.nan

/-- `getPollutantStatus(value, thresholds)` (script.js 356-362). -/
def getPollutantStatus (value : JSNum) (thresholds : List JSNum) : PollutantStatus :=
  if value.le (thresholdAt thresholds 0) then ⟨"Good", "good"⟩
  else if value.le (thresholdAt thresholds 1) then ⟨"Moderate", "moderate"⟩
  else if value.le (thresholdAt thresholds 2) then
    ⟨"Unhealthy for Sensitive", "unhealthy-sensitive"⟩
  else if value.le (thresholdAt thresholds 3) then ⟨"Unhealthy", "unhealthy"⟩
  else ⟨"Very Unhealthy", "very-unhealthy"⟩

/-- `getAQIInfo(aqi)` (script.js 364-402). -/
def getAQIInfo (aqi : JSNum) : AQIInfo :=
  if aqi.le 50 then
    { category := "Good"
      description := "Air quality is satisfactory and poses little or no health risk."
      className := "good" }
  else if aqi.le 100 then
    { category := "Moderate"
      description := "Air quality is acceptable for most people."
      className := "moderate" }
  else if aqi.le 150 then
    { category := "Unhealthy for Sensitive Groups"
      description := "Sensitive individuals may experience health effects."
      className := "unhealthy-sensitive" }
  else if aqi.le 200 then
    { category := "Unhealthy"
      description := "Everyone may experience health effects."
      className := "unhealthy" }
  else if aqi.le 300 then
    { category := "Very Unhealthy"
      description := "Health warnings of emergency conditions."
      className := "very-unhealthy" }
  else
    { category := "Hazardous"
      description := "Emergency conditions affecting everyone."
      className := "hazardous" }

/-- The six severity bands of the overall index, in severity order. -/
inductive Band where
  | good | moderate | unhealthySensitive | unhealthy | veryUnhealthy | hazardous
  deriving DecidableEq

/-- The category text of a band. -/
def Band.category : Band → String
  | .good => "Good"
  | .moderate => "Moderate"
  | .unhealthySensitive => "Unhealthy for Sensitive Groups"
  | .unhealthy => "Unhealthy"
  | .veryUnhealthy => "Very Unhealthy"
  | .hazardous => "Hazardous"

/-- The interval of each band as the specification words it:
`aqi <= 50`, `50 < aqi <= 100`, ..., `aqi > 300`. -/
def Band.contains : Band → JSNum → Bool
  | .good, a => a.le 50
  | .moderate, a => JSNum.lt 50 a && a.le 100
  | .unhealthySensitive, a => JSNum.lt 100 a && a.le 150
  | .unhealthy, a => JSNum.lt 150 a && a.le 200
  | .veryUnhealthy, a => JSNum.lt 200 a && a.le 300
  | .hazardous, a => a.gt 300

/-- Position of a tier in the order Good, Moderate, Unhealthy for Sensitive,
Unhealthy, Very Unhealthy (any position from 4 on is the last tier). -/
def tierText : Nat → String
  | 0 => "Good"
  | 1 => "Moderate"
  | 2 => "Unhealthy for Sensitive"
  | 3 => "Unhealthy"
  | _ => "Very Unhealthy"

/-! ## JavaScript values

Provider bodies are whatever `JSON.parse` yields, so the program is embedded over
dynamically typed values.  Property reads cover the keys the program uses
(`results`, `geometry`, `lat`, `lng`, `formatted`, `display_name`, `lon`, `length`,
`list`, `main`, `aqi`, `components` and the pollutant codes); none of them is
inherited from a built-in prototype except `length` on arrays and strings. -/

/-- Values produced by `JSON.parse`, plus `undefined`.  An object is the list of
its own properties, each key bound once. -/
inductive JSVal where
  | undefined
  | null
  | bool (b : Bool)
  | num (x : JSNum)
  | str (s : String)
  | arr (xs : List JSVal)
  | obj (props : List (String × JSVal))

/-- A thrown `Error` object: its constructor name and its `message`. -/
structure JSError where
  name : String
  message : String
  deriving DecidableEq

/-- The `TypeError` raised by the engine on a property read from `undefined` or `null`,
or on a call of something that is not a function; the message text is the engine's. -/
def typeError (what : String) : JSError := ⟨"TypeError", what⟩

/-- Builtins of the host whose results the model takes as given. -/
structure Host where
  /-- `Number::toString` on a finite value; `toFixed` defers to it from `10^21` upwards. -/
  numberToString : ℚ → String
  /-- `ToNumber` applied to a string. -/
  stringToNumber : String → JSNum
  /-- `ToNumber` applied to an array or an object. -/
  objectToNumber : JSVal → JSNum
  /-- The global `parseFloat`. -/
  parseFloat : JSVal → JSNum

namespace JSVal

/-- Own property lookup in an object. -/
def lookup (key : String) : List (String × JSVal) → JSVal
  | [] => undefined
  | (k, v) :: rest => if k = key then v else lookup key rest

/-- Length of a string in UTF-16 code units. -/
def utf16Length (s : String) : Nat :=
  s.data.foldl (fun n c => n + (if c.val < 0x10000 then 1 else 2)) 0

/-- The property read `base.key` (or `base[key]`): a `TypeError` on `undefined` and
`null`, an own property on objects, `length` on arrays and strings, and
`undefined` otherwise. -/
def getProp (base : JSVal) (key : String) : Except JSError JSVal :=
  match base with
  | undefined => .error (typeError ("Cannot read properties of undefined (reading " ++ key ++ ")"))
  | null => .error (typeError ("Cannot read properties of null (reading " ++ key ++ ")"))
  | obj props => .ok (lookup key props)
  | arr xs => .ok (if key = "length" then num (.fin xs.length) else undefined)
  | str s => .ok (if key = "length" then num (.fin (utf16Length s)) else undefined)
  | _ => .ok undefined

/-- The indexed read `base[0]`.  On a string it yields the one-unit string at
position 0 (taken here as the first character). -/
def index0 (base : JSVal) : Except JSError JSVal :=
  match base with
  | undefined => .error (typeError "Cannot read properties of undefined (reading 0)")
  | null => .error (typeError "Cannot read properties of null (reading 0)")
  | arr xs => .ok (xs.head?.getD undefined)
  | str s => .ok (match s.data with
      | [] => undefined
      | c :: _ => str (String.singleton c))
  | obj props => .ok (lookup "0" props)
  | _ => .ok undefined

/-- The optional-chaining read `base?.key`: `undefined` when `base` is `undefined` or `null`. -/
def getPropOpt (base : JSVal) (key : String) : JSVal :=
  match base.getProp key with
  | .ok v => v
  | .error _ => undefined

/-- `ToBoolean`. -/
def truthy : JSVal → Bool
  | undefined => false
  | null => false
  | bool b => b
  | num x => x.truthy
  | str s => decide (s ≠ "")
  | _ => true

/-- `ToNumber`. -/
def toNumber (h : Host) : JSVal → JSNum
  | undefined => .nan
  | null => .fin 0
  | bool b => if b then .fin 1 else .fin 0
  | num x => x
  | str s => h.stringToNumber s
  | v => h.objectToNumber v

/-- The test `v === 0`. -/
def strictEqZero : JSVal → Bool
  | num (.fin q) => decide (q = 0)
  | _ => false

end JSVal

/-! ## `Number.prototype.toFixed` and `Math.round` -/

/-- The digits of the integer `n` with a decimal point inserted `f` places from the
right, zero-padded on the left so that at least one digit precedes the point. -/
def fixedDigits (n f : Nat) : String :=
  let m := toString n
  if f = 0 then m
  else
    let m := if m.length ≤ f then String.join (List.replicate (f + 1 - m.length) "0") ++ m else m
    m.take (m.length - f) ++ "." ++ m.drop (m.length - f)

/-- `x.toFixed(f)` for `0 <= f <= 100`: the integer `n` with `n / 10^f` nearest to `|x|`
(the larger one on a tie), printed with `f` decimals. -/
def JSNum.toFixed (h : Host) (f : Nat) : JSNum → String
  | .nan => "NaN"
  | .posInf => "Infinity"
  | .negInf => "-Infinity"
  | .fin q =>
    let s := if q < 0 then "-" else ""
    let x := |q|
    if (10 : ℚ) ^ 21 ≤ x then s ++ h.numberToString x
    else s ++ fixedDigits (Int.toNat ⌊x * (10 : ℚ) ^ f + 1 / 2⌋) f

/-- The method call `v.toFixed(f)`: only numbers have the method. -/
def JSVal.toFixed (h : Host) (f : Nat) : JSVal → Except JSError String
  | .num x => .ok (x.toFixed h f)
  | .undefined => .error (typeError "Cannot read properties of undefined (reading toFixed)")
  | .null => .error (typeError "Cannot read properties of null (reading toFixed)")
  | _ => .error (typeError "toFixed is not a function")

/-- `Math.round(x)`: the integer nearest to `x`, the larger one on a tie. -/
def JSNum.round : JSNum → JSNum
  | .fin q => .fin (⌊q + 1 / 2⌋ : ℤ)
  | x => x

/-! ## `String.prototype.trim` -/

/-- The code points of `WhiteSpace` and `LineTerminator`. -/
def isJSWhiteSpace (c : Char) : Bool :=
  c.val.toNat ∈ [0x09, 0x0A, 0x0B, 0x0C, 0x0D, 0x20, 0xA0, 0x1680, 0x2028, 0x2029, 0x202F,
    0x205F, 0x3000, 0xFEFF] || (0x2000 ≤ c.val.toNat && c.val.toNat ≤ 0x200A)

/-- `s.trim()`. -/
def jsTrim (s : String) : String :=
  String.mk ((s.data.dropWhile isJSWhiteSpace).reverse.dropWhile isJSWhiteSpace).reverse

/-! ## Providers, page state and the monad of the methods -/

/-- The HTTP requests the monitor issues, by provider and endpoint (the URL text is
determined by these arguments). -/
inductive Request where
  /-- OpenCage forward geocoding, `q=encodeURIComponent(location)`. -/
  | openCageForward (location : String)
  /-- Nominatim `search`. -/
  | nominatimSearch (location : String)
  /-- OpenCage reverse geocoding, `q=lat+lng`. -/
  | openCageReverse (lat lng : JSNum)
  /-- Nominatim `reverse`. -/
  | nominatimReverse (lat lng : JSNum)
  /-- OpenWeatherMap `air_pollution`. -/
  | airPollution (lat lon : JSVal)

/-- Geocoding requests (either provider, either direction). -/
def Request.isGeocoding : Request → Bool
  | .airPollution _ _ => false
  | _ => true

/-- Requests to the primary geocoding provider. -/
def Request.isPrimary : Request → Bool
  | .openCageForward _ => true
  | .openCageReverse _ _ => true
  | _ => false

/-- Requests to the secondary geocoding provider. -/
def Request.isSecondary : Request → Bool
  | .nominatimSearch _ => true
  | .nominatimReverse _ _ => true
  | _ => false

/-- Requests to the air-quality provider. -/
def Request.isAirQuality : Request → Bool
  | .airPollution _ _ => true
  | _ => false

/-- A `Response`: its status and what `response.json()` settles to. -/
structure Response where
  status : Nat
  body : Except JSError JSVal

/-- `response.ok`: the status is in the range 200-299. -/
def Response.ok (r : Response) : Bool := decide (200 ≤ r.status) && decide (r.status ≤ 299)

/-- What the promise returned by `fetch` settles to. -/
inductive FetchResult where
  | rejected (error : JSError)
  | resolved (response : Response)

/-- What `navigator.geolocation.getCurrentPosition` does with its callbacks. -/
inductive GeoOutcome where
  | position (latitude longitude : JSNum)
  | failure (message : String)
  | silent

/-- The record inside `data: [...]` built by `getOpenWeatherAirQuality`. -/
structure AirQuality where
  aqi : JSNum
  pm10 : JSVal
  pm25 : JSVal
  o3 : JSVal
  no2 : JSVal
  so2 : JSVal
  co : JSNum

/-- The object stored in `this.currentData`. -/
structure Snapshot where
  location : JSVal
  latitude : JSVal
  longitude : JSVal
  aqi : JSNum
  pm10 : JSVal
  pm25 : JSVal
  o3 : JSVal
  no2 : JSVal
  so2 : JSVal
  co : JSNum
  timestamp : String

/-- The page elements the methods read and write.  A text field holds the value
assigned to `textContent`; a `Hidden` flag says whether the class `hidden` is set. -/
structure Dom where
  locationInput : String
  loadingHidden : Bool
  errorHidden : Bool
  errorText : String
  displayHidden : Bool
  locationDisplay : JSVal
  latitudeText : String
  longitudeText : String
  lastUpdated : String
  aqiText : JSVal
  aqiCategory : String
  aqiDescription : String
  aqiCardClass : String
  pollutantValues : List (String × String)
  pollutantStatus : List (String × String × String)
  recommendationsHtml : String

/-- Observable steps of a run, in order. -/
inductive Event where
  | request (r : Request)
  | showLoading
  | showError (message : String)
  | showResults
  | displayAirQualityData
  /-- `link.click()` in `exportData`: the JSON text of `content` extended with
  `exportedAt` is offered as a file whose name is built from `content.location` and
  `date`. -/
  | download (content : Snapshot) (exportedAt date : String)
  /-- `navigator.share(...)` with the text built from these three values. -/
  | share (location : JSVal) (roundedAqi : JSNum) (category : String)
  /-- The text built from these three values is handed to the clipboard. -/
  | copied (location : JSVal) (roundedAqi : JSNum) (category : String)
  /-- `alert(message)`. -/
  | alert (message : String)

/-- The request of an event, if it is one. -/
def Event.request? : Event → Option Request
  | .request r => some r
  | _ => none

/-- The message of an event, if it is a `showError` call. -/
def Event.error? : Event → Option String
  | .showError m => some m
  | _ => none

/-- The requests of a trace, in order. -/
def requestsOf (trace : List Event) : List Request := trace.filterMap Event.request?

/-- The messages passed to `showError` in a trace, in order. -/
def errorsOf (trace : List Event) : List String := trace.filterMap Event.error?

/-- The monitor object together with the page and the trace of the run so far. -/
structure Monitor where
  currentData : Option Snapshot
  dom : Dom
  trace : List Event

/-- Everything outside the program: the host builtins, the providers (the answer
to the `n`-th request of the run may depend on `n`), the clock and the device. -/
structure Env where
  host : Host
  fetch : Nat → Request → FetchResult
  now : String
  localeNow : String
  geolocation : Option GeoOutcome
  /-- `navigator.share`: absent, or what the promise it returns settles to. -/
  share : Option (Except JSError Unit) := none
  /-- `navigator.clipboard`: absent, or whether `writeText` fulfils its promise. -/
  clipboard : Option Bool := some true

/-- A method body: it reads the environment, updates the monitor and either returns
or throws.  The state reached before a throw is kept. -/
def M (α : Type) : Type := Env → Monitor → Except JSError α × Monitor

namespace M

/-- Return. -/
def ret (a : α) : M α := fun _ s => (.ok a, s)

/-- Sequencing: a throw in the first part skips the second. -/
def andThen (m : M α) (f : α → M β) : M β := fun e s =>
  match m e s with
  | (.ok a, s1) => f a e s1
  | (.error err, s1) => (.error err, s1)

/-- The statement `throw err`. -/
def raise (err : JSError) : M α := fun _ s => (.error err, s)

/-- The statement `try body catch (error) handler`. -/
def tryCatch (body : M α) (handler : JSError → M α) : M α := fun e s =>
  match body e s with
  | (.ok a, s1) => (.ok a, s1)
  | (.error err, s1) => handler err e s1

/-- Lift a pure result that may be a throw. -/
def lift (r : Except JSError α) : M α := fun _ s => (r, s)

/-- Read the environment. -/
def env : M Env := fun e s => (.ok e, s)

/-- Read the monitor. -/
def get : M Monitor := fun _ s => (.ok s, s)

/-- Update the monitor. -/
def modify (f : Monitor → Monitor) : M Unit := fun _ s => (.ok (), f s)

/-- Record an event. -/
def emit (ev : Event) : M Unit := modify fun s => { s with trace := s.trace ++ [ev] }

/-- Update the page. -/
def modifyDom (f : Dom → Dom) : M Unit := modify fun s => { s with dom := f s.dom }

end M

instance : Monad M where
  pure := M.ret
  bind := M.andThen

/-- `await fetch(url)`: the request is recorded, then the provider answers. -/
def fetch (r : Request) : M Response := fun e s =>
  let s1 : Monitor := { s with trace := s.trace ++ [Event.request r] }
  match e.fetch (requestsOf s.trace).length r with
  | .rejected err => (.error err, s1)
  | .resolved resp => (.ok resp, s1)

/-- `await response.json()`. -/
def Response.json (r : Response) : M JSVal := M.lift r.body

/-! ## The methods of `AirQualityMonitor` -/

/-- The expression `v || d`. -/
def JSVal.orElse (v d : JSVal) : JSVal := if v.truthy then v else d

/-- `hideLoading()` (script.js 54-56). -/
def hideLoading : M Unit := M.modifyDom fun d => { d with loadingHidden := true }

/-- `showLoading()` (script.js 48-52). -/
def showLoading : M Unit := do
  M.emit Event.showLoading
  M.modifyDom fun d => { d with loadingHidden := false, errorHidden := true, displayHidden := true }

/-- `showError(message)` (script.js 58-64). -/
def showError (message : String) : M Unit := do
  M.emit (Event.showError message)
  hideLoading
  M.modifyDom fun d => { d with errorText := message, errorHidden := false, displayHidden := true }

/-- `showResults()` (script.js 66-70). -/
def showResults : M Unit := do
  M.emit Event.showResults
  hideLoading
  M.modifyDom fun d => { d with errorHidden := true, displayHidden := false }

/-- The conversion of the Nominatim body to the OpenCage shape in
`getCoordinatesNominatim` (script.js 170-184). -/
def convertNominatim (h : Host) (data : JSVal) : Except JSError JSVal :=
  if data.truthy && ((data.getPropOpt "length").toNumber h).gt 0 then do
    let result ← data.index0
    let displayName ← result.getProp "display_name"
    let lat ← result.getProp "lat"
    let lon ← result.getProp "lon"
    pure (JSVal.obj [("results", JSVal.arr [JSVal.obj [
      ("formatted", displayName),
      ("geometry", JSVal.obj [
        ("lat", JSVal.num (h.parseFloat lat)),
        ("lng", JSVal.num (h.parseFloat lon))])]])])
  else
    pure (JSVal.obj [("results", JSVal.arr [])])

/-- `getCoordinatesNominatim(location)` (script.js 155-185). -/
def getCoordinatesNominatim (location : String) : M JSVal := do
  let response ← fetch (Request.nominatimSearch location)
  if !response.ok then
    M.raise ⟨"Error", "Nominatim geocoding failed: " ++ toString response.status⟩
  else
    let data ← response.json
    let e ← M.env
    M.lift (convertNominatim e.host data)

/-- `getCoordinates(location)` (script.js 137-153).  Every path through the `try`
block returns, the last one implicitly with `undefined`. -/
def getCoordinates (location : String) : M JSVal :=
  M.tryCatch (do
      let response ← fetch (Request.openCageForward location)
      if response.ok then
        response.json
      else if response.status = 401 ∨ response.status = 403 then
        getCoordinatesNominatim location
      else
        pure JSVal.undefined)
    (fun _ => getCoordinatesNominatim location)

/-- The label built from the coordinates, each printed with `toFixed(4)`. -/
def coordinateLabel (h : Host) (lat lng : JSNum) : String :=
  lat.toFixed h 4 ++ ", " ++ lng.toFixed h 4

/-- The expression returned on a successful Nominatim answer (script.js 219):
`data.display_name`, or the coordinate label when that is falsy. -/
def nominatimName (h : Host) (lat lng : JSNum) (data : JSVal) : Except JSError JSVal := do
  let name ← data.getProp "display_name"
  pure (name.orElse (JSVal.str (coordinateLabel h lat lng)))

/-- The expression returned on a successful OpenCage answer (script.js 195):
`data.results[0]?.formatted`, or the coordinate label when that is falsy. -/
def openCageName (h : Host) (lat lng : JSNum) (data : JSVal) : Except JSError JSVal := do
  let results ← data.getProp "results"
  let first ← results.index0
  pure ((first.getPropOpt "formatted").orElse (JSVal.str (coordinateLabel h lat lng)))

/-- `getLocationNameNominatim(lat, lng)` (script.js 208-226).  The `try` block yields
`some` of the returned value, or `none` when control leaves it without returning. -/
def getLocationNameNominatim (lat lng : JSNum) : M JSVal := do
  let e ← M.env
  let returned ← M.tryCatch (do
      let response ← fetch (Request.nominatimReverse lat lng)
      if response.ok then
        let data ← response.json
        let name ← M.lift (nominatimName e.host lat lng data)
        pure (some name)
      else
        pure none)
    (fun _ => pure none)
  match returned with
  | some v => pure v
  | none => pure (JSVal.str (coordinateLabel e.host lat lng))

/-- `getLocationName(lat, lng)` (script.js 187-206). -/
def getLocationName (lat lng : JSNum) : M JSVal := do
  let e ← M.env
  let returned ← M.tryCatch (do
      let response ← fetch (Request.openCageReverse lat lng)
      if response.ok then
        let data ← response.json
        let name ← M.lift (openCageName e.host lat lng data)
        pure (some name)
      else if response.status = 401 ∨ response.status = 403 then
        let name ← getLocationNameNominatim lat lng
        pure (some name)
      else
        pure none)
    (fun _ => do
      let name ← getLocationNameNominatim lat lng
      pure (some name))
  match returned with
  | some v => pure v
  | none => pure (JSVal.str (coordinateLabel e.host lat lng))

/-- The conversion of the OpenWeatherMap body in `getOpenWeatherAirQuality`
(script.js 257-269); the result is the record inside `data: [...]`. -/
def convertOpenWeather (h : Host) (data : JSVal) : Except JSError AirQuality := do
  let list ← data.getProp "list"
  let pollution ← list.index0
  let main ← pollution.getProp "main"
  let aqi ← main.getProp "aqi"
  let components ← pollution.getProp "components"
  let pm10 ← components.getProp "pm10"
  let pm25 ← components.getProp "pm2_5"
  let o3 ← components.getProp "o3"
  let no2 ← components.getProp "no2"
  let so2 ← components.getProp "so2"
  let co ← components.getProp "co"
  pure {
    aqi := (aqi.toNumber h).mul 50
    pm10 := pm10
    pm25 := pm25
    o3 := o3
    no2 := no2
    so2 := so2
    co := (co.toNumber h).div 1000 }

/-- `getOpenWeatherAirQuality(lat, lon)` (script.js 247-274); `none` is `null`, and
`some a` is the object `{ data: [a] }`. -/
def getOpenWeatherAirQuality (lat lon : JSVal) : M (Option AirQuality) :=
  M.tryCatch (do
      let response ← fetch (Request.airPollution lat lon)
      if !response.ok then
        pure none
      else
        let data ← response.json
        let e ← M.env
        let airQuality ← M.lift (convertOpenWeather e.host data)
        pure (some airQuality))
    (fun _ => pure none)

/-- `updateLocationInfo(location, latitude, longitude)` (script.js 309-314). -/
def updateLocationInfo (location latitude longitude : JSVal) : M Unit := do
  let e ← M.env
  M.modifyDom fun d => { d with locationDisplay := location }
  let lat ← M.lift (latitude.toFixed e.host 4)
  M.modifyDom fun d => { d with latitudeText := lat }
  let lng ← M.lift (longitude.toFixed e.host 4)
  M.modifyDom fun d => { d with longitudeText := lng }
  M.modifyDom fun d => { d with lastUpdated := e.localeNow }

/-- `updateAQI(aqi)` (script.js 316-330). -/
def updateAQI (aqi : JSNum) : M Unit := do
  M.modifyDom fun d => { d with aqiText := (JSVal.num aqi.round).orElse (JSVal.str "N/A") }
  let aqiInfo := getAQIInfo aqi
  M.modifyDom fun d => { d with aqiCategory := aqiInfo.category }
  M.modifyDom fun d => { d with aqiDescription := aqiInfo.description }
  M.modifyDom fun d => { d with aqiCardClass := "aqi-card " ++ aqiInfo.className }

/-- The array `pollutants` of `updatePollutants`: element id, value and thresholds. -/
def pollutantTable (a : AirQuality) : List (String × JSVal × List JSNum) :=
  [ ("pm10", a.pm10, [50, 100, 150, 200]),
    ("pm25", a.pm25, [35, 75, 115, 150]),
    ("o3", a.o3, [100, 160, 200, 300]),
    ("no2", a.no2, [100, 200, 700, 1200]),
    ("so2", a.so2, [80, 180, 280, 400]),
    ("co", JSVal.num a.co, [10, 20, 30, 40]) ]

/-- Assignment to the entry of an element id. -/
def setEntry (key : String) (v : β) : List (String × β) → List (String × β)
  | [] => [(key, v)]
  | (k, w) :: rest => if k = key then (k, v) :: rest else (k, w) :: setEntry key v rest

/-- The callback of `pollutants.forEach` (script.js 342-353). -/
def updatePollutant (p : String × JSVal × List JSNum) : M Unit := do
  let e ← M.env
  let value := p.2.1.orElse (JSVal.num 0)
  let text ← M.lift (value.toFixed e.host 1)
  M.modifyDom fun d => { d with pollutantValues := setEntry p.1 text d.pollutantValues }
  let status := getPollutantStatus (value.toNumber e.host) p.2.2
  M.modifyDom fun d => { d with
    pollutantStatus :=
      setEntry p.1 (status.text, "status-indicator " ++ status.className) d.pollutantStatus }

/-- `array.forEach(callback)`. -/
def forEach (callback : α → M Unit) : List α → M Unit
  | [] => pure ()
  | x :: rest => do
    callback x
    forEach callback rest

/-- `updatePollutants(airQuality)` (script.js 332-354). -/
def updatePollutants (airQuality : AirQuality) : M Unit :=
  forEach updatePollutant (pollutantTable airQuality)

/-- The array `recommendations` chosen by `updateRecommendations` (script.js 406-441). -/
def recommendationsFor (aqi : JSNum) : List String :=
  if aqi.le 50 then
    [ "Air quality is excellent. Perfect for outdoor activities.",
      "No health precautions needed.",
      "Great time for exercise and outdoor sports." ]
  else if aqi.le 100 then
    [ "Air quality is acceptable for most people.",
      "Sensitive individuals should consider reducing prolonged outdoor exertion.",
      "Generally safe for outdoor activities." ]
  else if aqi.le 150 then
    [ "Sensitive groups should avoid outdoor activities.",
      "Children, elderly, and people with respiratory conditions should limit outdoor exposure.",
      "Consider wearing a mask if you must go outside." ]
  else if aqi.le 200 then
    [ "Everyone should avoid prolonged outdoor activities.",
      "Keep windows closed and use air purifiers indoors.",
      "Wear N95 masks when outdoors.",
      "Postpone outdoor exercise." ]
  else
    [ "Stay indoors and keep windows closed.",
      "Use air purifiers if available.",
      "Avoid all outdoor activities.",
      "Seek immediate medical attention if experiencing difficulty breathing.",
      "Consider relocating temporarily if possible." ]

/-- `updateRecommendations(aqi)` (script.js 404-446). -/
def updateRecommendations (aqi : JSNum) : M Unit :=
  M.modifyDom fun d => { d with
    recommendationsHtml := String.join ((recommendationsFor aqi).map fun rec =>
      "<div class=\"recommendation-item\"><i class=\"fas fa-check-circle\"></i> " ++ rec
        ++ "</div>") }

/-- The object literal stored in `this.currentData` (script.js 281-287):
`{ location, latitude, longitude, ...airQuality, timestamp }`. -/
def makeSnapshot (locationName latitude longitude : JSVal) (airQuality : AirQuality)
    (timestamp : String) : Snapshot :=
  { location := locationName
    latitude := latitude
    longitude := longitude
    aqi := airQuality.aqi
    pm10 := airQuality.pm10
    pm25 := airQuality.pm25
    o3 := airQuality.o3
    no2 := airQuality.no2
    so2 := airQuality.so2
    co := airQuality.co
    timestamp := timestamp }

/-- `displayAirQualityData(airQualityData, latitude, longitude, locationName)`
(script.js 276-307), where `airQuality` is `airQualityData.data[0]`. -/
def displayAirQualityData (airQuality : AirQuality) (latitude longitude locationName : JSVal) :
    M Unit := do
  M.emit Event.displayAirQualityData
  M.tryCatch (do
      let e ← M.env
      M.modify fun s => { s with
        currentData := some (makeSnapshot locationName latitude longitude airQuality e.now) }
      updateLocationInfo locationName latitude longitude
      updateAQI airQuality.aqi
      updatePollutants airQuality
      updateRecommendations airQuality.aqi
      showResults)
    (fun _ => showError "Error processing air quality data")

/-- `fetchAirQualityData(latitude, longitude, locationName)` (script.js 228-245). -/
def fetchAirQualityData (latitude longitude locationName : JSVal) : M Unit :=
  M.tryCatch (do
      let openWeatherData ← getOpenWeatherAirQuality latitude longitude
      match openWeatherData with
      | some airQuality => displayAirQualityData airQuality latitude longitude locationName
      | none => showError "Air quality data unavailable. Please try again later.")
    (fun _ =>
      showError "Failed to fetch air quality data. Please check your internet connection.")

/-- The error thrown by `fetchDataByLocation` when no candidate was returned. -/
def notFoundError : JSError :=
  ⟨"Error", "Location not found. Please check the spelling and try again."⟩

/-- The test `!geolocationData || geolocationData.results.length === 0` (script.js 86). -/
def noCandidates (geolocationData : JSVal) : Except JSError Bool :=
  if !geolocationData.truthy then pure true
  else do
    let results ← geolocationData.getProp "results"
    let length ← results.getProp "length"
    pure length.strictEqZero

/-- The coordinates `fetchDataByLocation` takes from the geocoding result
(script.js 86-92): latitude and longitude of the first candidate. -/
def firstGeometry (geolocationData : JSVal) : Except JSError (JSVal × JSVal) := do
  let notFound ← noCandidates geolocationData
  if notFound then
    throw notFoundError
  else
    let results ← geolocationData.getProp "results"
    let first ← results.index0
    let geometry ← first.getProp "geometry"
    let latitude ← geometry.getProp "lat"
    let longitude ← geometry.getProp "lng"
    pure (latitude, longitude)

/-- `fetchDataByLocation()` (script.js 72-101). -/
def fetchDataByLocation : M Unit := do
  let s ← M.get
  let location := jsTrim s.dom.locationInput
  if location = "" then
    showError "Please enter a location"
  else
    showLoading
    M.tryCatch (do
        let geolocationData ← getCoordinates location
        let geometry ← M.lift (firstGeometry geolocationData)
        fetchAirQualityData geometry.1 geometry.2 (JSVal.str location))
      (fun error => showError ("Error: " ++ error.message))

/-- `getCurrentLocation()` (script.js 103-135), run up to the end of the callback
that the device invokes. -/
def getCurrentLocation : M Unit := do
  let e ← M.env
  match e.geolocation with
  | none => showError "Geolocation is not supported by this browser"
  | some outcome =>
    showLoading
    match outcome with
    | GeoOutcome.position latitude longitude =>
      M.tryCatch (do
          let locationName ← getLocationName latitude longitude
          fetchAirQualityData (JSVal.num latitude) (JSVal.num longitude) locationName)
        (fun error => showError ("Error getting location data: " ++ error.message))
    | GeoOutcome.failure message => showError ("Location access denied: " ++ message)
    | GeoOutcome.silent => pure ()

/-- `refreshCurrentData()` (script.js 448-456). -/
def refreshCurrentData : M Unit := do
  let s ← M.get
  match s.currentData with
  | none => showError "No data to refresh. Please search for a location first."
  | some d => fetchAirQualityData d.latitude d.longitude d.location

/-- `exportData()` (script.js 458-479). -/
def exportData : M Unit := do
  let s ← M.get
  match s.currentData with
  | none => showError "No data to export. Please search for a location first."
  | some d =>
    let e ← M.env
    M.emit (Event.download d e.now ((e.now.splitOn "T").headD ""))

/-- `fallbackShare(text)` (script.js 505-521), the text being given by the three values
it is built from. -/
def fallbackShare (location : JSVal) (roundedAqi : JSNum) (category : String) : M Unit := do
  let e ← M.env
  match e.clipboard with
  | some fulfilled =>
    M.emit (Event.copied location roundedAqi category)
    if fulfilled then M.emit (Event.alert "Air quality data copied to clipboard!") else pure ()
  | none =>
    M.emit (Event.copied location roundedAqi category)
    M.emit (Event.alert "Air quality data copied to clipboard!")

/-- `shareData()` (script.js 481-503). -/
def shareData : M Unit := do
  let s ← M.get
  match s.currentData with
  | none => showError "No data to share. Please search for a location first."
  | some d =>
    let category := (getAQIInfo d.aqi).category
    let e ← M.env
    match e.share with
    | some outcome =>
      M.tryCatch (do
          M.emit (Event.share d.location d.aqi.round category)
          M.lift outcome)
        (fun _ => fallbackShare d.location d.aqi.round category)
    | none => fallbackShare d.location d.aqi.round category

/-! ## Summaries of the provider calls

Pure functions of the environment that say what each geocoding method returns when
its first request is the `n`-th of the run; the lemmas below prove that the methods
compute them. -/

/-- The monitor after a request has been recorded. -/
def Monitor.requested (s : Monitor) (r : Request) : Monitor :=
  { s with trace := s.trace ++ [Event.request r] }

/-- The monitor after `showError(message)`. -/
def Monitor.withError (s : Monitor) (message : String) : Monitor :=
  { s with
    trace := s.trace ++ [Event.showError message]
    dom := { s.dom with
      loadingHidden := true, errorText := message, errorHidden := false, displayHidden := true } }

/-- The monitor after `showLoading()`. -/
def Monitor.withLoading (s : Monitor) : Monitor :=
  { s with
    trace := s.trace ++ [Event.showLoading]
    dom := { s.dom with loadingHidden := false, errorHidden := true, displayHidden := true } }

/-- Outcome of `getCoordinatesNominatim` when its request is the `n`-th. -/
def nominatimSearchResult (e : Env) (n : Nat) (location : String) : Except JSError JSVal :=
  match e.fetch n (Request.nominatimSearch location) with
  | FetchResult.rejected err => .error err
  | FetchResult.resolved resp =>
    if resp.ok then resp.body >>= convertNominatim e.host
    else .error ⟨"Error", "Nominatim geocoding failed: " ++ toString resp.status⟩

/-- Outcome of `getLocationNameNominatim` when its request is the `n`-th. -/
def nominatimReverseResult (e : Env) (n : Nat) (lat lng : JSNum) : JSVal :=
  match e.fetch n (Request.nominatimReverse lat lng) with
  | FetchResult.rejected _ => JSVal.str (coordinateLabel e.host lat lng)
  | FetchResult.resolved resp =>
    if resp.ok then
      match resp.body >>= nominatimName e.host lat lng with
      | .ok v => v
      | .error _ => JSVal.str (coordinateLabel e.host lat lng)
    else JSVal.str (coordinateLabel e.host lat lng)

/-- Outcome of `getOpenWeatherAirQuality` when its request is the `n`-th. -/
def openWeatherResult (e : Env) (n : Nat) (lat lon : JSVal) : Option AirQuality :=
  match e.fetch n (Request.airPollution lat lon) with
  | FetchResult.rejected _ => none
  | FetchResult.resolved resp =>
    if resp.ok then
      match resp.body >>= convertOpenWeather e.host with
      | .ok a => some a
      | .error _ => none
    else none

/-- The message `displayAirQualityData` reports when rendering throws. -/
def renderingError : String := "Error processing air quality data"

/-- The monitor after several requests have been recorded. -/
def Monitor.requestedAll (s : Monitor) (rs : List Request) : Monitor :=
  { s with trace := s.trace ++ rs.map Event.request }

/-- How a run from `s` to `t` relates to `currentData`: the trace grows, and either
`currentData` is untouched, or the run ends with `displayAirQualityData` followed by
`showResults` and reports no error, or it ends with `displayAirQualityData` followed
by the rendering error and reports no other error. -/
def RunShape (s t : Monitor) : Prop :=
  ∃ evs, t.trace = s.trace ++ evs ∧
    (t.currentData = s.currentData ∨
      (∃ pre, evs = pre ++ [Event.displayAirQualityData, Event.showResults] ∧
        errorsOf pre = []) ∨
      (∃ pre, evs = pre ++ [Event.displayAirQualityData, Event.showError renderingError] ∧
        errorsOf pre = []))

/-- A step that touches the page only: it leaves `currentData` and the trace alone,
whether it returns or throws. -/
def M.DomOnly (m : M α) : Prop :=
  ∀ e s, (m e s).2.currentData = s.currentData ∧ (m e s).2.trace = s.trace

/-- A rendering tail: it leaves `currentData` alone and either returns after
one `showResults` or throws with the trace unchanged. -/
def M.Renders (m : M Unit) : Prop :=
  ∀ e s, (m e s).2.currentData = s.currentData ∧
    (((m e s).1 = .ok () ∧ (m e s).2.trace = s.trace ++ [Event.showResults]) ∨
      ((∃ err, (m e s).1 = .error err) ∧ (m e s).2.trace = s.trace))

/-! ## Predicates on provider answers used in the statements -/

/-- The answer has a status outside 200-299. -/
def FetchResult.isErrorStatus : FetchResult → Bool
  | .rejected _ => false
  | .resolved resp => !resp.ok

/-- The answer is an authentication or quota error: status 401 or 403. -/
def FetchResult.isAuthError : FetchResult → Bool
  | .rejected _ => false
  | .resolved resp => decide (resp.status = 401 ∨ resp.status = 403)

/-- The request raised a transport error: the promise of `fetch` was rejected. -/
def FetchResult.isRejected : FetchResult → Bool
  | .rejected _ => true
  | .resolved _ => false

/-- The answer has a success status but a body that `response.json()` cannot read. -/
def FetchResult.isUnreadable : FetchResult → Bool
  | .rejected _ => false
  | .resolved resp =>
    resp.ok && (match resp.body with
      | .ok _ => false
      | .error _ => true)

/-- The answer has a status in 200-299. -/
def FetchResult.isSuccessStatus : FetchResult → Bool
  | .rejected _ => false
  | .resolved resp => resp.ok

/-- The provider failed: transport error, error status, or unreadable body. -/
def FetchResult.failed (r : FetchResult) : Bool :=
  r.isRejected || r.isErrorStatus || r.isUnreadable

/-- The value `v` was supplied by a provider as the name of `(lat, lng)`: it is
`results[0]?.formatted` of the body the primary sent in answer to request `n`, or
`display_name` of the body the secondary sent in answer to request `n + 1`. -/
def ProviderSupplied (e : Env) (n : Nat) (lat lng : JSNum) (v : JSVal) : Prop :=
  (∃ resp data results first,
      e.fetch n (Request.openCageReverse lat lng) = FetchResult.resolved resp ∧
      resp.body = .ok data ∧ data.getProp "results" = .ok results ∧
      results.index0 = .ok first ∧ v = first.getPropOpt "formatted") ∨
  (∃ resp data,
      e.fetch (n + 1) (Request.nominatimReverse lat lng) = FetchResult.resolved resp ∧
      resp.body = .ok data ∧ data.getProp "display_name" = .ok v)

/-- The events a run appended to the trace it started from. -/
def newEvents (before after : Monitor) : List Event := after.trace.drop before.trace.length

/-- The amended snapshot invariant for one entry point: in a run that reports an
error other than the rendering error `currentData` is left as it was, and a run that
changes `currentData` has called `displayAirQualityData`. -/
def KeepsSnapshotOnError (run : M Unit) : Prop :=
  ∀ (e : Env) (s : Monitor),
    (∀ m ∈ errorsOf (newEvents s (run e s).2), m ≠ renderingError →
      (run e s).2.currentData = s.currentData) ∧
    ((run e s).2.currentData ≠ s.currentData →
      Event.displayAirQualityData ∈ newEvents s (run e s).2)

/-! ## Example runs -/

/-- Decimal digits at the front of a character list, and the rest. -/
def readDigits : List Char → List Nat × List Char
  | [] => ([], [])
  | c :: cs =>
    if c.isDigit then ((c.toNat - 48) :: (readDigits cs).1, (readDigits cs).2)
    else ([], c :: cs)

/-- The number written by a list of decimal digits. -/
def digitsValue (ds : List Nat) : Nat := ds.foldl (fun n d => 10 * n + d) 0

/-- The number a string starts with, in plain decimal notation (sign, digits,
fraction); `NaN` when there is none. -/
def readDecimal (s : String) : JSNum :=
  let cs := s.data.dropWhile isJSWhiteSpace
  let negative := cs.head? = some (Char.ofNat 45)
  let cs := if cs.head? = some (Char.ofNat 45) ∨ cs.head? = some (Char.ofNat 43) then cs.tail else cs
  let whole := readDigits cs
  let frac := if whole.2.head? = some (Char.ofNat 46) then (readDigits whole.2.tail).1 else []
  if whole.1 = [] ∧ frac = [] then JSNum.nan
  else
    let v : ℚ := digitsValue whole.1 + (digitsValue frac : ℚ) / 10 ^ frac.length
    JSNum.fin (if negative then -v else v)

/-- A host for the example runs.  Its `parseFloat` agrees with the builtin on numbers
and on strings in plain decimal notation, which is all the examples apply it to;
the other three functions are not reached by them. -/
def exampleHost : Host where
  numberToString := fun q => toString q
  stringToNumber := readDecimal
  objectToNumber := fun _ => JSNum.nan
  parseFloat := fun v =>
    match v with
    | JSVal.num x => x
    | JSVal.str s => readDecimal s
    | _ => JSNum.nan

/-- The page before any search: nothing shown, `input` typed into the location field. -/
def Dom.initial (input : String) : Dom where
  locationInput := input
  loadingHidden := true
  errorHidden := true
  errorText := ""
  displayHidden := true
  locationDisplay := JSVal.str ""
  latitudeText := ""
  longitudeText := ""
  lastUpdated := ""
  aqiText := JSVal.str ""
  aqiCategory := ""
  aqiDescription := ""
  aqiCardClass := "aqi-card"
  pollutantValues := []
  pollutantStatus := []
  recommendationsHtml := ""

/-- The monitor as the constructor leaves it, with `input` in the location field. -/
def Monitor.initial (input : String) : Monitor where
  currentData := none
  dom := Dom.initial input
  trace := []

/-- An environment for the example runs with the given providers. -/
def exampleEnv (providers : Nat → Request → FetchResult) : Env where
  host := exampleHost
  fetch := providers
  now := "2025-01-01T00:00:00.000Z"
  localeNow := "1/1/2025, 12:00:00 AM"
  geolocation := none

/-- A parsed body sent with status 200. -/
def okJson (body : JSVal) : FetchResult := FetchResult.resolved ⟨200, .ok body⟩

/-- A transport failure. -/
def networkFailure : FetchResult :=
  FetchResult.rejected ⟨"TypeError", "Failed to fetch"⟩

/-- An OpenWeatherMap body with index tier 2. -/
def parisAir : JSVal :=
  JSVal.obj [("list", JSVal.arr [JSVal.obj [
    ("main", JSVal.obj [("aqi", JSVal.num 2)]),
    ("components", JSVal.obj [
      ("co", JSVal.num (JSNum.fin 250)),
      ("no2", JSVal.num (JSNum.fin 12)),
      ("o3", JSVal.num (JSNum.fin 60)),
      ("so2", JSVal.num (JSNum.fin 3)),
      ("pm2_5", JSVal.num (JSNum.fin 8)),
      ("pm10", JSVal.num (JSNum.fin 15))])]])]

/-- A Nominatim `search` body with one candidate; Nominatim sends coordinates as strings. -/
def parisNominatim : JSVal :=
  JSVal.arr [JSVal.obj [
    ("display_name", JSVal.str "Paris, France"),
    ("lat", JSVal.str "48.8566"),
    ("lon", JSVal.str "2.3522")]]

/-- The shape `getCoordinatesNominatim` gives to a Nominatim candidate with the
properties `props`. -/
def translated (h : Host) (props : List (String × JSVal)) : JSVal :=
  JSVal.obj [("results", JSVal.arr [JSVal.obj [
    ("formatted", JSVal.lookup "display_name" props),
    ("geometry", JSVal.obj [
      ("lat", JSVal.num (h.parseFloat (JSVal.lookup "lat" props))),
      ("lng", JSVal.num (h.parseFloat (JSVal.lookup "lon" props)))])]])]

/-- Providers where the primary geocoder answers 200 with a body that is not JSON (an
HTML page), and the secondary geocoder and the air-quality provider answer normally. -/
def providersUnreadablePrimary : Nat → Request → FetchResult
  | _, Request.openCageForward _ =>
    FetchResult.resolved ⟨200, .error ⟨"SyntaxError", "Unexpected token < in JSON at position 0"⟩⟩
  | _, Request.nominatimSearch _ => okJson parisNominatim
  | _, Request.airPollution _ _ => okJson parisAir
  | _, _ => networkFailure

/-- Providers where the primary geocoder answers 401 and the others answer normally. -/
def providersAuthError : Nat → Request → FetchResult
  | _, Request.openCageForward _ =>
    FetchResult.resolved ⟨401, .ok (JSVal.obj [("results", JSVal.arr [])])⟩
  | _, Request.nominatimSearch _ => okJson parisNominatim
  | _, Request.airPollution _ _ => okJson parisAir
  | _, _ => networkFailure

/-- An OpenCage body with one candidate. -/
def parisOpenCage : JSVal :=
  JSVal.obj [("results", JSVal.arr [JSVal.obj [
    ("formatted", JSVal.str "Paris, France"),
    ("geometry", JSVal.obj [
      ("lat", JSVal.num (JSNum.fin (488566 / 10000))),
      ("lng", JSVal.num (JSNum.fin (23522 / 10000)))])]])]

/-- Providers that all answer normally. -/
def providersHealthy : Nat → Request → FetchResult
  | _, Request.openCageForward _ => okJson parisOpenCage
  | _, Request.nominatimSearch _ => okJson parisNominatim
  | _, Request.airPollution _ _ => okJson parisAir
  | _, _ => networkFailure

/-- Providers where the primary geocoder knows no candidate for the query. -/
def providersNoCandidate : Nat → Request → FetchResult
  | _, Request.openCageForward _ => okJson (JSVal.obj [("results", JSVal.arr [])])
  | _, Request.nominatimSearch _ => okJson parisNominatim
  | _, Request.airPollution _ _ => okJson parisAir
  | _, _ => networkFailure

/-- Providers where the primary geocoder answers 403 and the secondary knows no candidate. -/
def providersFallbackNoCandidate : Nat → Request → FetchResult
  | _, Request.openCageForward _ =>
    FetchResult.resolved ⟨403, .ok (JSVal.obj [("results", JSVal.arr [])])⟩
  | _, Request.nominatimSearch _ => okJson (JSVal.arr [])
  | _, Request.airPollution _ _ => okJson parisAir
  | _, _ => networkFailure

/-- Reverse-geocoding providers that both fail: the primary answers 401 and the
request to the secondary raises a transport error. -/
def providersReverseDown : Nat → Request → FetchResult
  | _, Request.openCageReverse _ _ =>
    FetchResult.resolved ⟨401, .ok (JSVal.obj [("results", JSVal.arr [])])⟩
  | _, _ => networkFailure

/-- Providers where the primary geocoder sends the coordinates as strings, the way
Nominatim does, and the air-quality provider answers normally. -/
def providersStringCoordinates : Nat → Request → FetchResult
  | _, Request.openCageForward _ =>
    okJson (JSVal.obj [("results", JSVal.arr [JSVal.obj [
      ("formatted", JSVal.str "Paris, France"),
      ("geometry", JSVal.obj [
        ("lat", JSVal.str "48.8566"),
        ("lng", JSVal.str "2.3522")])]])])
  | _, Request.airPollution _ _ => okJson parisAir
  | _, _ => networkFailure

/-- Providers where the geocoders answer normally and the air-quality provider
answers 503. -/
def providersAirDown : Nat → Request → FetchResult
  | _, Request.openCageForward _ => okJson parisOpenCage
  | _, Request.nominatimSearch _ => okJson parisNominatim
  | _, Request.airPollution _ _ => FetchResult.resolved ⟨503, .ok JSVal.null⟩
  | _, _ => networkFailure

/-- The bands from the safest to the most severe. -/
def severityOrder : List Band :=
  [Band.good, Band.moderate, Band.unhealthySensitive, Band.unhealthy, Band.veryUnhealthy,
    Band.hazardous]

/-- The coordinates read from a candidate `first` of the primary's shape:
`first.geometry.lat` and `first.geometry.lng`. -/
def candidateCoordinates (first : JSVal) : Except JSError (JSVal × JSVal) := do
  let geometry ← first.getProp "geometry"
  let latitude ← geometry.getProp "lat"
  let longitude ← geometry.getProp "lng"
  pure (latitude, longitude)

/-- An OpenCage body with two candidates, Paris first. -/
def twoCandidates : JSVal :=
  JSVal.obj [("results", JSVal.arr [
    JSVal.obj [
      ("formatted", JSVal.str "Paris, France"),
      ("geometry", JSVal.obj [
        ("lat", JSVal.num (JSNum.fin (488566 / 10000))),
        ("lng", JSVal.num (JSNum.fin (23522 / 10000)))])],
    JSVal.obj [
      ("formatted", JSVal.str "Paris, Texas, United States"),
      ("geometry", JSVal.obj [
        ("lat", JSVal.num (JSNum.fin (336609 / 10000))),
        ("lng", JSVal.num (JSNum.fin (-955555 / 10000)))])]])]

/-- Providers where the primary geocoder sends two candidates. -/
def providersTwoCandidates : Nat → Request → FetchResult
  | _, Request.openCageForward _ => okJson twoCandidates
  | _, Request.airPollution _ _ => okJson parisAir
  | _, _ => networkFailure

/-- Providers where the primary geocoder answers 401 and the secondary answers 500
every time it is asked. -/
def providersBothDown : Nat → Request → FetchResult
  | _, Request.openCageForward _ =>
    FetchResult.resolved ⟨401, .ok (JSVal.obj [("results", JSVal.arr [])])⟩
  | _, Request.nominatimSearch _ => FetchResult.resolved ⟨500, .ok JSVal.null⟩
  | _, Request.airPollution _ _ => okJson parisAir
  | _, _ => networkFailure

/-- Providers where the primary geocoder answers 401 and the secondary answers 500 to
the second request of the run and normally afterwards. -/
def providersSecondaryRecovers : Nat → Request → FetchResult
  | _, Request.openCageForward _ =>
    FetchResult.resolved ⟨401, .ok (JSVal.obj [("results", JSVal.arr [])])⟩
  | 1, Request.nominatimSearch _ => FetchResult.resolved ⟨500, .ok JSVal.null⟩
  | _, Request.nominatimSearch _ => okJson parisNominatim
  | _, Request.airPollution _ _ => okJson parisAir
  | _, _ => networkFailure

/-- The answer has a success status and a parsed body from which `data.results[0]`
cannot be read: `data` is `null`, or `data.results` is `undefined` or `null`. -/
def FetchResult.lacksResults : FetchResult → Bool
  | .rejected _ => false
  | .resolved resp =>
    resp.ok && (match resp.body with
      | .ok data =>
        (match data.getProp "results" >>= JSVal.index0 with
          | .ok _ => false
          | .error _ => true)
      | .error _ => false)

/-- The run from `before` to `after` issued a request to the secondary geocoder. -/
def consultsSecondary (before after : Monitor) : Bool :=
  (requestsOf (newEvents before after)).any Request.isSecondary

/-- Providers where the primary geocoder answers 200 with the body `{}`, to forward and
to reverse requests alike. -/
def providersNoResultsField : Nat → Request → FetchResult
  | _, Request.openCageForward _ => okJson (JSVal.obj [])
  | _, Request.openCageReverse _ _ => okJson (JSVal.obj [])
  | _, Request.nominatimSearch _ => okJson parisNominatim
  | _, Request.nominatimReverse _ _ => okJson (JSVal.obj [("display_name", JSVal.str "Paris")])
  | _, Request.airPollution _ _ => okJson parisAir

/-- Providers where the primary geocoder answers 401 to forward and to reverse requests
and the secondary answers normally. -/
def providersAuth401 : Nat → Request → FetchResult
  | _, Request.openCageForward _ => FetchResult.resolved ⟨401, .ok JSVal.null⟩
  | _, Request.openCageReverse _ _ => FetchResult.resolved ⟨401, .ok JSVal.null⟩
  | _, Request.nominatimSearch _ => okJson parisNominatim
  | _, Request.nominatimReverse _ _ => okJson (JSVal.obj [("display_name", JSVal.str "Paris")])
  | _, Request.airPollution _ _ => okJson parisAir

/-- The event is a call of `showResults`. -/
def Event.isShowResults : Event → Bool
  | .showResults => true
  | _ => false

/-- The number of `showResults` calls in a trace. -/
def resultsShown (trace : List Event) : Nat := (trace.filter Event.isShowResults).length

/-- The message `fetchAirQualityData` reports when the provider gave no data. -/
def unavailableError : String := "Air quality data unavailable. Please try again later."

/-- A step that returns, never throws. -/
def M.Returns (m : M α) : Prop := ∀ e s, ∃ a s1, m e s = (.ok a, s1)

/-- The value is a number or is absent (`undefined`). -/
def JSVal.NumberOrAbsent (v : JSVal) : Prop := v = JSVal.undefined ∨ ∃ x, v = JSVal.num x

/-- The record `getOpenWeatherAirQuality` builds from `main.aqi` and the properties `c`
of `components` (script.js 259-269). -/
def normalizedRecord (h : Host) (aqi : JSVal) (c : List (String × JSVal)) : AirQuality :=
  { aqi := (aqi.toNumber h).mul 50
    pm10 := JSVal.lookup "pm10" c
    pm25 := JSVal.lookup "pm2_5" c
    o3 := JSVal.lookup "o3" c
    no2 := JSVal.lookup "no2" c
    so2 := JSVal.lookup "so2" c
    co := ((JSVal.lookup "co" c).toNumber h).div 1000 }

/-- An OpenWeatherMap body with index tier 2 and no `pm10` field. -/
def airWithoutPm10 : JSVal :=
  JSVal.obj [("list", JSVal.arr [JSVal.obj [
    ("main", JSVal.obj [("aqi", JSVal.num 2)]),
    ("components", JSVal.obj [
      ("co", JSVal.num (JSNum.fin 250)),
      ("no2", JSVal.num (JSNum.fin 12)),
      ("o3", JSVal.num (JSNum.fin 60)),
      ("so2", JSVal.num (JSNum.fin 3)),
      ("pm2_5", JSVal.num (JSNum.fin 8))])]])]

/-- Providers where the geocoder answers normally and the air-quality body has no
`pm10` field. -/
def providersMissingPm10 : Nat → Request → FetchResult
  | _, Request.openCageForward _ => okJson parisOpenCage
  | _, Request.airPollution _ _ => okJson airWithoutPm10
  | _, _ => networkFailure

/-- The event is a file download started by `exportData`. -/
def Event.isDownload : Event → Bool
  | .download _ _ _ => true
  | _ => false

/-- The downloads of a trace, in order. -/
def exportsOf (trace : List Event) : List Event := trace.filter Event.isDownload

/-- A stored snapshot for Paris. -/
def parisSnapshot : Snapshot where
  location := JSVal.str "Paris"
  latitude := JSVal.num 48
  longitude := JSVal.num 2
  aqi := 100
  pm10 := JSVal.num 15
  pm25 := JSVal.num 8
  o3 := JSVal.num 60
  no2 := JSVal.num 12
  so2 := JSVal.num 3
  co := 1
  timestamp := "2025-01-01T00:00:00.000Z"

/-- The monitor after a search that stored `parisSnapshot`. -/
def Monitor.afterParis : Monitor where
  currentData := some parisSnapshot
  dom := Dom.initial "Paris"
  trace := []

/-- Position of an index category in the severity order, Good first (6 for any other
text). -/
def bandRank (category : String) : Nat := (severityOrder.map Band.category).indexOf category

/-- Position of a pollutant tier text in the order Good, Moderate, Unhealthy for
Sensitive, Unhealthy, Very Unhealthy (5 for any other text). -/
def tierRank (text : String) : Nat := ([0, 1, 2, 3, 4].map tierText).indexOf text

/-- Providers where the primary geocoder answers every request with the status `status`
and the others answer normally. -/
def providersPrimaryStatus (status : Nat) : Nat → Request → FetchResult
  | _, Request.openCageForward _ => FetchResult.resolved ⟨status, .ok JSVal.null⟩
  | _, Request.nominatimSearch _ => okJson parisNominatim
  | _, Request.airPollution _ _ => okJson parisAir
  | _, _ => networkFailure

/-- The five advisory bands as the specification words them. -/
inductive AdvisoryBand where
  | upTo50 | upTo100 | upTo150 | upTo200 | above200
  deriving DecidableEq

/-- The interval of each advisory band: `aqi <= 50`, `50 < aqi <= 100`,
`100 < aqi <= 150`, `150 < aqi <= 200`, `aqi > 200`. -/
def AdvisoryBand.contains : AdvisoryBand → JSNum → Bool
  | .upTo50, a => a.le 50
  | .upTo100, a => JSNum.lt 50 a && a.le 100
  | .upTo150, a => JSNum.lt 100 a && a.le 150
  | .upTo200, a => JSNum.lt 150 a && a.le 200
  | .above200, a => a.gt 200

/-- An OpenCage body whose only candidate has a name and no `geometry`. -/
def candidateWithoutGeometry : JSVal :=
  JSVal.obj [("results", JSVal.arr [JSVal.obj [("formatted", JSVal.str "Paris, France")]])]

/-- Providers where the primary geocoder answers 200 with a candidate that has no
`geometry`, and the others answer normally. -/
def providersNoGeometry : Nat → Request → FetchResult
  | _, Request.openCageForward _ => okJson candidateWithoutGeometry
  | _, Request.nominatimSearch _ => okJson parisNominatim
  | _, Request.airPollution _ _ => okJson parisAir
  | _, _ => networkFailure

/-- Providers where the primary geocoder answers 200 with an empty result list, to
forward and to reverse requests alike, and the others answer normally. -/
def providersEmptyResults : Nat → Request → FetchResult
  | _, Request.openCageForward _ => okJson (JSVal.obj [("results", JSVal.arr [])])
  | _, Request.openCageReverse _ _ => okJson (JSVal.obj [("results", JSVal.arr [])])
  | _, Request.nominatimSearch _ => okJson parisNominatim
  | _, Request.nominatimReverse _ _ => okJson (JSVal.obj [("display_name", JSVal.str "Paris")])
  | _, Request.airPollution _ _ => okJson parisAir

end AirQualityMonitor

/-! # Reverse-geocoding lookup

A shallow embedding of the click handler of
`task 2/abunesh r p api modules/location/script.js`.  The two field values are strings; a
relational operator converts them with `ToNumber`, taken from the host. -/

namespace LocationLookup

open AirQualityMonitor (JSNum Host)

/-- The request to the reverse-geocoding provider: the URL is the fixed endpoint and key
followed by `&lat=${latitude}&lon=${longitude}&format=json`. -/
structure Request where
  lat : String
  lon : String
  deriving DecidableEq

/-- The page of the lookup: the values of the two input fields, the `innerHTML` of the
elements `location` and `coordinates`, and the requests issued so far. -/
structure Page where
  latitude : String
  longitude : String
  location : String
  coordinates : String
  requests : List Request
  deriving DecidableEq

/-- The relational test `text < bound` of a string against a number: the string is
converted by `ToNumber`. -/
def ltNumber (h : Host) (text : String) (bound : JSNum) : Bool :=
  (h.stringToNumber text).lt bound

/-- The relational test `text > bound` of a string against a number. -/
def gtNumber (h : Host) (text : String) (bound : JSNum) : Bool :=
  (h.stringToNumber text).gt bound

/-- The message for a missing field (script.js 17). -/
def bothMessage : String :=
  "<span style=\"color: red;\">⚠️ Please enter both latitude and longitude</span>"

/-- The message for a latitude out of range (script.js 22). -/
def latitudeMessage : String :=
  "<span style=\"color: red;\">⚠️ Latitude must be between -90 and 90</span>"

/-- The message for a longitude out of range (script.js 27). -/
def longitudeMessage : String :=
  "<span style=\"color: red;\">⚠️ Longitude must be between -180 and 180</span>"

/-- The loading text (script.js 35). -/
def loadingMessage : String := "<div class=\"loading\">🔄 Loading location data...</div>"

/-- The text written to `coordinates` while the request is pending (script.js 36-40). -/
def searchingCoordinates (latitude longitude : String) : String :=
  "\n        <strong>🎯 Searching Coordinates:</strong><br>\n        Latitude: <strong>"
    ++ latitude ++ "</strong><br>\n        Longitude: <strong>" ++ longitude
    ++ "</strong>\n    "

/-- The click handler of `fetchLocation` (script.js 8-42), up to and including the call
of `fetch`; the callbacks attached to the promise run when the provider has answered
and issue no request. -/
def fetchLocationClick (h : Host) (p : Page) : Page :=
  let latitude := p.latitude
  let longitude := p.longitude
  if latitude = "" ∨ longitude = "" then
    { p with location := bothMessage }
  else if ltNumber h latitude (JSNum.fin (-90)) || gtNumber h latitude 90 then
    { p with location := latitudeMessage }
  else if ltNumber h longitude (JSNum.fin (-180)) || gtNumber h longitude 180 then
    { p with location := longitudeMessage }
  else
    { p with
      location := loadingMessage
      coordinates := searchingCoordinates latitude longitude
      requests := p.requests ++ [⟨latitude, longitude⟩] }

/-- The condition `lo <= x <= hi` of the specification on a number. -/
def Within (lo hi : ℚ) : JSNum → Prop
  | JSNum.fin q => lo ≤ q ∧ q ≤ hi
  | _ => False

/-- The text parses as a number: it is not empty and `ToNumber` does not give `NaN`. -/
def ParsesAsNumber (h : Host) (text : String) : Prop :=
  text ≠ "" ∧ h.stringToNumber text ≠ JSNum.nan

/-- The text is a number outside `lo <= x <= hi`. -/
def OutOfRange (h : Host) (lo hi : ℚ) (text : String) : Prop :=
  ParsesAsNumber h text ∧ ¬ Within lo hi (h.stringToNumber text)

/-- A page with the given field values and nothing shown or requested yet. -/
def Page.initial (latitude longitude : String) : Page :=
  { latitude := latitude, longitude := longitude, location := "", coordinates := "",
    requests := [] }

end LocationLookup

/-! # Photo gallery

A shallow embedding of the class `PhotoVaultApp` of
`task 4/intractive js and css/script.js`: the object `this.state`, the array
`this.config.images`, and the methods that change them.  A method is a function on the
application; calls are sequential, each followed to its end, `await` being sequencing.
Numbers that hold counters and indices are integers; `zoomLevel` is an exact rational
(the rounding of `*` and `/` to the nearest double is not modelled). -/

namespace PhotoVaultApp

open AirQualityMonitor (JSError typeError jsTrim)

/-- `PHOTOVAULT_CONFIG.auth.maxLoginAttempts` (config.js 16). -/
def PHOTOVAULT_CONFIG.auth.maxLoginAttempts : Int := 5

/-- `PHOTOVAULT_CONFIG.gallery.maxZoomLevel` (config.js 46). -/
def PHOTOVAULT_CONFIG.gallery.maxZoomLevel : ℚ := 5

/-- `PHOTOVAULT_CONFIG.gallery.minZoomLevel` (config.js 47). -/
def PHOTOVAULT_CONFIG.gallery.minZoomLevel : ℚ := 25 / 100

/-- A member of `config.validCredentials`. -/
structure Credential where
  username : String
  password : String
  deriving DecidableEq

/-- The object stored in `state.currentUser`. -/
structure User where
  username : String
  displayName : String
  loginTime : String
  deriving DecidableEq

/-- A member of `config.images`. -/
structure Image where
  id : ℚ
  src : String
  thumb : String
  alt : String
  title : String
  uploadDate : String
  format : String
  size : String
  views : Int
  deriving DecidableEq

/-- The texts passed to `showError`: a string literal, or the template literal of
script.js 386, which is given by the number it prints. -/
inductive ErrorText where
  | literal (text : String)
  | invalidCredentials (remainingAttempts : Int)
  deriving DecidableEq

/-- A call of `showError`, `showSuccess` or `showInfo`. -/
inductive Message where
  | error (text : ErrorText)
  | success (text : String)
  | info (text : String)
  deriving DecidableEq

/-- The object `this.state` (script.js 8-20); `slideshowInterval` holds whether a timer
is set. -/
structure State where
  isLoggedIn : Bool
  currentUser : Option User
  currentImageIndex : Int
  isFullscreen : Bool
  zoomLevel : ℚ
  rotation : Int
  slideshowInterval : Bool
  loginAttempts : Int
  viewMode : String
  favorites : List ℚ
  uploadProgress : Int
  deriving DecidableEq

/-- Which of the cached elements that guard a change of state exist in the page. -/
structure Elements where
  fullscreenModal : Bool
  fullscreenImage : Bool
  deriving DecidableEq

/-- The application object: `this.state`, `this.config.images` (the other members of
`this.config` never change and are the constants below), the elements, the messages
shown so far and the user kept in `localStorage`.  The content of the page is not
tracked. -/
structure App where
  state : State
  images : List Image
  elements : Elements
  messages : List Message
  stored : Option User
  deriving DecidableEq

/-- `config.maxLoginAttempts` (script.js 23). -/
def config.maxLoginAttempts : Int := 5

/-- `config.validCredentials` (script.js 27-31). -/
def config.validCredentials : List Credential :=
  [ ⟨"admin", "password"⟩, ⟨"user@demo.com", "demo123"⟩, ⟨"photographer", "gallery2025"⟩ ]

/-- The initial `config.images` (script.js 32-88). -/
def config.images : List Image :=
  [ { id := 1
      src := "https://images.unsplash.com/photo-1506905925346-21bda4d32df4?w=1200&h=800&fit=crop"
      thumb := "https://images.unsplash.com/photo-1506905925346-21bda4d32df4?w=150&h=150&fit=crop"
      alt := "Mountain landscape at sunset"
      title := "Mountain Sunset"
      uploadDate := "2025-09-01"
      format := "JPEG"
      size := "1920 x 1080"
      views := 247 },
    { id := 2
      src := "https://images.unsplash.com/photo-1519904981063-b0cf448d479e?w=1200&h=800&fit=crop"
      thumb := "https://images.unsplash.com/photo-1519904981063-b0cf448d479e?w=150&h=150&fit=crop"
      alt := "Ocean waves crashing on rocks"
      title := "Ocean Waves"
      uploadDate := "2025-09-02"
      format := "JPEG"
      size := "1920 x 1280"
      views := 189 },
    { id := 3
      src := "https://images.unsplash.com/photo-1501594907352-04cda38ebc29?w=1200&h=800&fit=crop"
      thumb := "https://images.unsplash.com/photo-1501594907352-04cda38ebc29?w=150&h=150&fit=crop"
      alt := "Forest path with sunlight"
      title := "Forest Path"
      uploadDate := "2025-09-03"
      format := "JPEG"
      size := "1600 x 1200"
      views := 156 },
    { id := 4
      src := "https://images.unsplash.com/photo-1518837695005-2083093ee35b?w=1200&h=800&fit=crop"
      thumb := "https://images.unsplash.com/photo-1518837695005-2083093ee35b?w=150&h=150&fit=crop"
      alt := "Desert landscape with dunes"
      title := "Desert Dunes"
      uploadDate := "2025-08-30"
      format := "JPEG"
      size := "2048 x 1365"
      views := 203 },
    { id := 5
      src := "https://images.unsplash.com/photo-1507525428034-b723cf961d3e?w=1200&h=800&fit=crop"
      thumb := "https://images.unsplash.com/photo-1507525428034-b723cf961d3e?w=150&h=150&fit=crop"
      alt := "Tropical beach paradise"
      title := "Tropical Beach"
      uploadDate := "2025-08-28"
      format := "JPEG"
      size := "1920 x 1080"
      views := 312 } ]

/-- The application as the constructor leaves it (script.js 7-93). -/
def App.initial (elements : Elements) : App where
  state :=
    { isLoggedIn := false
      currentUser := none
      currentImageIndex := 0
      isFullscreen := false
      zoomLevel := 1
      rotation := 0
      slideshowInterval := false
      loginAttempts := 0
      viewMode := "single"
      favorites := []
      uploadProgress := 0 }
  images := config.images
  elements := elements
  messages := []
  stored := none

/-- `showError(message)` (script.js 947-954). -/
def showError (message : ErrorText) (app : App) : App :=
  { app with messages := app.messages ++ [Message.error message] }

/-- `showSuccess(message)` (script.js 968-970). -/
def showSuccess (message : String) (app : App) : App :=
  { app with messages := app.messages ++ [Message.success message] }

/-- `showInfo(message)` (script.js 975-977). -/
def showInfo (message : String) (app : App) : App :=
  { app with messages := app.messages ++ [Message.info message] }

/-- The read `this.config.images[index]`: `undefined` outside the array. -/
def imageAt (images : List Image) (index : Int) : Option Image :=
  if 0 ≤ index then images.get? index.toNat else none

/-- `incrementViewCount(index)` (script.js 492-497). -/
def incrementViewCount (index : Int) (app : App) : App :=
  match imageAt app.images index with
  | some _ =>
    let viewed := app.images.modify (fun image => { image with views := image.views + 1 })
      index.toNat
    { app with images := viewed }
  | none => app

/-- `selectImage(index)` (script.js 441-449). -/
def selectImage (index : Int) (app : App) : App :=
  if 0 ≤ index ∧ index < app.images.length then
    incrementViewCount index { app with state := { app.state with currentImageIndex := index } }
  else app

/-- `navigateImage(direction)` (script.js 430-436). -/
def navigateImage (direction : Int) (app : App) : App :=
  let newIndex := app.state.currentImageIndex + direction
  if 0 ≤ newIndex ∧ newIndex < app.images.length then selectImage newIndex app else app

/-- The callback `startSlideshow` hands to `setInterval` (script.js 514-517).  With no
image the remainder is `NaN` and `selectImage` does nothing. -/
def slideshowTick (app : App) : App :=
  if app.images.length = 0 then app
  else selectImage (Int.tmod (app.state.currentImageIndex + 1) app.images.length) app

/-- `startSlideshow()` (script.js 513-524). -/
def startSlideshow (app : App) : App :=
  showInfo "Slideshow started" { app with state := { app.state with slideshowInterval := true } }

/-- `stopSlideshow()` (script.js 529-540). -/
def stopSlideshow (app : App) : App :=
  if app.state.slideshowInterval then
    showInfo "Slideshow stopped"
      { app with state := { app.state with slideshowInterval := false } }
  else app

/-- `toggleSlideshow()` (script.js 502-508). -/
def toggleSlideshow (app : App) : App :=
  if app.state.slideshowInterval then stopSlideshow app else startSlideshow app

/-- `showPhotoSection()` (script.js 880-890). -/
def showPhotoSection (app : App) : App := selectImage 0 app

/-- The values `handleLogin` reads from the form (script.js 335-337); `none` is
`undefined`, read when the element is missing. -/
structure LoginForm where
  username : Option String
  password : Option String
  rememberMe : Option Bool
  deriving DecidableEq

/-- What `handleLogin` takes from outside the application: the clock, and whether
`localStorage.setItem` throws. -/
structure Env where
  now : String
  storageFails : Bool
  deriving DecidableEq

/-- Truthiness of a value that is a string or `undefined`. -/
def truthyText : Option String → Bool
  | some s => decide (s ≠ "")
  | none => false

/-- The expression `validUser.username.split('@')[0] || validUser.username`. -/
def displayNameOf (username : String) : String :=
  let head := (username.splitOn "@").headD ""
  if head ≠ "" then head else username

/-- `handleLogin(event)` (script.js 332-396), one call followed from its start to its
end.  No member of `validCredentials` has an `email` property, so the test
`cred.email === username` is false for every string. -/
def handleLogin (env : Env) (form : LoginForm) (app : App) : App :=
  let username := form.username.map jsTrim
  let password := form.password
  if !truthyText username || !truthyText password then
    showError (ErrorText.literal "Please enter both username and password") app
  else if app.state.loginAttempts ≥ config.maxLoginAttempts then
    showError (ErrorText.literal "Too many failed attempts. Please try again later.") app
  else
    match config.validCredentials.find? fun cred =>
        decide (some cred.username = username) && decide (some cred.password = password) with
    | some validUser =>
      let user : User :=
        { username := validUser.username
          displayName := displayNameOf validUser.username
          loginTime := env.now }
      let app := { app with
        state := { app.state with currentUser := some user, isLoggedIn := true, loginAttempts := 0 } }
      if form.rememberMe = some true ∧ env.storageFails = true then
        showError (ErrorText.literal "Login failed. Please try again.") app
      else
        let app := if form.rememberMe = some true then { app with stored := some user } else app
        showPhotoSection (showSuccess "Login successful! Welcome to PhotoVault" app)
    | none =>
      let app := { app with
        state := { app.state with loginAttempts := app.state.loginAttempts + 1 } }
      let remainingAttempts := config.maxLoginAttempts - app.state.loginAttempts
      showError (ErrorText.invalidCredentials remainingAttempts) app

/-- A file read by `processFile`, with what the clock and `Math.random` gave for it. -/
structure UploadedFile where
  name : String
  type : String
  size : Nat
  dataUrl : String
  id : ℚ
  localeDate : String
  deriving DecidableEq

/-- The `onload` callback of `processFile(file)` (script.js 803-821); `none` when
`file.type` has no second part and `toUpperCase` is called on `undefined`. -/
def processFile (file : UploadedFile) (app : App) : Option App :=
  match (file.type.splitOn "/").get? 1 with
  | none => none
  | some subtype =>
    some { app with
      images := app.images ++ [
        { id := file.id
          src := file.dataUrl
          thumb := file.dataUrl
          alt := file.name
          title := (file.name.splitOn ".").headD ""
          uploadDate := file.localeDate
          format := subtype.toUpper
          size := toString ((file.size + 512) / 1024) ++ " KB"
          views := 0 }] }

/-- The loop of `handleFiles` (script.js 787-794).  When the callback of `processFile`
throws, the promise awaited by the loop never settles and the loop goes no further; the
files that passed the filter of `handleFiles` have a second part in their type, so this
does not arise there. -/
def processFiles : List UploadedFile → App → App
  | [], app => app
  | file :: rest, app =>
    match processFile file app with
    | some app1 => processFiles rest app1
    | none => app

/-- `handleFiles(files)` (script.js 777-798). -/
def handleFiles (files : List UploadedFile) (app : App) : App :=
  let imageFiles := files.filter fun file => file.type.startsWith "image/"
  if imageFiles.length = 0 then
    showError (ErrorText.literal "Please select valid image files") app
  else
    showSuccess (toString imageFiles.length ++ " image(s) uploaded successfully")
      (processFiles imageFiles app)

/-- `openFullscreen()` (script.js 601-613). -/
def openFullscreen (app : App) : Except JSError App :=
  match imageAt app.images app.state.currentImageIndex with
  | some _ =>
    if app.elements.fullscreenModal then
      if app.elements.fullscreenImage then
        .ok { app with state := { app.state with isFullscreen := true, zoomLevel := 1, rotation := 0 } }
      else .error (typeError "Cannot set properties of null (setting src)")
    else .ok app
  | none => .ok app

/-- `closeFullscreen()` (script.js 618-626). -/
def closeFullscreen (app : App) : App :=
  if app.elements.fullscreenModal then
    { app with state := { app.state with isFullscreen := false, zoomLevel := 1, rotation := 0 } }
  else app

/-- `zoomIn()` (script.js 631-636). -/
def zoomIn (app : App) : App :=
  if app.state.isFullscreen then
    { app with state := { app.state with zoomLevel := min (app.state.zoomLevel * (125 / 100)) 5 } }
  else app

/-- `zoomOut()` (script.js 641-646). -/
def zoomOut (app : App) : App :=
  if app.state.isFullscreen then
    { app with
      state := { app.state with zoomLevel := max (app.state.zoomLevel / (125 / 100)) (25 / 100) } }
  else app

/-- `rotateImage()` (script.js 651-656). -/
def rotateImage (app : App) : App :=
  if app.state.isFullscreen then
    { app with state := { app.state with rotation := Int.tmod (app.state.rotation + 90) 360 } }
  else app

/-- A sequence of `handleLogin` calls, each run to its end before the next starts. -/
def loginSequence : List (Env × LoginForm) → App → App
  | [], app => app
  | call :: rest, app => loginSequence rest (handleLogin call.1 call.2 app)

/-- The numbers of remaining attempts reported by the messages, in order. -/
def reportedRemaining : List Message → List Int
  | [] => []
  | Message.error (ErrorText.invalidCredentials k) :: rest => k :: reportedRemaining rest
  | _ :: rest => reportedRemaining rest

/-- A login with a wrong password. -/
def wrongPassword : Env × LoginForm :=
  (⟨"2025-09-01T10:00:00.000Z", false⟩, ⟨some "admin", some "letmein", some false⟩)

/-- A login with valid credentials. -/
def adminLogin : Env × LoginForm :=
  (⟨"2025-09-01T10:05:00.000Z", false⟩, ⟨some " admin ", some "password", some true⟩)

/-- The gallery operations that read or write `currentImageIndex` or `config.images`. -/
inductive GalleryAction where
  | navigateImage (direction : Int)
  | selectImage (index : Int)
  | slideshowTick
  | upload (files : List UploadedFile)

/-- One gallery operation. -/
def GalleryAction.perform : GalleryAction → App → App
  | .navigateImage direction, app => PhotoVaultApp.navigateImage direction app
  | .selectImage index, app => PhotoVaultApp.selectImage index app
  | .slideshowTick, app => PhotoVaultApp.slideshowTick app
  | .upload files, app => handleFiles files app

/-- A sequence of gallery operations, in order. -/
def GalleryAction.performAll : List GalleryAction → App → App
  | [], app => app
  | action :: rest, app => GalleryAction.performAll rest (action.perform app)

/-- The index `currentImageIndex` is a valid index of `config.images`. -/
def ValidIndex (app : App) : Prop :=
  0 ≤ app.state.currentImageIndex ∧ app.state.currentImageIndex < app.images.length

/-- An uploaded picture. -/
def holidayPhoto : UploadedFile where
  name := "holiday.png"
  type := "image/png"
  size := 204800
  dataUrl := "data:image/png;base64,iVBORw0KGgo="
  id := 1756720800000
  localeDate := "9/1/2025"

/-- The operations of the fullscreen viewer. -/
inductive ViewerAction where
  | openFullscreen
  | closeFullscreen
  | zoomIn
  | zoomOut
  | rotateImage
  deriving DecidableEq

/-- One operation of the viewer.  A throw in `openFullscreen` happens before its first
assignment to the state and leaves the application as it was. -/
def ViewerAction.perform : ViewerAction → App → App
  | .openFullscreen, app =>
    match PhotoVaultApp.openFullscreen app with
    | .ok opened => opened
    | .error _ => app
  | .closeFullscreen, app => PhotoVaultApp.closeFullscreen app
  | .zoomIn, app => PhotoVaultApp.zoomIn app
  | .zoomOut, app => PhotoVaultApp.zoomOut app
  | .rotateImage, app => PhotoVaultApp.rotateImage app

/-- A sequence of viewer operations, in order. -/
def ViewerAction.performAll : List ViewerAction → App → App
  | [], app => app
  | action :: rest, app => ViewerAction.performAll rest (action.perform app)

/-- The zoom level lies between the configured bounds and the rotation is a multiple of
90 degrees below 360. -/
def ViewerBounds (app : App) : Prop :=
  (PHOTOVAULT_CONFIG.gallery.minZoomLevel ≤ app.state.zoomLevel ∧
    app.state.zoomLevel ≤ PHOTOVAULT_CONFIG.gallery.maxZoomLevel) ∧
  app.state.rotation ∈ [0, 90, 180, 270]

end PhotoVaultApp

/-! # Weather forecast

A shallow embedding of `groupForecastsByDate` of `weather forecasting/script.js`.  The
accumulator is an ordinary object: a read of a property it does not own falls through to
`Object.prototype`. -/

namespace WeatherForecast

open AirQualityMonitor (JSVal JSError typeError)

/-- The record `parseForecastData` builds for one entry of the provider's list
(script.js 19-37); `date` is `dt_txt.split(' ')[0]`, a string. -/
structure Forecast where
  dt_txt : String
  date : String
  temperature : JSVal
  feels_like : JSVal
  temp_min : JSVal
  temp_max : JSVal
  humidity : JSVal
  pressure : JSVal
  wind_speed : JSVal
  wind_deg : JSVal
  weather_description : JSVal
  cloudiness : JSVal
  rain : JSVal
  snow : JSVal
  visibility : JSVal
  sea_level : JSVal
  grnd_level : JSVal

/-- The accumulator object of `groupForecastsByDate`: its own properties, in the order
of their creation, each holding an array of forecasts. -/
abbrev Groups := List (String × List Forecast)

/-- The names of the properties that an object created by `{}` inherits from
`Object.prototype`. -/
def objectPrototypeKeys : List String :=
  [ "constructor", "hasOwnProperty", "isPrototypeOf", "propertyIsEnumerable",
    "toLocaleString", "toString", "valueOf", "__proto__", "__defineGetter__",
    "__defineSetter__", "__lookupGetter__", "__lookupSetter__" ]

/-- The own property `key` of the accumulator, if there is one. -/
def getEntry (key : String) : Groups → Option (List Forecast)
  | [] => none
  | (k, v) :: rest => if k = key then some v else getEntry key rest

/-- What the read `acc[key]` finds: an own property (an array), a member inherited from
`Object.prototype` (a function or an object, truthy and without a `push` method), or
nothing (`undefined`). -/
inductive Slot where
  | own (group : List Forecast)
  | inherited
  | missing

/-- The read `acc[key]`. -/
def readSlot (acc : Groups) (key : String) : Slot :=
  match getEntry key acc with
  | some group => Slot.own group
  | none => if key ∈ objectPrototypeKeys then Slot.inherited else Slot.missing

/-- The callback of `reduce` in `groupForecastsByDate` (script.js 41-47). -/
def groupStep (acc : Groups) (forecast : Forecast) : Except JSError Groups :=
  let acc1 :=
    match readSlot acc forecast.date with
    | Slot.missing => AirQualityMonitor.setEntry forecast.date [] acc
    | _ => acc
  match readSlot acc1 forecast.date with
  | Slot.own group => .ok (AirQualityMonitor.setEntry forecast.date (group ++ [forecast]) acc1)
  | Slot.inherited => .error (typeError "acc[forecast.date].push is not a function")
  | Slot.missing => .error (typeError "Cannot read properties of undefined (reading push)")

/-- `array.reduce(callback, initialValue)` with a callback that may throw. -/
def reduce (callback : β → α → Except JSError β) : List α → β → Except JSError β
  | [], acc => .ok acc
  | x :: rest, acc =>
    match callback acc x with
    | .ok acc1 => reduce callback rest acc1
    | .error err => .error err

/-- `groupForecastsByDate(forecasts)` (script.js 40-48). -/
def groupForecastsByDate (forecasts : List Forecast) : Except JSError Groups :=
  reduce groupStep forecasts []

/-- A forecast with the given time stamp and date and no measurements. -/
def Forecast.at (dt_txt date : String) : Forecast where
  dt_txt := dt_txt
  date := date
  temperature := JSVal.num 20
  feels_like := JSVal.num 19
  temp_min := JSVal.num 18
  temp_max := JSVal.num 22
  humidity := JSVal.num 60
  pressure := JSVal.num 1013
  wind_speed := JSVal.num 3
  wind_deg := JSVal.num 180
  weather_description := JSVal.str "clear sky"
  cloudiness := JSVal.num 0
  rain := JSVal.num 0
  snow := JSVal.num 0
  visibility := JSVal.num 10000
  sea_level := JSVal.str "N/A"
  grnd_level := JSVal.str "N/A"

/-- Three forecasts over two days. -/
def twoDays : List Forecast :=
  [ Forecast.at "2025-09-01 09:00:00" "2025-09-01",
    Forecast.at "2025-09-02 09:00:00" "2025-09-02",
    Forecast.at "2025-09-01 12:00:00" "2025-09-01" ]

/-- The invariant of the reduction after the forecasts `seen`: the keys are distinct,
the property of a date holds the forecasts of that date seen so far, in order, and is
present exactly when there is one, and the group sizes add up to the number seen. -/
def Grouped (seen : List Forecast) (acc : Groups) : Prop :=
  (acc.map Prod.fst).Nodup ∧
  (∀ d, getEntry d acc
    = if (seen.filter fun f => f.date = d).isEmpty then none
      else some (seen.filter fun f => f.date = d)) ∧
  (acc.map fun p => p.2.length).sum = seen.length

end WeatherForecast

namespace AirQualityMonitor

/-! # Properties

## The classifiers -/

theorem contains_unique (aqi : JSNum) (b c : Band)
    (hb : b.contains aqi = true) (hc : c.contains aqi = true) : b = c := by
  cases aqi with
  | nan => cases b <;> simp [Band.contains, JSNum.le, JSNum.lt, JSNum.gt] at hb
  | negInf =>
    cases b <;> cases c <;>
      simp_all [Band.contains, JSNum.le, JSNum.lt, JSNum.gt, OfNat.ofNat]
  | posInf =>
    cases b <;> cases c <;>
      simp_all [Band.contains, JSNum.le, JSNum.lt, JSNum.gt, OfNat.ofNat]
  | fin q =>
    cases b <;> cases c <;>
      simp only [Band.contains, JSNum.le, JSNum.lt, JSNum.gt, OfNat.ofNat,
        Bool.and_eq_true, decide_eq_true_eq] at hb hc <;>
      first
        | rfl
        | (exfalso; norm_num at hb hc; linarith [hb.1, hc.1])
        | (exfalso; norm_num at hb hc; linarith)


theorem category_of_contains (aqi : JSNum) (b : Band) (hb : b.contains aqi = true) :
    (getAQIInfo aqi).category = b.category := by
  cases aqi with
  | nan => cases b <;> simp [Band.contains, JSNum.le, JSNum.lt, JSNum.gt] at hb
  | negInf =>
    cases b <;> simp_all [Band.contains, JSNum.le, JSNum.lt, JSNum.gt, OfNat.ofNat, getAQIInfo,
      Band.category]
  | posInf =>
    cases b <;> simp_all [Band.contains, JSNum.le, JSNum.lt, JSNum.gt, OfNat.ofNat, getAQIInfo,
      Band.category]
  | fin q =>
    cases b <;>
      simp only [Band.contains, JSNum.le, JSNum.lt, JSNum.gt, OfNat.ofNat,
        Bool.and_eq_true, decide_eq_true_eq] at hb <;>
      norm_num at hb <;>
      simp only [getAQIInfo, JSNum.le, OfNat.ofNat, Band.category, decide_eq_true_eq] <;>
      norm_num <;>
      (repeat (first
        | rw [if_pos (by linarith [hb.1, hb.2])] | rw [if_neg (by linarith [hb.1, hb.2])]
        | rw [if_pos (by linarith)] | rw [if_neg (by linarith)]))

theorem exists_contains (aqi : JSNum) (h : aqi ≠ JSNum.nan) :
    ∃ b : Band, b.contains aqi = true := by
  cases aqi with
  | nan => exact absurd rfl h
  | negInf => exact ⟨.good, by simp [Band.contains, JSNum.le]⟩
  | posInf => exact ⟨.hazardous, by simp [Band.contains, JSNum.gt, JSNum.lt, OfNat.ofNat]⟩
  | fin q =>
    by_cases h1 : q ≤ 50
    · exact ⟨.good, by simpa [Band.contains, JSNum.le, OfNat.ofNat] using h1⟩
    by_cases h2 : q ≤ 100
    · exact ⟨.moderate, by
        simp only [Band.contains, JSNum.le, JSNum.lt, OfNat.ofNat, Bool.and_eq_true,
          decide_eq_true_eq]
        norm_num; exact ⟨by linarith, h2⟩⟩
    by_cases h3 : q ≤ 150
    · exact ⟨.unhealthySensitive, by
        simp only [Band.contains, JSNum.le, JSNum.lt, OfNat.ofNat, Bool.and_eq_true,
          decide_eq_true_eq]
        norm_num; exact ⟨by linarith, h3⟩⟩
    by_cases h4 : q ≤ 200
    · exact ⟨.unhealthy, by
        simp only [Band.contains, JSNum.le, JSNum.lt, OfNat.ofNat, Bool.and_eq_true,
          decide_eq_true_eq]
        norm_num; exact ⟨by linarith, h4⟩⟩
    by_cases h5 : q ≤ 300
    · exact ⟨.veryUnhealthy, by
        simp only [Band.contains, JSNum.le, JSNum.lt, OfNat.ofNat, Bool.and_eq_true,
          decide_eq_true_eq]
        norm_num; exact ⟨by linarith, h5⟩⟩
    · exact ⟨.hazardous, by
        simp only [Band.contains, JSNum.gt, JSNum.lt, OfNat.ofNat, decide_eq_true_eq]
        norm_num; linarith⟩


/-- C1: `getAQIInfo(aqi).category` is the category of the band whose interval holds `aqi`
(`<= 50` Good, `(50, 100]` Moderate, `(100, 150]` Unhealthy for Sensitive Groups,
`(150, 200]` Unhealthy, `(200, 300]` Very Unhealthy, `> 300` Hazardous); every number
other than `NaN` lies in exactly one band, and each of the breakpoints 50, 100, 150, 200,
300 lies in the lower band. -/
theorem getAQIInfo_category_bands (aqi : JSNum) :
    (∀ b : Band, b.contains aqi = true → (getAQIInfo aqi).category = b.category) ∧
    (aqi ≠ JSNum.nan → ∃! b : Band, b.contains aqi = true) ∧
    ((getAQIInfo 50).category = "Good" ∧ (getAQIInfo 100).category = "Moderate" ∧
      (getAQIInfo 150).category = "Unhealthy for Sensitive Groups" ∧
      (getAQIInfo 200).category = "Unhealthy" ∧
      (getAQIInfo 300).category = "Very Unhealthy") := by
  refine ⟨fun b hb => category_of_contains aqi b hb, fun h => ?_, ?_⟩
  · obtain ⟨b, hb⟩ := exists_contains aqi h
    exact ⟨b, hb, fun c hc => contains_unique aqi c b hc hb⟩
  · refine ⟨?_, ?_, ?_, ?_, ?_⟩ <;> decide

/-- Instance of C1 at `aqi = 120`: the band is Unhealthy for Sensitive Groups and no
other band holds 120. -/
theorem getAQIInfo_category_bands_witness :
    (getAQIInfo 120).category = "Unhealthy for Sensitive Groups" ∧
    (∃! b : Band, b.contains 120 = true) :=
  ⟨(getAQIInfo_category_bands 120).1 Band.unhealthySensitive (by decide),
    (getAQIInfo_category_bands 120).2.1 (by decide)⟩

/-- C2: on a threshold quadruple `getPollutantStatus` returns the tier at the position of
the first threshold `t` with `v <= t` (Good, Moderate, Unhealthy for Sensitive,
Unhealthy), and Very Unhealthy when there is none, in particular when `v` exceeds all
four; the text is always one of the five tiers; with `[50, 100, 150, 200]` the values 40
and 50 are Good and 51 is Moderate. -/
theorem getPollutantStatus_first_threshold (v t1 t2 t3 t4 : JSNum) :
    (getPollutantStatus v [t1, t2, t3, t4]).text
        = tierText (List.findIdx (fun t => v.le t) [t1, t2, t3, t4]) ∧
    (v.gt t1 = true → v.gt t2 = true → v.gt t3 = true → v.gt t4 = true →
      (getPollutantStatus v [t1, t2, t3, t4]).text = "Very Unhealthy") ∧
    (getPollutantStatus v [t1, t2, t3, t4]).text ∈
      ["Good", "Moderate", "Unhealthy for Sensitive", "Unhealthy", "Very Unhealthy"] ∧
    (getPollutantStatus (JSNum.fin 40) [50, 100, 150, 200]).text = "Good" ∧
    (getPollutantStatus (JSNum.fin 50) [50, 100, 150, 200]).text = "Good" ∧
    (getPollutantStatus (JSNum.fin 51) [50, 100, 150, 200]).text = "Moderate" := by
  have hgt : ∀ a b : JSNum, a.gt b = true → a.le b = false := by
    intro a b h
    cases a <;> cases b <;> simp_all [JSNum.gt, JSNum.lt, JSNum.le]
  refine ⟨?_, ?_, ?_, by decide, by decide, by decide⟩
  · simp only [getPollutantStatus, thresholdAt, List.get?, Option.getD, List.findIdx_cons,
      List.findIdx_nil]
    by_cases h1 : v.le t1 = true <;> by_cases h2 : v.le t2 = true <;>
      by_cases h3 : v.le t3 = true <;> by_cases h4 : v.le t4 = true <;>
      simp [h1, h2, h3, h4, tierText]
  · intro h1 h2 h3 h4
    simp [getPollutantStatus, thresholdAt, hgt _ _ h1, hgt _ _ h2, hgt _ _ h3, hgt _ _ h4]
  · simp only [getPollutantStatus, thresholdAt, List.get?, Option.getD]
    by_cases h1 : v.le t1 = true <;> by_cases h2 : v.le t2 = true <;>
      by_cases h3 : v.le t3 = true <;> by_cases h4 : v.le t4 = true <;>
      simp [h1, h2, h3, h4, tierText]

/-- Instance of C2 at `v = 170` with the PM10 thresholds, and at `v = 250`, above all four. -/
theorem getPollutantStatus_first_threshold_witness :
    (getPollutantStatus (JSNum.fin 170) [50, 100, 150, 200]).text = "Unhealthy" ∧
    (getPollutantStatus (JSNum.fin 250) [50, 100, 150, 200]).text = "Very Unhealthy" :=
  ⟨by
      have h := (getPollutantStatus_first_threshold (JSNum.fin 170) 50 100 150 200).1
      rw [h]; decide,
    (getPollutantStatus_first_threshold (JSNum.fin 250) 50 100 150 200).2.1
      (by decide) (by decide) (by decide) (by decide)⟩

/-! ## Evaluation lemmas -/

@[simp] theorem M.pure_apply (a : α) (e : Env) (s : Monitor) :
    (pure a : M α) e s = (.ok a, s) := rfl

@[simp] theorem M.bind_apply (m : M α) (f : α → M β) (e : Env) (s : Monitor) :
    (m >>= f) e s = match m e s with
      | (.ok a, s1) => f a e s1
      | (.error err, s1) => (.error err, s1) := rfl

@[simp] theorem M.lift_apply (r : Except JSError α) (e : Env) (s : Monitor) :
    M.lift r e s = (r, s) := rfl

@[simp] theorem M.env_apply (e : Env) (s : Monitor) : M.env e s = (.ok e, s) := rfl

@[simp] theorem M.get_apply (e : Env) (s : Monitor) : M.get e s = (.ok s, s) := rfl

@[simp] theorem M.raise_apply (err : JSError) (e : Env) (s : Monitor) :
    (M.raise err : M α) e s = (.error err, s) := rfl

@[simp] theorem M.modify_apply (f : Monitor → Monitor) (e : Env) (s : Monitor) :
    M.modify f e s = (.ok (), f s) := rfl

@[simp] theorem M.tryCatch_apply (body : M α) (handler : JSError → M α) (e : Env) (s : Monitor) :
    M.tryCatch body handler e s = match body e s with
      | (.ok a, s1) => (.ok a, s1)
      | (.error err, s1) => handler err e s1 := rfl

theorem fetch_apply (r : Request) (e : Env) (s : Monitor) :
    fetch r e s = match e.fetch (requestsOf s.trace).length r with
      | .rejected err => (.error err, s.requested r)
      | .resolved resp => (.ok resp, s.requested r) := rfl

@[simp] theorem requestsOf_requested (s : Monitor) (r : Request) :
    requestsOf (s.requested r).trace = requestsOf s.trace ++ [r] := by
  simp [Monitor.requested, requestsOf, Event.request?]

@[simp] theorem showError_apply (message : String) (e : Env) (s : Monitor) :
    showError message e s = (.ok (), s.withError message) := rfl

theorem getCoordinatesNominatim_apply (location : String) (e : Env) (s : Monitor) :
    getCoordinatesNominatim location e s =
      (nominatimSearchResult e (requestsOf s.trace).length location,
        s.requested (Request.nominatimSearch location)) := by
  simp only [getCoordinatesNominatim, nominatimSearchResult, M.bind_apply, fetch_apply]
  cases e.fetch (requestsOf s.trace).length (Request.nominatimSearch location) with
  | rejected err => rfl
  | resolved resp =>
    by_cases hok : resp.ok = true
    · simp only [hok, Bool.not_true, Bool.false_eq_true, if_false, if_true, Response.json,
        M.bind_apply, M.lift_apply, M.env_apply]
      cases resp.body <;> rfl
    · simp [hok]

theorem getOpenWeatherAirQuality_apply (lat lon : JSVal) (e : Env) (s : Monitor) :
    getOpenWeatherAirQuality lat lon e s =
      (.ok (openWeatherResult e (requestsOf s.trace).length lat lon),
        s.requested (Request.airPollution lat lon)) := by
  simp only [getOpenWeatherAirQuality, openWeatherResult, M.tryCatch_apply, M.bind_apply,
    fetch_apply]
  cases e.fetch (requestsOf s.trace).length (Request.airPollution lat lon) with
  | rejected err => rfl
  | resolved resp =>
    by_cases hok : resp.ok = true
    · simp only [hok, Bool.not_true, Bool.false_eq_true, if_false, if_true, Response.json,
        M.bind_apply, M.lift_apply, M.env_apply]
      cases resp.body with
      | error err => rfl
      | ok data =>
        simp only [bind, Except.bind]
        cases convertOpenWeather e.host data <;> rfl
    · simp [hok]

theorem getLocationNameNominatim_apply (lat lng : JSNum) (e : Env) (s : Monitor) :
    getLocationNameNominatim lat lng e s =
      (.ok (nominatimReverseResult e (requestsOf s.trace).length lat lng),
        s.requested (Request.nominatimReverse lat lng)) := by
  simp only [getLocationNameNominatim, nominatimReverseResult, M.tryCatch_apply, M.bind_apply,
    fetch_apply, M.env_apply]
  cases e.fetch (requestsOf s.trace).length (Request.nominatimReverse lat lng) with
  | rejected err => rfl
  | resolved resp =>
    by_cases hok : resp.ok = true
    · simp only [hok, if_true, Response.json, M.bind_apply, M.lift_apply]
      cases resp.body with
      | error err => rfl
      | ok data =>
        simp only [bind, Except.bind]
        cases nominatimName e.host lat lng data <;> rfl
    · simp [hok]

theorem getCoordinates_apply (location : String) (e : Env) (s : Monitor) :
    getCoordinates location e s =
      match e.fetch (requestsOf s.trace).length (Request.openCageForward location) with
      | .rejected _ =>
        (nominatimSearchResult e ((requestsOf s.trace).length + 1) location,
          (s.requested (Request.openCageForward location)).requested
            (Request.nominatimSearch location))
      | .resolved resp =>
        if resp.ok then
          match resp.body with
          | .ok data => (.ok data, s.requested (Request.openCageForward location))
          | .error _ =>
            (nominatimSearchResult e ((requestsOf s.trace).length + 1) location,
              (s.requested (Request.openCageForward location)).requested
                (Request.nominatimSearch location))
        else if resp.status = 401 ∨ resp.status = 403 then
          match nominatimSearchResult e ((requestsOf s.trace).length + 1) location with
          | .ok v =>
            (.ok v, (s.requested (Request.openCageForward location)).requested
              (Request.nominatimSearch location))
          | .error _ =>
            (nominatimSearchResult e ((requestsOf s.trace).length + 2) location,
              ((s.requested (Request.openCageForward location)).requested
                (Request.nominatimSearch location)).requested
                  (Request.nominatimSearch location))
        else (.ok JSVal.undefined, s.requested (Request.openCageForward location)) := by
  simp only [getCoordinates, M.tryCatch_apply, M.bind_apply, fetch_apply]
  cases e.fetch (requestsOf s.trace).length (Request.openCageForward location) with
  | rejected err =>
    simp [getCoordinatesNominatim_apply]
  | resolved resp =>
    by_cases hok : resp.ok = true
    · simp only [hok, if_true, Response.json, M.lift_apply]
      cases resp.body with
      | error err => simp [getCoordinatesNominatim_apply]
      | ok data => rfl
    · by_cases hst : resp.status = 401 ∨ resp.status = 403
      · simp only [hok, hst, if_true, Bool.false_eq_true, if_false, getCoordinatesNominatim_apply,
          requestsOf_requested, List.length_append, List.length_singleton]
        cases nominatimSearchResult e ((requestsOf s.trace).length + 1) location <;> simp
      · simp [hok, hst]

theorem getLocationName_apply (lat lng : JSNum) (e : Env) (s : Monitor) :
    getLocationName lat lng e s =
      match e.fetch (requestsOf s.trace).length (Request.openCageReverse lat lng) with
      | .rejected _ =>
        (.ok (nominatimReverseResult e ((requestsOf s.trace).length + 1) lat lng),
          (s.requested (Request.openCageReverse lat lng)).requested
            (Request.nominatimReverse lat lng))
      | .resolved resp =>
        if resp.ok then
          match resp.body >>= openCageName e.host lat lng with
          | .ok v => (.ok v, s.requested (Request.openCageReverse lat lng))
          | .error _ =>
            (.ok (nominatimReverseResult e ((requestsOf s.trace).length + 1) lat lng),
              (s.requested (Request.openCageReverse lat lng)).requested
                (Request.nominatimReverse lat lng))
        else if resp.status = 401 ∨ resp.status = 403 then
          (.ok (nominatimReverseResult e ((requestsOf s.trace).length + 1) lat lng),
            (s.requested (Request.openCageReverse lat lng)).requested
              (Request.nominatimReverse lat lng))
        else
          (.ok (JSVal.str (coordinateLabel e.host lat lng)),
            s.requested (Request.openCageReverse lat lng)) := by
  simp only [getLocationName, M.tryCatch_apply, M.bind_apply, fetch_apply, M.env_apply]
  cases e.fetch (requestsOf s.trace).length (Request.openCageReverse lat lng) with
  | rejected err => simp [getLocationNameNominatim_apply]
  | resolved resp =>
    by_cases hok : resp.ok = true
    · simp only [hok, if_true, Response.json, M.lift_apply, M.bind_apply]
      cases resp.body with
      | error err => simp [getLocationNameNominatim_apply, bind, Except.bind]
      | ok data =>
        simp only [bind, Except.bind]
        cases openCageName e.host lat lng data <;> simp [getLocationNameNominatim_apply]
    · by_cases hst : resp.status = 401 ∨ resp.status = 403
      · simp [hok, hst, getLocationNameNominatim_apply]
      · simp [hok, hst]

/-! ### Steps that touch the page only -/

theorem domOnly_pure (a : α) : M.DomOnly (pure a : M α) := fun _ _ => ⟨rfl, rfl⟩

theorem domOnly_lift (r : Except JSError α) : M.DomOnly (M.lift r) := fun _ _ => ⟨rfl, rfl⟩

theorem domOnly_env : M.DomOnly M.env := fun _ _ => ⟨rfl, rfl⟩

theorem domOnly_modifyDom (f : Dom → Dom) : M.DomOnly (M.modifyDom f) :=
  fun _ _ => ⟨rfl, rfl⟩

theorem domOnly_bind {m : M α} {f : α → M β} (hm : M.DomOnly m) (hf : ∀ a, M.DomOnly (f a)) :
    M.DomOnly (m >>= f) := by
  intro e s
  have h1 := hm e s
  simp only [M.bind_apply]
  rcases hres : m e s with ⟨r, s1⟩
  rw [hres] at h1
  cases r with
  | error err => exact h1
  | ok a =>
    have h2 := hf a e s1
    exact ⟨h2.1.trans h1.1, h2.2.trans h1.2⟩

theorem forEach_domOnly {callback : α → M Unit} (h : ∀ x, M.DomOnly (callback x))
    (xs : List α) : M.DomOnly (forEach callback xs) := by
  induction xs with
  | nil => exact domOnly_pure ()
  | cons x rest ih => exact domOnly_bind (h x) (fun _ => ih)

theorem updateLocationInfo_domOnly (location latitude longitude : JSVal) :
    M.DomOnly (updateLocationInfo location latitude longitude) := by
  unfold updateLocationInfo
  repeat (first
    | exact domOnly_env | exact domOnly_modifyDom _ | exact domOnly_lift _
    | exact domOnly_pure _ | (apply domOnly_bind) | intro _)

theorem updateAQI_domOnly (aqi : JSNum) : M.DomOnly (updateAQI aqi) := by
  unfold updateAQI
  repeat (first
    | exact domOnly_env | exact domOnly_modifyDom _ | exact domOnly_lift _
    | exact domOnly_pure _ | (apply domOnly_bind) | intro _)

theorem updatePollutant_domOnly (p : String × JSVal × List JSNum) :
    M.DomOnly (updatePollutant p) := by
  unfold updatePollutant
  repeat (first
    | exact domOnly_env | exact domOnly_modifyDom _ | exact domOnly_lift _
    | exact domOnly_pure _ | (apply domOnly_bind) | intro _)

theorem updatePollutants_domOnly (a : AirQuality) : M.DomOnly (updatePollutants a) :=
  forEach_domOnly updatePollutant_domOnly _

theorem updateRecommendations_domOnly (aqi : JSNum) : M.DomOnly (updateRecommendations aqi) :=
  domOnly_modifyDom _

/-! ### Rendering -/

theorem showResults_renders : M.Renders showResults := by
  intro e s
  exact ⟨rfl, Or.inl ⟨rfl, rfl⟩⟩

theorem renders_bind {m : M α} {k : α → M Unit} (hm : M.DomOnly m) (hk : ∀ a, M.Renders (k a)) :
    M.Renders (m >>= k) := by
  intro e s
  have h1 := hm e s
  simp only [M.bind_apply]
  rcases hres : m e s with ⟨r, s1⟩
  rw [hres] at h1
  cases r with
  | error err => exact ⟨h1.1, Or.inr ⟨⟨err, rfl⟩, h1.2⟩⟩
  | ok a =>
    have h2 := hk a e s1
    simp only at h1 ⊢
    rw [h1.1, h1.2] at h2
    exact h2

theorem tryCatch_renders {k : M Unit} (hk : M.Renders k) (message : String) (e : Env)
    (s : Monitor) :
    (M.tryCatch k (fun _ => showError message) e s).1 = .ok () ∧
    (M.tryCatch k (fun _ => showError message) e s).2.currentData = s.currentData ∧
    ((M.tryCatch k (fun _ => showError message) e s).2.trace = s.trace ++ [Event.showResults] ∨
      (M.tryCatch k (fun _ => showError message) e s).2.trace
        = s.trace ++ [Event.showError message]) := by
  have h := hk e s
  simp only [M.tryCatch_apply]
  rcases hres : k e s with ⟨r, s1⟩
  rw [hres] at h
  cases r with
  | ok u =>
    rcases h with ⟨hc, ⟨_, ht⟩ | ⟨⟨err, herr⟩, _⟩⟩
    · exact ⟨rfl, hc, Or.inl ht⟩
    · simp at herr
  | error err =>
    rcases h with ⟨hc, ⟨hok, _⟩ | ⟨_, ht⟩⟩
    · simp at hok
    · simp only at hc ht
      simp [hc, ht, Monitor.withError]

theorem displayAirQualityData_cases (a : AirQuality) (lat lon name : JSVal) (e : Env)
    (s : Monitor) :
    (displayAirQualityData a lat lon name e s).1 = .ok () ∧
    (displayAirQualityData a lat lon name e s).2.currentData
      = some (makeSnapshot name lat lon a e.now) ∧
    ((displayAirQualityData a lat lon name e s).2.trace
        = s.trace ++ [Event.displayAirQualityData, Event.showResults] ∨
      (displayAirQualityData a lat lon name e s).2.trace
        = s.trace ++ [Event.displayAirQualityData,
            Event.showError "Error processing air quality data"]) := by
  have hR : M.Renders (do
      updateLocationInfo name lat lon
      updateAQI a.aqi
      updatePollutants a
      updateRecommendations a.aqi
      showResults) :=
    renders_bind (updateLocationInfo_domOnly _ _ _) fun _ =>
      renders_bind (updateAQI_domOnly _) fun _ =>
        renders_bind (updatePollutants_domOnly _) fun _ =>
          renders_bind (updateRecommendations_domOnly _) fun _ => showResults_renders
  have h := tryCatch_renders hR "Error processing air quality data" e
    { s with
      currentData := some (makeSnapshot name lat lon a e.now)
      trace := s.trace ++ [Event.displayAirQualityData] }
  simp only [List.append_assoc, List.singleton_append] at h
  exact h

theorem fetchAirQualityData_cases (lat lon name : JSVal) (e : Env) (s : Monitor) :
    (fetchAirQualityData lat lon name e s).1 = .ok () ∧
    match openWeatherResult e (requestsOf s.trace).length lat lon with
    | none =>
      (fetchAirQualityData lat lon name e s).2
        = (s.requested (Request.airPollution lat lon)).withError
            "Air quality data unavailable. Please try again later."
    | some a =>
      (fetchAirQualityData lat lon name e s).2.currentData
        = some (makeSnapshot name lat lon a e.now) ∧
      ((fetchAirQualityData lat lon name e s).2.trace
          = s.trace ++ [Event.request (Request.airPollution lat lon),
              Event.displayAirQualityData, Event.showResults] ∨
        (fetchAirQualityData lat lon name e s).2.trace
          = s.trace ++ [Event.request (Request.airPollution lat lon),
              Event.displayAirQualityData,
              Event.showError "Error processing air quality data"]) := by
  simp only [fetchAirQualityData, M.tryCatch_apply, M.bind_apply, getOpenWeatherAirQuality_apply]
  cases openWeatherResult e (requestsOf s.trace).length lat lon with
  | none => simp
  | some a =>
    have h := displayAirQualityData_cases a lat lon name e
      (s.requested (Request.airPollution lat lon))
    rcases hd : displayAirQualityData a lat lon name e
      (s.requested (Request.airPollution lat lon)) with ⟨r, s2⟩
    rw [hd] at h
    simp only [Monitor.requested, List.append_assoc, List.singleton_append] at h
    obtain ⟨h1, h2, h3⟩ := h
    subst h1
    simp only [hd]
    exact ⟨trivial, h2, h3⟩


/-! ## Air-quality fetch -/

theorem JSNum.mul_swap (a b : JSNum) : a.mul b = b.mul a := by
  cases a <;> cases b <;> simp [JSNum.mul, mul_comm]

theorem JSNum.ofNat_eq (n : Nat) : (OfNat.ofNat n : JSNum) = JSNum.fin (n : ℚ) := rfl

theorem JSNum.mul_fin (a b : ℚ) :
    (JSNum.fin a).mul (JSNum.fin b) = JSNum.toDouble (a * b) := rfl

theorem JSNum.div_fin (a b : ℚ) (hb : b ≠ 0) :
    (JSNum.fin a).div (JSNum.fin b) = JSNum.toDouble (a / b) := by
  simp [JSNum.div, hb]

theorem JSVal.getProp_obj (props : List (String × JSVal)) (key : String) :
    (JSVal.obj props).getProp key = .ok (JSVal.lookup key props) := rfl

/-! ### Rounding to the nearest double -/

theorem JSNum.bitLengthAux_zero (fuel : ℕ) : JSNum.bitLengthAux fuel 0 = 0 := by
  cases fuel <;> simp [JSNum.bitLengthAux]

theorem JSNum.bitLengthAux_bounds (fuel : ℕ) : ∀ n : ℕ, n ≤ fuel → 0 < n →
    0 < JSNum.bitLengthAux fuel n ∧ 2 ^ (JSNum.bitLengthAux fuel n - 1) ≤ n ∧
      n < 2 ^ JSNum.bitLengthAux fuel n := by
  induction fuel with
  | zero => intro n h0 hn; omega
  | succ fuel ih =>
    intro n hle hn
    have hne : n ≠ 0 := by omega
    simp only [JSNum.bitLengthAux, hne, if_false]
    by_cases hhalf : n / 2 = 0
    · have h1 : n = 1 := by omega
      subst h1
      simp [JSNum.bitLengthAux_zero]
    · obtain ⟨hpos, hlo, hhi⟩ := ih (n / 2) (by omega) (by omega)
      refine ⟨by omega, ?_, ?_⟩
      · have hpow : 2 ^ (JSNum.bitLengthAux fuel (n / 2) + 1 - 1)
            = 2 * 2 ^ (JSNum.bitLengthAux fuel (n / 2) - 1) := by
          rw [Nat.add_sub_cancel, ← pow_succ']
          congr 1
          omega
        rw [hpow]
        omega
      · rw [pow_succ]
        omega

theorem JSNum.bitLength_bounds (n : ℕ) (hn : 0 < n) :
    0 < JSNum.bitLength n ∧ 2 ^ (JSNum.bitLength n - 1) ≤ n ∧ n < 2 ^ JSNum.bitLength n :=
  JSNum.bitLengthAux_bounds n n (le_refl n) hn

theorem JSNum.scaleDown_eq (x : ℚ) (k : ℤ) : JSNum.scaleDown x k = x / (2 : ℚ) ^ k := by
  unfold JSNum.scaleDown
  split
  · rename_i hk
    obtain ⟨n, rfl⟩ := Int.eq_ofNat_of_zero_le hk
    simp
  · rename_i hk
    have hneg : 0 ≤ -k := by omega
    obtain ⟨n, hn⟩ := Int.eq_ofNat_of_zero_le hneg
    have hk' : k = -(n : ℤ) := by omega
    subst hk'
    simp

theorem JSNum.binaryExponent_bounds (x : ℚ) (hx : 0 < x) :
    (2 : ℚ) ^ JSNum.binaryExponent x ≤ x ∧ x < (2 : ℚ) ^ (JSNum.binaryExponent x + 1) := by
  have hnum : 0 < x.num := Rat.num_pos.mpr hx
  have hnat : 0 < x.num.natAbs := Int.natAbs_pos.mpr (ne_of_gt hnum)
  obtain ⟨hn0, hnlo, hnhi⟩ := JSNum.bitLength_bounds x.num.natAbs hnat
  obtain ⟨hd0, hdlo, hdhi⟩ := JSNum.bitLength_bounds x.den x.den_pos
  set ln := JSNum.bitLength x.num.natAbs with hln
  set ld := JSNum.bitLength x.den with hld
  have hxeq : x = (x.num.natAbs : ℚ) / (x.den : ℚ) := by
    have h1 : (x.num.natAbs : ℤ) = x.num := Int.natAbs_of_nonneg (le_of_lt hnum)
    have h2 : (x.num.natAbs : ℚ) = (x.num : ℚ) := by
      rw [← Int.cast_natCast, h1]
    rw [h2]
    exact (Rat.num_div_den x).symm
  have hden : (0 : ℚ) < x.den := by exact_mod_cast x.den_pos
  have two_pos : ∀ k : ℤ, (0 : ℚ) < (2 : ℚ) ^ k := fun k => zpow_pos (by norm_num) k
  -- bounds on numerator and denominator as rationals
  have hnlo' : (2 : ℚ) ^ ((ln : ℤ) - 1) ≤ (x.num.natAbs : ℚ) := by
    have : ((2 ^ (ln - 1) : ℕ) : ℚ) ≤ (x.num.natAbs : ℚ) := by exact_mod_cast hnlo
    have hcast : ((ln : ℤ) - 1) = ((ln - 1 : ℕ) : ℤ) := by omega
    rw [hcast, zpow_natCast]
    exact_mod_cast hnlo
  have hnhi' : (x.num.natAbs : ℚ) < (2 : ℚ) ^ (ln : ℤ) := by
    rw [zpow_natCast]
    exact_mod_cast hnhi
  have hdlo' : (2 : ℚ) ^ ((ld : ℤ) - 1) ≤ (x.den : ℚ) := by
    have hcast : ((ld : ℤ) - 1) = ((ld - 1 : ℕ) : ℤ) := by omega
    rw [hcast, zpow_natCast]
    exact_mod_cast hdlo
  have hdhi' : (x.den : ℚ) < (2 : ℚ) ^ (ld : ℤ) := by
    rw [zpow_natCast]
    exact_mod_cast hdhi
  -- x lies strictly between 2^(e0-1) and 2^(e0+1)
  have hlow : (2 : ℚ) ^ ((ln : ℤ) - (ld : ℤ) - 1) < x := by
    have h1 : (2 : ℚ) ^ ((ln : ℤ) - (ld : ℤ) - 1) = (2 : ℚ) ^ ((ln : ℤ) - 1) / (2 : ℚ) ^ (ld : ℤ) := by
      rw [← zpow_sub₀ (by norm_num : (2 : ℚ) ≠ 0)]
      congr 1
      ring
    rw [h1, hxeq, div_lt_div_iff₀ (two_pos _) hden]
    calc (2 : ℚ) ^ ((ln : ℤ) - 1) * (x.den : ℚ)
        < (2 : ℚ) ^ ((ln : ℤ) - 1) * (2 : ℚ) ^ (ld : ℤ) :=
          mul_lt_mul_of_pos_left hdhi' (two_pos _)
      _ ≤ (x.num.natAbs : ℚ) * (2 : ℚ) ^ (ld : ℤ) :=
          mul_le_mul_of_nonneg_right hnlo' (le_of_lt (two_pos _))
  have hhigh : x < (2 : ℚ) ^ ((ln : ℤ) - (ld : ℤ) + 1) := by
    have h1 : (2 : ℚ) ^ ((ln : ℤ) - (ld : ℤ) + 1) = (2 : ℚ) ^ (ln : ℤ) / (2 : ℚ) ^ ((ld : ℤ) - 1) := by
      rw [← zpow_sub₀ (by norm_num : (2 : ℚ) ≠ 0)]
      congr 1
      ring
    rw [h1, hxeq, div_lt_div_iff₀ hden (two_pos _)]
    calc (x.num.natAbs : ℚ) * (2 : ℚ) ^ ((ld : ℤ) - 1)
        < (2 : ℚ) ^ (ln : ℤ) * (2 : ℚ) ^ ((ld : ℤ) - 1) :=
          mul_lt_mul_of_pos_right hnhi' (two_pos _)
      _ ≤ (2 : ℚ) ^ (ln : ℤ) * (x.den : ℚ) :=
          mul_le_mul_of_nonneg_left hdlo' (le_of_lt (two_pos _))
  unfold JSNum.binaryExponent
  simp only [← hln, ← hld, JSNum.scaleDown_eq]
  split
  · rename_i hge
    rw [le_div_iff₀ (two_pos _), one_mul] at hge
    exact ⟨hge, hhigh⟩
  · rename_i hlt
    rw [le_div_iff₀ (two_pos _), one_mul, not_le] at hlt
    refine ⟨le_of_lt hlow, ?_⟩
    rw [sub_add_cancel]
    exact hlt

theorem JSNum.roundHalfEven_near (x : ℚ) :
    |(JSNum.roundHalfEven x : ℚ) - x| ≤ 1 / 2 := by
  have h1 := Int.floor_le x
  have h2 := Int.lt_floor_add_one x
  unfold JSNum.roundHalfEven
  simp only
  split
  · rw [abs_le]; constructor <;> linarith
  · split
    · rw [abs_le]; push_cast; constructor <;> linarith
    · rename_i ha hb
      have hr : x - ⌊x⌋ = 1 / 2 := le_antisymm (not_lt.mp hb) (not_lt.mp ha)
      split
      · rw [abs_le]; constructor <;> linarith
      · rw [abs_le]; push_cast; constructor <;> linarith

theorem JSNum.roundHalfEven_intCast (n : ℤ) : JSNum.roundHalfEven (n : ℚ) = n := by
  unfold JSNum.roundHalfEven
  simp

/-- The shape of `toDouble` on a non-zero value: a multiple `r * 2^k` of the spacing
`2^k` at the binade of `|q|`, with `r` the integer nearest to `|q| / 2^k`. -/
theorem JSNum.toDouble_shape (q : ℚ) (hq : q ≠ 0) :
    ∃ (k r : ℤ),
      k = max (JSNum.binaryExponent |q|) (-1022) - 52 ∧
      r = JSNum.roundHalfEven (|q| / (2 : ℚ) ^ k) ∧
      JSNum.toDouble q =
        if (2 : ℚ) ^ (1024 : ℤ) ≤ (r : ℚ) * (2 : ℚ) ^ k then
          (if 0 < q then JSNum.posInf else JSNum.negInf)
        else JSNum.fin (if 0 < q then (r : ℚ) * (2 : ℚ) ^ k else -((r : ℚ) * (2 : ℚ) ^ k)) := by
  refine ⟨_, _, rfl, rfl, ?_⟩
  unfold JSNum.toDouble
  simp only [hq, if_false, JSNum.scaleDown_eq]
  have h1 : (((2 ^ 1024 : ℕ) : ℚ)) = (2 : ℚ) ^ (1024 : ℤ) := by norm_num
  rw [h1]
  have h2 : ∀ (y : ℚ) (k : ℤ), y / (2 : ℚ) ^ (-k) = y * (2 : ℚ) ^ k := by
    intro y k
    rw [zpow_neg, div_inv_eq_mul]
  simp only [h2]

/-- A value that is a double is left as it is: `toDouble (m * 2^j) = m * 2^j` for an
integer `m` of at most 53 bits, `j >= -1074`, below `2^1024` in absolute value. -/
theorem JSNum.toDouble_of_double (m j : ℤ) (hm : |m| < 2 ^ 53) (hj : -1074 ≤ j)
    (hlt : |(m : ℚ) * (2 : ℚ) ^ j| < (2 : ℚ) ^ (1024 : ℤ)) :
    JSNum.toDouble ((m : ℚ) * (2 : ℚ) ^ j) = JSNum.fin ((m : ℚ) * (2 : ℚ) ^ j) := by
  have two_pos : ∀ k : ℤ, (0 : ℚ) < (2 : ℚ) ^ k := fun k => zpow_pos (by norm_num) k
  by_cases hq : (m : ℚ) * (2 : ℚ) ^ j = 0
  · rw [hq]
    simp [JSNum.toDouble]
  obtain ⟨k, r, hk, hr, hrun⟩ := JSNum.toDouble_shape _ hq
  have hxpos : 0 < |(m : ℚ) * (2 : ℚ) ^ j| := abs_pos.mpr hq
  obtain ⟨hlo, hhi⟩ := JSNum.binaryExponent_bounds _ hxpos
  have habs : |(m : ℚ) * (2 : ℚ) ^ j| = (|m| : ℤ) * (2 : ℚ) ^ j := by
    rw [abs_mul, abs_of_pos (two_pos j), Int.cast_abs]
  -- the exponent is at most 52 + j
  have hmq : ((|m| : ℤ) : ℚ) < (2 : ℚ) ^ (53 : ℤ) := by
    rw [show (2 : ℚ) ^ (53 : ℤ) = ((2 ^ 53 : ℤ) : ℚ) from by norm_num]
    exact_mod_cast hm
  have hexp : JSNum.binaryExponent |(m : ℚ) * (2 : ℚ) ^ j| ≤ 52 + j := by
    by_contra hcon
    push_neg at hcon
    have h53 : (53 : ℤ) + j ≤ JSNum.binaryExponent |(m : ℚ) * (2 : ℚ) ^ j| := by omega
    have hpow : (2 : ℚ) ^ ((53 : ℤ) + j) ≤ (2 : ℚ) ^ JSNum.binaryExponent |(m : ℚ) * (2 : ℚ) ^ j| :=
      zpow_le_zpow_right₀ (by norm_num) h53
    have hx : |(m : ℚ) * (2 : ℚ) ^ j| < (2 : ℚ) ^ ((53 : ℤ) + j) := by
      rw [habs, zpow_add₀ (by norm_num : (2 : ℚ) ≠ 0)]
      exact mul_lt_mul_of_pos_right hmq (two_pos j)
    linarith
  have hkj : k ≤ j := by
    rw [hk]
    rcases max_cases (JSNum.binaryExponent |(m : ℚ) * (2 : ℚ) ^ j|) (-1022) with ⟨h, _⟩ | ⟨h, _⟩ <;>
      rw [h] <;> omega
  -- the scaled value is an integer
  obtain ⟨d, hd⟩ := Int.eq_ofNat_of_zero_le (sub_nonneg.mpr hkj)
  have hscaled : |(m : ℚ) * (2 : ℚ) ^ j| / (2 : ℚ) ^ k = ((|m| * 2 ^ d : ℤ) : ℚ) := by
    rw [habs, mul_div_assoc, ← zpow_sub₀ (by norm_num : (2 : ℚ) ≠ 0), hd]
    push_cast
    rw [zpow_natCast]
  have hr' : (r : ℚ) * (2 : ℚ) ^ k = |(m : ℚ) * (2 : ℚ) ^ j| := by
    rw [hr, hscaled, JSNum.roundHalfEven_intCast, ← hscaled]
    field_simp
  rw [hrun, hr', if_neg (not_le.mpr hlt)]
  congr 1
  by_cases hpos : 0 < (m : ℚ) * (2 : ℚ) ^ j
  · rw [if_pos hpos, abs_of_pos hpos]
  · rw [if_neg hpos, abs_of_neg (lt_of_le_of_ne (not_lt.mp hpos) hq), neg_neg]

/-- An integer below `2^53` in absolute value is a double. -/
theorem JSNum.toDouble_intCast (n : ℤ) (hn : |n| < 2 ^ 53) :
    JSNum.toDouble (n : ℚ) = JSNum.fin (n : ℚ) := by
  have h := JSNum.toDouble_of_double n 0 hn (by norm_num) (by
    rw [zpow_zero, mul_one]
    have h1 : |(n : ℚ)| < (2 : ℚ) ^ (53 : ℤ) := by
      rw [show (2 : ℚ) ^ (53 : ℤ) = ((2 ^ 53 : ℤ) : ℚ) from by norm_num, ← Int.cast_abs]
      exact_mod_cast hn
    exact lt_trans h1 (zpow_lt_zpow_right₀ (by norm_num) (by norm_num)))
  simpa using h

/-- The finite result of `toDouble` is within half a unit in the last place of the exact
value: a relative error of at most `2^-53` from `2^-1022` upwards, and an absolute error
of at most `2^-1075` below. -/
theorem JSNum.toDouble_near (q v : ℚ) (h : JSNum.toDouble q = JSNum.fin v) :
    ((2 : ℚ) ^ (-1022 : ℤ) ≤ |q| → |v - q| ≤ |q| / 2 ^ 53) ∧
    (|q| < (2 : ℚ) ^ (-1022 : ℤ) → |v - q| ≤ (2 : ℚ) ^ (-1075 : ℤ)) := by
  have two_pos : ∀ k : ℤ, (0 : ℚ) < (2 : ℚ) ^ k := fun k => zpow_pos (by norm_num) k
  by_cases hq : q = 0
  · subst hq
    have hv : v = 0 := by
      simp [JSNum.toDouble] at h
      exact h.symm
    subst hv
    simp only [sub_self, abs_zero, zero_div, le_refl, implies_true, true_and]
    intro _
    exact le_of_lt (two_pos _)
  obtain ⟨k, r, hk, hr, hrun⟩ := JSNum.toDouble_shape q hq
  have hxpos : 0 < |q| := abs_pos.mpr hq
  obtain ⟨hlo, hhi⟩ := JSNum.binaryExponent_bounds _ hxpos
  rw [hrun] at h
  split at h
  · split at h <;> cases h
  have hv : v = if 0 < q then (r : ℚ) * (2 : ℚ) ^ k else -((r : ℚ) * (2 : ℚ) ^ k) := by
    injection h with h
    exact h.symm
  -- the distance to `|q|` is at most half the spacing
  have hnear := JSNum.roundHalfEven_near (|q| / (2 : ℚ) ^ k)
  rw [← hr] at hnear
  have hdist : abs ((r : ℚ) * (2 : ℚ) ^ k - |q|) ≤ (2 : ℚ) ^ k / 2 := by
    have h1 : (r : ℚ) * (2 : ℚ) ^ k - |q| = ((r : ℚ) - |q| / (2 : ℚ) ^ k) * (2 : ℚ) ^ k := by
      field_simp
    rw [h1, abs_mul, abs_of_pos (two_pos k)]
    calc abs ((r : ℚ) - |q| / (2 : ℚ) ^ k) * (2 : ℚ) ^ k ≤ 1 / 2 * (2 : ℚ) ^ k :=
          mul_le_mul_of_nonneg_right hnear (le_of_lt (two_pos k))
      _ = (2 : ℚ) ^ k / 2 := by ring
  have hvq : |v - q| = abs ((r : ℚ) * (2 : ℚ) ^ k - |q|) := by
    rw [hv]
    by_cases hpos : 0 < q
    · rw [if_pos hpos, abs_of_pos hpos]
    · have hneg : q < 0 := lt_of_le_of_ne (not_lt.mp hpos) hq
      rw [if_neg hpos, abs_of_neg hneg, ← abs_neg]
      congr 1
      ring
  rw [hvq]
  constructor
  · intro hnormal
    have he : -1022 ≤ JSNum.binaryExponent |q| := by
      by_contra hcon
      push_neg at hcon
      have h1 : JSNum.binaryExponent |q| + 1 ≤ -1022 := by omega
      have h2 : (2 : ℚ) ^ (JSNum.binaryExponent |q| + 1) ≤ (2 : ℚ) ^ (-1022 : ℤ) :=
        zpow_le_zpow_right₀ (by norm_num) h1
      linarith
    have hk' : k = JSNum.binaryExponent |q| - 52 := by
      rw [hk, max_eq_left he]
    have hpow : (2 : ℚ) ^ k / 2 = (2 : ℚ) ^ JSNum.binaryExponent |q| / 2 ^ 53 := by
      rw [hk', zpow_sub₀ (by norm_num : (2 : ℚ) ≠ 0)]
      norm_num
      ring
    calc abs ((r : ℚ) * (2 : ℚ) ^ k - |q|) ≤ (2 : ℚ) ^ k / 2 := hdist
      _ = (2 : ℚ) ^ JSNum.binaryExponent |q| / 2 ^ 53 := hpow
      _ ≤ |q| / 2 ^ 53 := by
          apply div_le_div_of_nonneg_right hlo
          positivity
  · intro hsub
    have he : JSNum.binaryExponent |q| < -1022 := by
      by_contra hcon
      push_neg at hcon
      have h2 : (2 : ℚ) ^ (-1022 : ℤ) ≤ (2 : ℚ) ^ JSNum.binaryExponent |q| :=
        zpow_le_zpow_right₀ (by norm_num) hcon
      linarith
    have hk' : k = -1074 := by
      rw [hk, max_eq_right (le_of_lt he)]
      norm_num
    have hpow : (2 : ℚ) ^ k / 2 = (2 : ℚ) ^ (-1075 : ℤ) := by
      rw [hk']
      rw [show (-1074 : ℤ) = -1075 + 1 from by norm_num, zpow_add_one₀ (by norm_num : (2 : ℚ) ≠ 0)]
      ring
    rw [← hpow]
    exact hdist

/-! ### The conversion -/

theorem JSNum.mul_tier (n : ℕ) (hn : n ≤ 5) :
    JSNum.mul 50 (JSNum.fin (n : ℚ)) = JSNum.fin (50 * (n : ℚ)) := by
  interval_cases n <;> decide!

/-- Evaluation of the arithmetic at three points: `250 / 1000` is exactly one quarter;
`150 / 1000` is the double just below 3/20, which `toFixed(1)` prints as `0.1`; and
`2^1023 * 50` overflows to `Infinity`. -/
theorem JSNum.arithmetic_rounds :
    (JSNum.fin 250).div 1000 = JSNum.fin (1 / 4) ∧
    (JSNum.fin 150).div 1000 = JSNum.fin (5404319552844595 / 36028797018963968) ∧
    ((JSNum.fin 150).div 1000).toFixed exampleHost 1 = "0.1" ∧
    JSNum.mul (JSNum.fin ((2 ^ 1023 : ℕ) : ℚ)) 50 = JSNum.posInf :=
  ⟨by decide!, by decide!, by decide!, by decide!⟩

/-- C3: when the provider answers the request with a success status and a body whose
`list[0]` has `main.aqi = t` and an object `components`, `getOpenWeatherAirQuality`
returns the record with `aqi = 50 * t`, `co = components.co / 1000`, and `pm10`, `pm25`,
`o3`, `no2`, `so2` equal to `components.pm10`, `components.pm2_5`, `components.o3`,
`components.no2`, `components.so2` as sent.  The product and the quotient are those of
the language, the exact results rounded to a double: for an integer tier `t` (with
`50 * t` below `2^53`, so for the provider's tiers 1 to 5) `aqi` is exactly `50 * t`, and
`co` differs from the exact quotient `components.co / 1000` by at most the relative error
`2^-53` of one rounding (for quotients from `2^-1022` upwards). -/
theorem getOpenWeatherAirQuality_normalizes (e : Env) (s : Monitor) (lat lon : JSVal)
    (resp : Response) (data list entry main : JSVal) (t : JSNum) (c : List (String × JSVal))
    (hfetch : e.fetch (requestsOf s.trace).length (Request.airPollution lat lon)
      = FetchResult.resolved resp)
    (hok : resp.ok = true) (hbody : resp.body = .ok data)
    (hlist : data.getProp "list" = .ok list) (hentry : list.index0 = .ok entry)
    (hmain : entry.getProp "main" = .ok main)
    (haqi : main.getProp "aqi" = .ok (JSVal.num t))
    (hcomp : entry.getProp "components" = .ok (JSVal.obj c)) :
    (getOpenWeatherAirQuality lat lon e s).1 = .ok (some
      { aqi := JSNum.mul 50 t
        pm10 := JSVal.lookup "pm10" c
        pm25 := JSVal.lookup "pm2_5" c
        o3 := JSVal.lookup "o3" c
        no2 := JSVal.lookup "no2" c
        so2 := JSVal.lookup "so2" c
        co := ((JSVal.lookup "co" c).toNumber e.host).div 1000 }) ∧
    (∀ q, t = JSNum.fin q → JSNum.mul 50 t = JSNum.toDouble (50 * q)) ∧
    (∀ n : ℤ, |50 * n| < 2 ^ 53 → t = JSNum.fin (n : ℚ) →
      JSNum.mul 50 t = JSNum.fin (50 * (n : ℚ))) ∧
    (∀ x, JSVal.lookup "co" c = JSVal.num (JSNum.fin x) →
      ((JSVal.lookup "co" c).toNumber e.host).div 1000 = JSNum.toDouble (x / 1000)) ∧
    (∀ x v, JSVal.lookup "co" c = JSVal.num (JSNum.fin x) →
      ((JSVal.lookup "co" c).toNumber e.host).div 1000 = JSNum.fin v →
      (2 : ℚ) ^ (-1022 : ℤ) ≤ |x / 1000| → |v - x / 1000| ≤ |x / 1000| / 2 ^ 53) := by
  have hconv : convertOpenWeather e.host data = .ok
      { aqi := JSNum.mul 50 t
        pm10 := JSVal.lookup "pm10" c
        pm25 := JSVal.lookup "pm2_5" c
        o3 := JSVal.lookup "o3" c
        no2 := JSVal.lookup "no2" c
        so2 := JSVal.lookup "so2" c
        co := ((JSVal.lookup "co" c).toNumber e.host).div 1000 } := by
    simp only [convertOpenWeather, hlist, hentry, hmain, haqi, hcomp, bind, Except.bind,
      JSVal.getProp_obj, JSVal.toNumber, pure, Except.pure, JSNum.mul_swap t 50]
  have hdiv : ∀ x, JSVal.lookup "co" c = JSVal.num (JSNum.fin x) →
      ((JSVal.lookup "co" c).toNumber e.host).div 1000 = JSNum.toDouble (x / 1000) := by
    intro x hx
    rw [hx, JSNum.ofNat_eq]
    simp only [JSVal.toNumber]
    rw [JSNum.div_fin _ _ (by norm_num)]
    norm_num
  refine ⟨?_, ?_, ?_, hdiv, ?_⟩
  · rw [getOpenWeatherAirQuality_apply]
    simp only [openWeatherResult, hfetch, hok, hbody, if_true, bind, Except.bind, hconv]
  · intro q hq
    subst hq
    rw [JSNum.ofNat_eq, JSNum.mul_fin]
    norm_num
  · intro n hn hq
    subst hq
    rw [JSNum.ofNat_eq, JSNum.mul_fin]
    have h := JSNum.toDouble_intCast (50 * n) hn
    push_cast at h ⊢
    exact h
  · intro x v hx hv hnormal
    rw [hdiv x hx] at hv
    exact (JSNum.toDouble_near _ v hv).1 hnormal

/-- The provider answers of the C3 instance: tier 2 and `co = 250`. -/
theorem getOpenWeatherAirQuality_normalizes_witness :
    (getOpenWeatherAirQuality (JSVal.num 48) (JSVal.num 2)
      (exampleEnv fun _ _ => okJson parisAir) (Monitor.initial "Paris")).1
      = .ok (some
        { aqi := JSNum.mul 50 2
          pm10 := JSVal.num (JSNum.fin 15)
          pm25 := JSVal.num (JSNum.fin 8)
          o3 := JSVal.num (JSNum.fin 60)
          no2 := JSVal.num (JSNum.fin 12)
          so2 := JSVal.num (JSNum.fin 3)
          co := (JSNum.fin 250).div 1000 }) ∧
    JSNum.mul 50 2 = JSNum.fin 100 ∧ (JSNum.fin 250).div 1000 = JSNum.fin (1 / 4) := by
  have h := getOpenWeatherAirQuality_normalizes (exampleEnv fun _ _ => okJson parisAir)
    (Monitor.initial "Paris") (JSVal.num 48) (JSVal.num 2) ⟨200, .ok parisAir⟩ parisAir
    _ _ _ 2 _ rfl (by decide) rfl rfl rfl rfl rfl rfl
  have h2 := h.2.2.1 2 (by norm_num) (by rw [JSNum.ofNat_eq]; norm_num)
  refine ⟨h.1, ?_, by decide!⟩
  rw [h2]
  norm_num

/-! ## Search by place name -/

theorem jsTrim_of_all_whitespace (input : String)
    (h : ∀ c ∈ input.data, isJSWhiteSpace c = true) : jsTrim input = "" := by
  have h1 : input.data.dropWhile isJSWhiteSpace = [] := by
    rw [List.dropWhile_eq_nil_iff]; exact h
  simp [jsTrim, h1]

/-- C4: when the location field holds only white space (or nothing),
`fetchDataByLocation` returns after one `showError('Please enter a location')`: the
message is shown, no request is issued and `currentData` is unchanged. -/
theorem fetchDataByLocation_blank (e : Env) (s : Monitor)
    (h : ∀ c ∈ s.dom.locationInput.data, isJSWhiteSpace c = true) :
    (fetchDataByLocation e s).1 = .ok () ∧
    (fetchDataByLocation e s).2.trace = s.trace ++ [Event.showError "Please enter a location"] ∧
    requestsOf (fetchDataByLocation e s).2.trace = requestsOf s.trace ∧
    (fetchDataByLocation e s).2.dom.errorText = "Please enter a location" ∧
    (fetchDataByLocation e s).2.dom.errorHidden = false ∧
    (fetchDataByLocation e s).2.currentData = s.currentData := by
  have ht := jsTrim_of_all_whitespace _ h
  simp [fetchDataByLocation, ht, Monitor.withError, requestsOf, Event.request?]

/-- Instance of C4: a field holding a space, a tab and a line feed, with providers that
would answer any request. -/
theorem fetchDataByLocation_blank_witness :
    (fetchDataByLocation (exampleEnv fun _ _ => okJson parisAir) (Monitor.initial " \t\n")).2.trace
      = [Event.showError "Please enter a location"] ∧
    requestsOf
      (fetchDataByLocation (exampleEnv fun _ _ => okJson parisAir) (Monitor.initial " \t\n")).2.trace
      = [] :=
  ⟨(fetchDataByLocation_blank (exampleEnv fun _ _ => okJson parisAir) (Monitor.initial " \t\n")
      (by decide)).2.1,
    (fetchDataByLocation_blank (exampleEnv fun _ _ => okJson parisAir) (Monitor.initial " \t\n")
      (by decide)).2.2.1⟩

theorem convertNominatim_candidate (h : Host) (props : List (String × JSVal))
    (rest : List JSVal) :
    convertNominatim h (JSVal.arr (JSVal.obj props :: rest)) = .ok (translated h props) := by
  have hlen : ((JSVal.arr (JSVal.obj props :: rest)).getPropOpt "length").toNumber h
      = JSNum.fin ((rest.length + 1 : ℕ) : ℚ) := rfl
  have hgt : (JSNum.fin ((rest.length + 1 : ℕ) : ℚ)).gt 0 = true := by
    simp only [JSNum.gt, JSNum.ofNat_eq, JSNum.lt, decide_eq_true_eq]
    push_cast
    positivity
  simp only [convertNominatim, hlen, hgt, JSVal.truthy, Bool.and_self, if_true]
  rfl

theorem getCoordinates_of_fallback (e : Env) (s : Monitor) (location : String) (v : JSVal)
    (hprimary :
      ((e.fetch (requestsOf s.trace).length (Request.openCageForward location)).isAuthError
        || (e.fetch (requestsOf s.trace).length (Request.openCageForward location)).isRejected
        || (e.fetch (requestsOf s.trace).length (Request.openCageForward location)).isUnreadable)
        = true)
    (hnom : nominatimSearchResult e ((requestsOf s.trace).length + 1) location = .ok v) :
    getCoordinates location e s = (.ok v,
      (s.requested (Request.openCageForward location)).requested
        (Request.nominatimSearch location)) := by
  rw [getCoordinates_apply]
  cases hp : e.fetch (requestsOf s.trace).length (Request.openCageForward location) with
  | rejected err => simp only [hnom]
  | resolved resp =>
    rw [hp] at hprimary
    simp only [FetchResult.isAuthError, FetchResult.isRejected, FetchResult.isUnreadable,
      Bool.or_false, Bool.or_eq_true, Bool.and_eq_true, decide_eq_true_eq] at hprimary
    rcases hprimary with hauth | ⟨hok, hbody⟩
    · have hnok : resp.ok = false := by
        rcases hauth with h | h <;> simp [Response.ok, h]
      simp only [hnok, hauth, hnom, Bool.false_eq_true, if_false, if_true]
    · cases hb : resp.body with
      | ok data => rw [hb] at hbody; simp at hbody
      | error err => simp only [hok, hb, hnom, if_true]

/-- C5 as the code has it: when the primary geocoder answers 401 or 403, or its request
raises a transport error, or it answers with a success status and a body that cannot be
parsed, and the secondary then answers with a success status and a list whose first
element is an object, `getCoordinates` returns that element in the primary's shape,
without throwing, after one request to each provider; when the primary answers with a
success status and a body that parses, `getCoordinates` returns the parsed body after the
single request to the primary. -/
theorem getCoordinates_fallback (e : Env) (s : Monitor) (location : String) :
    (∀ (status : Nat) (props : List (String × JSVal)) (rest : List JSVal),
      ((e.fetch (requestsOf s.trace).length (Request.openCageForward location)).isAuthError
        || (e.fetch (requestsOf s.trace).length (Request.openCageForward location)).isRejected
        || (e.fetch (requestsOf s.trace).length (Request.openCageForward location)).isUnreadable)
        = true →
      e.fetch ((requestsOf s.trace).length + 1) (Request.nominatimSearch location)
        = FetchResult.resolved ⟨status, .ok (JSVal.arr (JSVal.obj props :: rest))⟩ →
      (200 ≤ status ∧ status ≤ 299) →
      (getCoordinates location e s).1 = .ok (translated e.host props) ∧
      (getCoordinates location e s).2.trace = s.trace ++
        [Event.request (Request.openCageForward location),
          Event.request (Request.nominatimSearch location)]) ∧
    (∀ (resp : Response) (data : JSVal),
      e.fetch (requestsOf s.trace).length (Request.openCageForward location)
        = FetchResult.resolved resp →
      resp.ok = true → resp.body = .ok data →
      (getCoordinates location e s).1 = .ok data ∧
      (getCoordinates location e s).2.trace
        = s.trace ++ [Event.request (Request.openCageForward location)]) := by
  constructor
  · intro status props rest hprimary hsecondary hstatus
    have hnom : nominatimSearchResult e ((requestsOf s.trace).length + 1) location
        = .ok (translated e.host props) := by
      simp only [nominatimSearchResult, hsecondary, Response.ok, hstatus.1, hstatus.2,
        decide_True, Bool.and_self, if_true, bind, Except.bind, convertNominatim_candidate]
    rw [getCoordinates_of_fallback e s location _ hprimary hnom]
    simp [Monitor.requested]
  · intro resp data hp hok hbody
    rw [getCoordinates_apply]
    simp [hp, hok, hbody, Monitor.requested]

/-- Instance of C5: the primary answers 401 and the secondary sends one candidate; and
the primary answers 200 with one candidate. -/
theorem getCoordinates_fallback_witness :
    ((getCoordinates "Paris" (exampleEnv providersAuthError) (Monitor.initial "Paris")).1
        = .ok (translated exampleHost [
            ("display_name", JSVal.str "Paris, France"),
            ("lat", JSVal.str "48.8566"),
            ("lon", JSVal.str "2.3522")]) ∧
      (getCoordinates "Paris" (exampleEnv providersAuthError) (Monitor.initial "Paris")).2.trace
        = [Event.request (Request.openCageForward "Paris"),
            Event.request (Request.nominatimSearch "Paris")]) ∧
    ((getCoordinates "Paris" (exampleEnv providersHealthy) (Monitor.initial "Paris")).1
        = .ok parisOpenCage ∧
      (getCoordinates "Paris" (exampleEnv providersHealthy) (Monitor.initial "Paris")).2.trace
        = [Event.request (Request.openCageForward "Paris")]) :=
  ⟨(getCoordinates_fallback (exampleEnv providersAuthError) (Monitor.initial "Paris") "Paris").1
      200 _ [] (by decide) rfl (by decide),
    (getCoordinates_fallback (exampleEnv providersHealthy) (Monitor.initial "Paris") "Paris").2
      ⟨200, .ok parisOpenCage⟩ parisOpenCage rfl (by decide) rfl⟩

/-- C5 fails as stated: the primary geocoder answers with status 200, the body is not
JSON, and `getCoordinates` consults the secondary and returns its candidate. -/
theorem getCoordinates_success_status_consults_secondary :
    (providersUnreadablePrimary 0 (Request.openCageForward "Paris")).isSuccessStatus = true ∧
    (requestsOf (getCoordinates "Paris" (exampleEnv providersUnreadablePrimary)
      (Monitor.initial "Paris")).2.trace).map Request.isSecondary = [false, true] ∧
    (getCoordinates "Paris" (exampleEnv providersUnreadablePrimary) (Monitor.initial "Paris")).1
      = .ok (translated exampleHost [
          ("display_name", JSVal.str "Paris, France"),
          ("lat", JSVal.str "48.8566"),
          ("lon", JSVal.str "2.3522")]) := by
  refine ⟨by decide, by decide, ?_⟩
  rw [getCoordinates_apply]
  rfl

@[simp] theorem showLoading_apply (e : Env) (s : Monitor) :
    showLoading e s = (.ok (), s.withLoading) := rfl

@[simp] theorem requestsOf_withLoading (s : Monitor) :
    requestsOf s.withLoading.trace = requestsOf s.trace := by
  simp [Monitor.withLoading, requestsOf, Event.request?]

@[simp] theorem requestsOf_withError (s : Monitor) (message : String) :
    requestsOf (s.withError message).trace = requestsOf s.trace := by
  simp [Monitor.withError, requestsOf, Event.request?]

@[simp] theorem errorsOf_withError (s : Monitor) (message : String) :
    errorsOf (s.withError message).trace = errorsOf s.trace ++ [message] := by
  simp [Monitor.withError, errorsOf, Event.error?]

@[simp] theorem errorsOf_withLoading (s : Monitor) :
    errorsOf s.withLoading.trace = errorsOf s.trace := by
  simp [Monitor.withLoading, errorsOf, Event.error?]

@[simp] theorem errorsOf_requested (s : Monitor) (r : Request) :
    errorsOf (s.requested r).trace = errorsOf s.trace := by
  simp [Monitor.requested, errorsOf, Event.error?]

theorem firstGeometry_empty (props : List (String × JSVal))
    (h : JSVal.lookup "results" props = JSVal.arr []) :
    firstGeometry (JSVal.obj props) = .error notFoundError := by
  simp [firstGeometry, noCandidates, JSVal.truthy, JSVal.getProp_obj, h, bind, Except.bind,
    JSVal.getProp, JSVal.strictEqZero, pure, Except.pure, throw, throwThe, MonadExceptOf.throw]

/-- C6: with a non-empty query, when the provider that answered returns an empty result
list (the primary with a success status, or the secondary after the primary answered 401
or 403, raised a transport error or sent an unreadable body), `getCoordinates` returns a
value on which
`fetchDataByLocation` throws the error with message
`Location not found. Please check the spelling and try again.`; its handler reports that
message through `showError` behind the prefix `Error: `, no request goes to the
air-quality provider and `currentData` is unchanged. -/
theorem fetchDataByLocation_not_found (e : Env) (s : Monitor)
    (hquery : jsTrim s.dom.locationInput ≠ "")
    (hempty :
      (∃ resp props,
        e.fetch (requestsOf s.trace).length (Request.openCageForward (jsTrim s.dom.locationInput))
          = FetchResult.resolved resp ∧
        resp.ok = true ∧ resp.body = .ok (JSVal.obj props) ∧
        JSVal.lookup "results" props = JSVal.arr []) ∨
      (((e.fetch (requestsOf s.trace).length
            (Request.openCageForward (jsTrim s.dom.locationInput))).isAuthError
          || (e.fetch (requestsOf s.trace).length
            (Request.openCageForward (jsTrim s.dom.locationInput))).isRejected
          || (e.fetch (requestsOf s.trace).length
            (Request.openCageForward (jsTrim s.dom.locationInput))).isUnreadable) = true ∧
        ∃ status,
          e.fetch ((requestsOf s.trace).length + 1)
            (Request.nominatimSearch (jsTrim s.dom.locationInput))
            = FetchResult.resolved ⟨status, .ok (JSVal.arr [])⟩ ∧
          200 ≤ status ∧ status ≤ 299)) :
    (∃ data, (getCoordinates (jsTrim s.dom.locationInput) e s.withLoading).1 = .ok data ∧
      firstGeometry data = .error notFoundError) ∧
    notFoundError.message = "Location not found. Please check the spelling and try again." ∧
    (fetchDataByLocation e s).1 = .ok () ∧
    errorsOf (fetchDataByLocation e s).2.trace = errorsOf s.trace ++
      ["Error: " ++ "Location not found. Please check the spelling and try again."] ∧
    (fetchDataByLocation e s).2.dom.errorText
      = "Error: Location not found. Please check the spelling and try again." ∧
    (fetchDataByLocation e s).2.dom.errorHidden = false ∧
    (requestsOf (fetchDataByLocation e s).2.trace).filter Request.isAirQuality
      = (requestsOf s.trace).filter Request.isAirQuality ∧
    (fetchDataByLocation e s).2.currentData = s.currentData := by
  have hfg : firstGeometry (JSVal.obj [("results", JSVal.arr [])]) = .error notFoundError :=
    firstGeometry_empty _ rfl
  rcases hempty with ⟨resp, props, hp, hok, hbody, hres⟩ | ⟨hprimary, status, hsecondary, h1, h2⟩
  · refine ⟨⟨JSVal.obj props, ?_, firstGeometry_empty props hres⟩, rfl, ?_⟩
    · simp only [getCoordinates_apply, requestsOf_withLoading, hp, hok, hbody, if_true]
    have hrun : fetchDataByLocation e s = (.ok (),
        (s.withLoading.requested (Request.openCageForward (jsTrim s.dom.locationInput))).withError
          ("Error: " ++ "Location not found. Please check the spelling and try again.")) := by
      simp only [fetchDataByLocation, M.bind_apply, M.get_apply, hquery, if_false,
        showLoading_apply, M.tryCatch_apply, getCoordinates_apply, requestsOf_withLoading,
        hp, hok, hbody, if_true, M.lift_apply, firstGeometry_empty props hres, showError_apply,
        notFoundError]
    rw [hrun]
    simp [Request.isAirQuality]
    exact ⟨rfl, rfl, rfl⟩
  · have hnom : nominatimSearchResult e ((requestsOf s.trace).length + 1)
        (jsTrim s.dom.locationInput) = .ok (JSVal.obj [("results", JSVal.arr [])]) := by
      simp [nominatimSearchResult, hsecondary, Response.ok, h1, h2, bind, Except.bind,
        convertNominatim, JSVal.truthy, JSVal.getPropOpt, JSVal.getProp, JSVal.toNumber,
        JSNum.gt, JSNum.lt, JSNum.ofNat_eq, pure, Except.pure]
    have hgc := getCoordinates_of_fallback e s.withLoading (jsTrim s.dom.locationInput) _
      (by rw [requestsOf_withLoading]; exact hprimary)
      (by rw [requestsOf_withLoading]; exact hnom)
    refine ⟨⟨JSVal.obj [("results", JSVal.arr [])], by rw [hgc], hfg⟩, rfl, ?_⟩
    have hrun : fetchDataByLocation e s = (.ok (),
        ((s.withLoading.requested (Request.openCageForward (jsTrim s.dom.locationInput))).requested
          (Request.nominatimSearch (jsTrim s.dom.locationInput))).withError
          ("Error: " ++ "Location not found. Please check the spelling and try again.")) := by
      simp only [fetchDataByLocation, M.bind_apply, M.get_apply, hquery, if_false,
        showLoading_apply, M.tryCatch_apply, hgc, M.lift_apply, hfg, showError_apply,
        notFoundError]
    rw [hrun]
    simp [Request.isAirQuality]
    exact ⟨rfl, rfl, rfl⟩

/-- Instance of C6: the primary knows no candidate for the query; and the primary answers
403 and the secondary knows no candidate. -/
theorem fetchDataByLocation_not_found_witness :
    (errorsOf (fetchDataByLocation (exampleEnv providersNoCandidate)
        (Monitor.initial "Atlantis")).2.trace
      = ["Error: Location not found. Please check the spelling and try again."] ∧
      (fetchDataByLocation (exampleEnv providersNoCandidate)
        (Monitor.initial "Atlantis")).2.currentData = none) ∧
    (errorsOf (fetchDataByLocation (exampleEnv providersFallbackNoCandidate)
        (Monitor.initial "Atlantis")).2.trace
      = ["Error: Location not found. Please check the spelling and try again."] ∧
      (fetchDataByLocation (exampleEnv providersFallbackNoCandidate)
        (Monitor.initial "Atlantis")).2.currentData = none) :=
  ⟨⟨(fetchDataByLocation_not_found (exampleEnv providersNoCandidate)
        (Monitor.initial "Atlantis") (by decide)
        (Or.inl ⟨⟨200, .ok (JSVal.obj [("results", JSVal.arr [])])⟩, _, rfl, by decide, rfl,
          rfl⟩)).2.2.2.1,
      (fetchDataByLocation_not_found (exampleEnv providersNoCandidate)
        (Monitor.initial "Atlantis") (by decide)
        (Or.inl ⟨⟨200, .ok (JSVal.obj [("results", JSVal.arr [])])⟩, _, rfl, by decide, rfl,
          rfl⟩)).2.2.2.2.2.2.2⟩,
    ⟨(fetchDataByLocation_not_found (exampleEnv providersFallbackNoCandidate)
        (Monitor.initial "Atlantis") (by decide)
        (Or.inr ⟨by decide, 200, rfl, by decide, by decide⟩)).2.2.2.1,
      (fetchDataByLocation_not_found (exampleEnv providersFallbackNoCandidate)
        (Monitor.initial "Atlantis") (by decide)
        (Or.inr ⟨by decide, 200, rfl, by decide, by decide⟩)).2.2.2.2.2.2.2⟩⟩

/-! ## Reverse geocoding -/

theorem nominatimName_cases (h : Host) (lat lng : JSNum) (data v : JSVal)
    (hv : nominatimName h lat lng data = .ok v) :
    v = JSVal.str (coordinateLabel h lat lng) ∨ data.getProp "display_name" = .ok v := by
  simp only [nominatimName, bind, Except.bind] at hv
  cases hname : data.getProp "display_name" with
  | error err => rw [hname] at hv; simp at hv
  | ok name =>
    rw [hname] at hv
    simp only [pure, Except.pure, Except.ok.injEq, JSVal.orElse] at hv
    by_cases ht : name.truthy = true
    · simp only [ht, if_true] at hv
      exact Or.inr (by rw [hv])
    · simp only [ht, Bool.false_eq_true, if_false] at hv
      exact Or.inl hv.symm

theorem openCageName_cases (h : Host) (lat lng : JSNum) (data v : JSVal)
    (hv : openCageName h lat lng data = .ok v) :
    v = JSVal.str (coordinateLabel h lat lng) ∨
      ∃ results first, data.getProp "results" = .ok results ∧ results.index0 = .ok first ∧
        v = first.getPropOpt "formatted" := by
  simp only [openCageName, bind, Except.bind] at hv
  cases hres : data.getProp "results" with
  | error err => rw [hres] at hv; simp at hv
  | ok results =>
    rw [hres] at hv
    simp only at hv
    cases hfirst : results.index0 with
    | error err => rw [hfirst] at hv; simp at hv
    | ok first =>
      rw [hfirst] at hv
      simp only [pure, Except.pure, Except.ok.injEq, JSVal.orElse] at hv
      by_cases ht : (first.getPropOpt "formatted").truthy = true
      · simp only [ht, if_true] at hv
        exact Or.inr ⟨results, first, rfl, hfirst, hv.symm⟩
      · simp only [ht, Bool.false_eq_true, if_false] at hv
        exact Or.inl hv.symm

theorem nominatimReverseResult_cases (e : Env) (n : Nat) (lat lng : JSNum) :
    nominatimReverseResult e n lat lng = JSVal.str (coordinateLabel e.host lat lng) ∨
      ∃ resp data, e.fetch n (Request.nominatimReverse lat lng) = FetchResult.resolved resp ∧
        resp.body = .ok data ∧
        data.getProp "display_name" = .ok (nominatimReverseResult e n lat lng) := by
  unfold nominatimReverseResult
  cases hf : e.fetch n (Request.nominatimReverse lat lng) with
  | rejected err => exact Or.inl rfl
  | resolved resp =>
    by_cases hok : resp.ok = true
    · simp only [hok, if_true]
      cases hb : resp.body with
      | error err => exact Or.inl rfl
      | ok data =>
        simp only [bind, Except.bind]
        cases hn : nominatimName e.host lat lng data with
        | error err => exact Or.inl rfl
        | ok v =>
          rcases nominatimName_cases e.host lat lng data v hn with h | h
          · exact Or.inl h
          · exact Or.inr ⟨resp, data, rfl, hb, h⟩
    · exact Or.inl (by simp [hok])

theorem nominatimReverseResult_failed (e : Env) (n : Nat) (lat lng : JSNum)
    (h : (e.fetch n (Request.nominatimReverse lat lng)).failed = true) :
    nominatimReverseResult e n lat lng = JSVal.str (coordinateLabel e.host lat lng) := by
  unfold nominatimReverseResult
  cases hf : e.fetch n (Request.nominatimReverse lat lng) with
  | rejected err => rfl
  | resolved resp =>
    rw [hf] at h
    by_cases hok : resp.ok = true
    · cases hb : resp.body with
      | error err => simp [hok, hb, bind, Except.bind]
      | ok data =>
        simp [FetchResult.failed, FetchResult.isRejected, FetchResult.isErrorStatus,
          FetchResult.isUnreadable, hok, hb] at h
    · simp [hok]

/-- C7: for numeric `lat` and `lng` and any behaviour of the two providers,
`getLocationName` returns without throwing, and the value it returns is either the
coordinate label or a value one of the providers supplied as the name. -/
theorem getLocationName_never_throws (e : Env) (s : Monitor) (lat lng : JSNum) :
    ∃ v, (getLocationName lat lng e s).1 = .ok v ∧
      (v = JSVal.str (coordinateLabel e.host lat lng) ∨
        ProviderSupplied e (requestsOf s.trace).length lat lng v) := by
  have hsecond : ∀ v, v = nominatimReverseResult e ((requestsOf s.trace).length + 1) lat lng →
      (v = JSVal.str (coordinateLabel e.host lat lng) ∨
        ProviderSupplied e (requestsOf s.trace).length lat lng v) := by
    intro v hv
    rcases nominatimReverseResult_cases e ((requestsOf s.trace).length + 1) lat lng with h | h
    · exact Or.inl (hv.trans h)
    · obtain ⟨resp, data, h1, h2, h3⟩ := h
      exact Or.inr (Or.inr ⟨resp, data, h1, h2, by rw [hv]; exact h3⟩)
  rw [getLocationName_apply]
  cases hf : e.fetch (requestsOf s.trace).length (Request.openCageReverse lat lng) with
  | rejected err => exact ⟨_, rfl, hsecond _ rfl⟩
  | resolved resp =>
    by_cases hok : resp.ok = true
    · simp only [hok, if_true]
      cases hb : resp.body with
      | error err => exact ⟨_, rfl, hsecond _ rfl⟩
      | ok data =>
        simp only [bind, Except.bind]
        cases hn : openCageName e.host lat lng data with
        | error err => exact ⟨_, rfl, hsecond _ rfl⟩
        | ok v =>
          refine ⟨v, rfl, ?_⟩
          rcases openCageName_cases e.host lat lng data v hn with h | ⟨results, first, h1, h2, h3⟩
          · exact Or.inl h
          · exact Or.inr (Or.inl ⟨resp, data, results, first, hf, hb, h1, h2, h3⟩)
    · by_cases hst : resp.status = 401 ∨ resp.status = 403
      · simp only [hok, hst, if_true, if_false]
        exact ⟨_, rfl, hsecond _ rfl⟩
      · simp only [hok, hst, if_false]
        exact ⟨_, rfl, Or.inl rfl⟩

/-- C8: when both reverse-geocoding providers fail (transport error, error status or
unreadable body), `getLocationName` returns exactly `lat.toFixed(4)`, then `, `, then
`lng.toFixed(4)`. -/
theorem getLocationName_both_fail (e : Env) (s : Monitor) (lat lng : JSNum)
    (hprimary :
      (e.fetch (requestsOf s.trace).length (Request.openCageReverse lat lng)).failed = true)
    (hsecondary :
      (e.fetch ((requestsOf s.trace).length + 1) (Request.nominatimReverse lat lng)).failed
        = true) :
    (getLocationName lat lng e s).1
      = .ok (JSVal.str (lat.toFixed e.host 4 ++ ", " ++ lng.toFixed e.host 4)) := by
  have hsecond := nominatimReverseResult_failed e _ lat lng hsecondary
  rw [getLocationName_apply]
  cases hf : e.fetch (requestsOf s.trace).length (Request.openCageReverse lat lng) with
  | rejected err => simp only [hsecond]; rfl
  | resolved resp =>
    rw [hf] at hprimary
    by_cases hok : resp.ok = true
    · cases hb : resp.body with
      | error err => simp only [hok, hb, if_true, bind, Except.bind, hsecond]; rfl
      | ok data =>
        simp [FetchResult.failed, FetchResult.isRejected, FetchResult.isErrorStatus,
          FetchResult.isUnreadable, hok, hb] at hprimary
    · by_cases hst : resp.status = 401 ∨ resp.status = 403
      · simp only [hok, hst, if_true, if_false, hsecond]; rfl
      · simp only [hok, hst, if_false]; rfl

/-- Instance of C8: the primary answers 401, the request to the secondary raises a
transport error, and the label of `(48.85661, 2.35222)` is `48.8566, 2.3522`. -/
theorem getLocationName_both_fail_witness :
    (getLocationName (JSNum.fin (4885661 / 100000)) (JSNum.fin (235222 / 100000))
      (exampleEnv providersReverseDown) (Monitor.initial "")).1
      = .ok (JSVal.str ((JSNum.fin (4885661 / 100000)).toFixed exampleHost 4 ++ ", " ++
          (JSNum.fin (235222 / 100000)).toFixed exampleHost 4)) ∧
    (JSNum.fin (4885661 / 100000)).toFixed exampleHost 4 ++ ", " ++
      (JSNum.fin (235222 / 100000)).toFixed exampleHost 4 = "48.8566, 2.3522" :=
  ⟨getLocationName_both_fail (exampleEnv providersReverseDown) (Monitor.initial "")
      (JSNum.fin (4885661 / 100000)) (JSNum.fin (235222 / 100000)) (by decide) (by decide),
    by decide!⟩

/-! ## The stored snapshot -/

theorem requested_eq_requestedAll (s : Monitor) (r : Request) :
    s.requested r = s.requestedAll [r] := rfl

theorem requestedAll_requestedAll (s : Monitor) (rs qs : List Request) :
    (s.requestedAll rs).requestedAll qs = s.requestedAll (rs ++ qs) := by
  simp [Monitor.requestedAll]

theorem errorsOf_map_request (rs : List Request) : errorsOf (rs.map Event.request) = [] := by
  induction rs with
  | nil => rfl
  | cons r rest ih => simp [errorsOf, Event.error?]

theorem errorsOf_append (xs ys : List Event) : errorsOf (xs ++ ys) = errorsOf xs ++ errorsOf ys := by
  simp [errorsOf]

theorem getCoordinates_state (location : String) (e : Env) (s : Monitor) :
    ∃ rs, (getCoordinates location e s).2 = s.requestedAll rs := by
  rw [getCoordinates_apply]
  simp only [requested_eq_requestedAll, requestedAll_requestedAll]
  cases e.fetch (requestsOf s.trace).length (Request.openCageForward location) with
  | rejected err => exact ⟨_, rfl⟩
  | resolved resp =>
    by_cases hok : resp.ok = true
    · simp only [hok, if_true]
      cases resp.body <;> exact ⟨_, rfl⟩
    · by_cases hst : resp.status = 401 ∨ resp.status = 403
      · simp only [hok, hst, if_true, if_false]
        cases nominatimSearchResult e ((requestsOf s.trace).length + 1) location <;>
          exact ⟨_, rfl⟩
      · simp only [hok, hst, if_false]
        exact ⟨_, rfl⟩

theorem getLocationName_state (lat lng : JSNum) (e : Env) (s : Monitor) :
    ∃ v rs, getLocationName lat lng e s = (.ok v, s.requestedAll rs) := by
  rw [getLocationName_apply]
  simp only [requested_eq_requestedAll, requestedAll_requestedAll]
  cases e.fetch (requestsOf s.trace).length (Request.openCageReverse lat lng) with
  | rejected err => exact ⟨_, _, rfl⟩
  | resolved resp =>
    by_cases hok : resp.ok = true
    · simp only [hok, if_true]
      cases resp.body >>= openCageName e.host lat lng <;> exact ⟨_, _, rfl⟩
    · by_cases hst : resp.status = 401 ∨ resp.status = 403
      · simp only [hok, hst, if_true, if_false]
        exact ⟨_, _, rfl⟩
      · simp only [hok, hst, if_false]
        exact ⟨_, _, rfl⟩

theorem runShape_of_unchanged {s t : Monitor} (evs : List Event)
    (htrace : t.trace = s.trace ++ evs) (hdata : t.currentData = s.currentData) :
    RunShape s t :=
  ⟨evs, htrace, Or.inl hdata⟩

theorem runShape_prefix (s s1 t : Monitor) (pre0 : List Event)
    (htrace : s1.trace = s.trace ++ pre0) (herr : errorsOf pre0 = [])
    (hdata : s1.currentData = s.currentData) (h : RunShape s1 t) : RunShape s t := by
  obtain ⟨evs, ht, hcases⟩ := h
  refine ⟨pre0 ++ evs, by rw [ht, htrace, List.append_assoc], ?_⟩
  rcases hcases with h | ⟨pre, hevs, hpre⟩ | ⟨pre, hevs, hpre⟩
  · exact Or.inl (h.trans hdata)
  · exact Or.inr (Or.inl ⟨pre0 ++ pre, by rw [hevs, List.append_assoc],
      by rw [errorsOf_append, herr, hpre]; rfl⟩)
  · exact Or.inr (Or.inr ⟨pre0 ++ pre, by rw [hevs, List.append_assoc],
      by rw [errorsOf_append, herr, hpre]; rfl⟩)

theorem fetchAirQualityData_runShape (lat lon name : JSVal) (e : Env) (s : Monitor) :
    RunShape s (fetchAirQualityData lat lon name e s).2 := by
  have h := (fetchAirQualityData_cases lat lon name e s).2
  cases hw : openWeatherResult e (requestsOf s.trace).length lat lon with
  | none =>
    rw [hw] at h
    simp only at h
    rw [h]
    exact runShape_of_unchanged
      [Event.request (Request.airPollution lat lon),
        Event.showError "Air quality data unavailable. Please try again later."]
      (by simp [Monitor.withError, Monitor.requested]) rfl
  | some a =>
    rw [hw] at h
    simp only at h
    rcases h.2 with ht | ht
    · exact ⟨_, ht, Or.inr (Or.inl ⟨[Event.request (Request.airPollution lat lon)], rfl, rfl⟩)⟩
    · exact ⟨_, ht, Or.inr (Or.inr ⟨[Event.request (Request.airPollution lat lon)], rfl, rfl⟩)⟩

theorem fetchDataByLocation_runShape (e : Env) (s : Monitor) :
    RunShape s (fetchDataByLocation e s).2 := by
  by_cases hq : jsTrim s.dom.locationInput = ""
  · simp only [fetchDataByLocation, M.bind_apply, M.get_apply, hq, if_true, showError_apply]
    exact runShape_of_unchanged _ rfl rfl
  · simp only [fetchDataByLocation, M.bind_apply, M.get_apply, hq, if_false, showLoading_apply,
      M.tryCatch_apply, M.lift_apply]
    obtain ⟨rs, hstate⟩ := getCoordinates_state (jsTrim s.dom.locationInput) e s.withLoading
    rcases hgc : getCoordinates (jsTrim s.dom.locationInput) e s.withLoading with ⟨r, s2⟩
    rw [hgc] at hstate
    simp only at hstate
    subst hstate
    cases r with
    | error err =>
      simp only [showError_apply]
      exact runShape_of_unchanged
        ([Event.showLoading] ++ rs.map Event.request ++ [Event.showError ("Error: " ++ err.message)])
        (by simp [Monitor.withError, Monitor.requestedAll, Monitor.withLoading]) rfl
    | ok data =>
      simp only
      cases hfg : firstGeometry data with
      | error err =>
        simp only [showError_apply]
        exact runShape_of_unchanged
          ([Event.showLoading] ++ rs.map Event.request ++
            [Event.showError ("Error: " ++ err.message)])
          (by simp [Monitor.withError, Monitor.requestedAll, Monitor.withLoading]) rfl
      | ok geometry =>
        simp only
        have hfa := fetchAirQualityData_cases geometry.1 geometry.2
          (JSVal.str (jsTrim s.dom.locationInput)) e (s.withLoading.requestedAll rs)
        have hshape := fetchAirQualityData_runShape geometry.1 geometry.2
          (JSVal.str (jsTrim s.dom.locationInput)) e (s.withLoading.requestedAll rs)
        rcases hrun : fetchAirQualityData geometry.1 geometry.2
          (JSVal.str (jsTrim s.dom.locationInput)) e (s.withLoading.requestedAll rs) with ⟨r3, s3⟩
        rw [hrun] at hfa hshape
        obtain ⟨hr3, -⟩ := hfa
        simp only at hr3 hshape
        subst hr3
        simp only
        exact runShape_prefix s (s.withLoading.requestedAll rs) s3
          ([Event.showLoading] ++ rs.map Event.request)
          (by simp [Monitor.requestedAll, Monitor.withLoading])
          (by rw [errorsOf_append, errorsOf_map_request]; rfl) rfl hshape

theorem refreshCurrentData_runShape (e : Env) (s : Monitor) :
    RunShape s (refreshCurrentData e s).2 := by
  simp only [refreshCurrentData, M.bind_apply, M.get_apply]
  cases hd : s.currentData with
  | none =>
    simp only [showError_apply]
    exact runShape_of_unchanged _ rfl (by simp [Monitor.withError, hd])
  | some d => exact fetchAirQualityData_runShape _ _ _ e s

theorem getCurrentLocation_runShape (e : Env) (s : Monitor) :
    RunShape s (getCurrentLocation e s).2 := by
  simp only [getCurrentLocation, M.bind_apply, M.env_apply]
  cases hg : e.geolocation with
  | none =>
    simp only [showError_apply]
    exact runShape_of_unchanged _ rfl rfl
  | some outcome =>
    simp only [M.bind_apply, showLoading_apply]
    cases outcome with
    | failure message =>
      simp only [showError_apply]
      exact runShape_of_unchanged
        [Event.showLoading, Event.showError ("Location access denied: " ++ message)]
        (by simp [Monitor.withError, Monitor.withLoading]) rfl
    | silent => exact runShape_of_unchanged [Event.showLoading] rfl rfl
    | position latitude longitude =>
      simp only [M.tryCatch_apply, M.bind_apply]
      obtain ⟨v, rs, hname⟩ := getLocationName_state latitude longitude e s.withLoading
      rw [hname]
      simp only
      have hfa := fetchAirQualityData_cases (JSVal.num latitude) (JSVal.num longitude) v e
        (s.withLoading.requestedAll rs)
      have hshape := fetchAirQualityData_runShape (JSVal.num latitude) (JSVal.num longitude) v e
        (s.withLoading.requestedAll rs)
      rcases hrun : fetchAirQualityData (JSVal.num latitude) (JSVal.num longitude) v e
        (s.withLoading.requestedAll rs) with ⟨r3, s3⟩
      rw [hrun] at hfa hshape
      obtain ⟨hr3, -⟩ := hfa
      simp only at hr3 hshape
      subst hr3
      simp only
      exact runShape_prefix s (s.withLoading.requestedAll rs) s3
        ([Event.showLoading] ++ rs.map Event.request)
        (by simp [Monitor.requestedAll, Monitor.withLoading])
        (by rw [errorsOf_append, errorsOf_map_request]; rfl) rfl hshape

theorem newEvents_of_append {s t : Monitor} {evs : List Event}
    (h : t.trace = s.trace ++ evs) : newEvents s t = evs := by
  simp [newEvents, h]

theorem keepsSnapshot_of_runShape {run : M Unit}
    (h : ∀ e s, RunShape s (run e s).2) : KeepsSnapshotOnError run := by
  intro e s
  obtain ⟨evs, htrace, hcases⟩ := h e s
  rw [newEvents_of_append htrace]
  rcases hcases with hsame | ⟨pre, hevs, hpre⟩ | ⟨pre, hevs, hpre⟩
  · exact ⟨fun _ _ _ => hsame, fun hne => absurd hsame hne⟩
  · subst hevs
    refine ⟨fun m hm _ => ?_, fun _ => by simp⟩
    rw [errorsOf_append, hpre] at hm
    simp [errorsOf, Event.error?] at hm
  · subst hevs
    refine ⟨fun m hm hne => ?_, fun _ => by simp⟩
    rw [errorsOf_append, hpre] at hm
    simp [errorsOf, Event.error?] at hm
    exact absurd hm hne

/-- C9 as the code has it: `currentData` is written only by `displayAirQualityData`,
which runs after coordinate resolution and the air-quality fetch have succeeded; in
every run of `fetchDataByLocation`, `getCurrentLocation` or `refreshCurrentData` that
reports an error other than `Error processing air quality data`, `currentData` after
the run equals `currentData` before it. -/
theorem currentData_kept_on_error :
    KeepsSnapshotOnError fetchDataByLocation ∧ KeepsSnapshotOnError getCurrentLocation ∧
      KeepsSnapshotOnError refreshCurrentData :=
  ⟨keepsSnapshot_of_runShape fetchDataByLocation_runShape,
    keepsSnapshot_of_runShape getCurrentLocation_runShape,
    keepsSnapshot_of_runShape refreshCurrentData_runShape⟩

/-- Instance of C9: a search for Paris while the air-quality provider answers 503 reports
an error that is not the rendering error, and leaves `currentData` empty. -/
theorem currentData_kept_on_error_witness :
    "Air quality data unavailable. Please try again later." ∈
      errorsOf (newEvents (Monitor.initial "Paris")
        (fetchDataByLocation (exampleEnv providersAirDown) (Monitor.initial "Paris")).2) ∧
    (fetchDataByLocation (exampleEnv providersAirDown) (Monitor.initial "Paris")).2.currentData
      = none :=
  ⟨by decide,
    (currentData_kept_on_error.1 (exampleEnv providersAirDown) (Monitor.initial "Paris")).1
      "Air quality data unavailable. Please try again later." (by decide) (by decide)⟩

/-- C9 fails as stated: the primary geocoder sends the coordinates of Paris as strings,
the air-quality fetch succeeds, `displayAirQualityData` stores the snapshot and then
throws in `updateLocationInfo` at `latitude.toFixed(4)`; the run ends by reporting
`Error processing air quality data`, and `currentData`, empty before the run, now holds
the new snapshot. -/
theorem currentData_changed_by_failed_run :
    (Monitor.initial "Paris").currentData = none ∧
    errorsOf (fetchDataByLocation (exampleEnv providersStringCoordinates)
      (Monitor.initial "Paris")).2.trace = ["Error processing air quality data"] ∧
    (fetchDataByLocation (exampleEnv providersStringCoordinates)
      (Monitor.initial "Paris")).2.dom.errorHidden = false ∧
    (fetchDataByLocation (exampleEnv providersStringCoordinates)
      (Monitor.initial "Paris")).2.currentData
      = some (makeSnapshot (JSVal.str "Paris") (JSVal.str "48.8566") (JSVal.str "2.3522")
          { aqi := JSNum.mul 2 50
            pm10 := JSVal.num (JSNum.fin 15)
            pm25 := JSVal.num (JSNum.fin 8)
            o3 := JSVal.num (JSNum.fin 60)
            no2 := JSVal.num (JSNum.fin 12)
            so2 := JSVal.num (JSNum.fin 3)
            co := (JSNum.fin 250).div 1000 }
          "2025-01-01T00:00:00.000Z") := by
  refine ⟨rfl, by decide, by decide, ?_⟩
  rfl

/-! ## Air-quality provider failures -/

theorem openWeatherResult_down (e : Env) (n : Nat) (lat lon : JSVal)
    (h : ((e.fetch n (Request.airPollution lat lon)).isRejected
      || (e.fetch n (Request.airPollution lat lon)).isErrorStatus) = true) :
    openWeatherResult e n lat lon = none := by
  unfold openWeatherResult
  cases hf : e.fetch n (Request.airPollution lat lon) with
  | rejected err => rfl
  | resolved resp =>
    rw [hf] at h
    simp only [FetchResult.isRejected, FetchResult.isErrorStatus, Bool.false_or,
      Bool.not_eq_true'] at h
    simp [h]

/-- C10: when the request to the air-quality provider throws or is answered with a
status outside 200-299, `getOpenWeatherAirQuality` returns `null`, and
`fetchAirQualityData` reports `Air quality data unavailable. Please try again later.`
through `showError`; `displayAirQualityData` and `showResults` are not called, the
result panel stays hidden and `currentData` is unchanged. -/
theorem fetchAirQualityData_provider_down (e : Env) (s : Monitor) (lat lon name : JSVal)
    (h : ((e.fetch (requestsOf s.trace).length (Request.airPollution lat lon)).isRejected
      || (e.fetch (requestsOf s.trace).length (Request.airPollution lat lon)).isErrorStatus)
        = true) :
    (getOpenWeatherAirQuality lat lon e s).1 = .ok none ∧
    (fetchAirQualityData lat lon name e s).1 = .ok () ∧
    (fetchAirQualityData lat lon name e s).2.trace = s.trace ++
      [Event.request (Request.airPollution lat lon),
        Event.showError "Air quality data unavailable. Please try again later."] ∧
    (fetchAirQualityData lat lon name e s).2.dom.errorText
      = "Air quality data unavailable. Please try again later." ∧
    (fetchAirQualityData lat lon name e s).2.dom.errorHidden = false ∧
    (fetchAirQualityData lat lon name e s).2.dom.displayHidden = true ∧
    (fetchAirQualityData lat lon name e s).2.currentData = s.currentData := by
  have hnone := openWeatherResult_down e _ lat lon h
  have hcases := fetchAirQualityData_cases lat lon name e s
  rw [hnone] at hcases
  refine ⟨by rw [getOpenWeatherAirQuality_apply, hnone], hcases.1, ?_⟩
  rw [hcases.2]
  simp [Monitor.withError, Monitor.requested]

/-- Instance of C10: the air-quality provider answers 503; and its request raises a
transport error. -/
theorem fetchAirQualityData_provider_down_witness :
    (fetchAirQualityData (JSVal.num 48) (JSVal.num 2) (JSVal.str "Paris")
      (exampleEnv providersAirDown) (Monitor.initial "Paris")).2.trace
      = [Event.request (Request.airPollution (JSVal.num 48) (JSVal.num 2)),
          Event.showError "Air quality data unavailable. Please try again later."] ∧
    (fetchAirQualityData (JSVal.num 48) (JSVal.num 2) (JSVal.str "Paris")
      (exampleEnv fun _ _ => networkFailure) (Monitor.initial "Paris")).2.trace
      = [Event.request (Request.airPollution (JSVal.num 48) (JSVal.num 2)),
          Event.showError "Air quality data unavailable. Please try again later."] :=
  ⟨(fetchAirQualityData_provider_down (exampleEnv providersAirDown) (Monitor.initial "Paris")
      (JSVal.num 48) (JSVal.num 2) (JSVal.str "Paris") (by decide)).2.2.1,
    (fetchAirQualityData_provider_down (exampleEnv fun _ _ => networkFailure)
      (Monitor.initial "Paris") (JSVal.num 48) (JSVal.num 2) (JSVal.str "Paris")
      (by decide)).2.2.1⟩

/-! ## Tiers, bands and advisories -/

/-- C12: for every integer tier `t` with `1 <= t <= 5`, the normalized index `50 * t`
is classified in the `t`-th band of the severity order (Good, Moderate, Unhealthy for
Sensitive Groups, Unhealthy, Very Unhealthy), never as Hazardous; tier 2 normalizes to
100. -/
theorem getAQIInfo_of_tier (t : ℕ) (h1 : 1 ≤ t) (h5 : t ≤ 5) :
    (severityOrder.get? (t - 1)).map Band.category
      = some (getAQIInfo (JSNum.mul 50 (JSNum.fin (t : ℚ)))).category ∧
    (getAQIInfo (JSNum.mul 50 (JSNum.fin (t : ℚ)))).category ≠ "Hazardous" ∧
    JSNum.mul 50 (JSNum.fin (2 : ℚ)) = JSNum.fin 100 := by
  have hmul : ∀ n : ℕ, n ≤ 5 →
      JSNum.mul 50 (JSNum.fin (n : ℚ)) = JSNum.fin (50 * (n : ℚ)) :=
    JSNum.mul_tier
  refine ⟨?_, ?_, by decide!⟩
  · interval_cases t <;> rw [hmul _ (by norm_num)] <;>
      norm_num [getAQIInfo, JSNum.le, JSNum.ofNat_eq, severityOrder, Band.category]
  · interval_cases t <;> rw [hmul _ (by norm_num)] <;>
      norm_num [getAQIInfo, JSNum.le, JSNum.ofNat_eq] <;>
      decide

/-- Instance of C12 at tier 2: the index is 100 and the band is Moderate. -/
theorem getAQIInfo_of_tier_witness :
    (getAQIInfo (JSNum.mul 50 (JSNum.fin ((2 : ℕ) : ℚ)))).category = "Moderate" := by
  have h := (getAQIInfo_of_tier 2 (by decide) (by decide)).1
  simp only [severityOrder, List.get?, Option.map, Band.category] at h
  exact (Option.some.inj h).symm

/-- C19: two index values that `getAQIInfo` places in the same band get the same list
of advisory texts from `updateRecommendations`, the same rendered list, and the same
`className` from `getAQIInfo`. -/
theorem recommendations_fixed_per_band (a b : JSNum)
    (h : (getAQIInfo a).category = (getAQIInfo b).category) :
    recommendationsFor a = recommendationsFor b ∧
    updateRecommendations a = updateRecommendations b ∧
    (getAQIInfo a).className = (getAQIInfo b).className := by
  have hboth : recommendationsFor a = recommendationsFor b ∧
      (getAQIInfo a).className = (getAQIInfo b).className := by
    revert h
    simp only [getAQIInfo, recommendationsFor]
    by_cases a1 : a.le 50 = true <;> by_cases a2 : a.le 100 = true <;>
      by_cases a3 : a.le 150 = true <;> by_cases a4 : a.le 200 = true <;>
      by_cases a5 : a.le 300 = true <;>
      by_cases b1 : b.le 50 = true <;> by_cases b2 : b.le 100 = true <;>
      by_cases b3 : b.le 150 = true <;> by_cases b4 : b.le 200 = true <;>
      by_cases b5 : b.le 300 = true <;>
      simp [a1, a2, a3, a4, a5, b1, b2, b3, b4, b5]
  exact ⟨hboth.1, by simp only [updateRecommendations, hboth.1], hboth.2⟩

/-- Instance of C19: 10 and 40 are both Good, 250 and 300 are both Very Unhealthy. -/
theorem recommendations_fixed_per_band_witness :
    (recommendationsFor 10 = recommendationsFor 40 ∧
      (getAQIInfo 10).className = (getAQIInfo 40).className) ∧
    (recommendationsFor 250 = recommendationsFor 300 ∧
      (getAQIInfo 250).className = (getAQIInfo 300).className) :=
  ⟨⟨(recommendations_fixed_per_band 10 40 (by decide)).1,
      (recommendations_fixed_per_band 10 40 (by decide)).2.2⟩,
    ⟨(recommendations_fixed_per_band 250 300 (by decide)).1,
      (recommendations_fixed_per_band 250 300 (by decide)).2.2⟩⟩

/-- C20: for every value `v <= 300`, `getPollutantStatus(v, [50, 100, 150, 200])` and
`getAQIInfo(v)` return the same `className`; at the thresholds 50, 100, 150 and 200 both
give the lower tier. -/
theorem classifiers_agree_up_to_300 (v : JSNum) (h : v.le 300 = true) :
    (getPollutantStatus v [50, 100, 150, 200]).className = (getAQIInfo v).className ∧
    ((getPollutantStatus 50 [50, 100, 150, 200]).className = "good" ∧
      (getAQIInfo 50).className = "good") ∧
    ((getPollutantStatus 100 [50, 100, 150, 200]).className = "moderate" ∧
      (getAQIInfo 100).className = "moderate") ∧
    ((getPollutantStatus 150 [50, 100, 150, 200]).className = "unhealthy-sensitive" ∧
      (getAQIInfo 150).className = "unhealthy-sensitive") ∧
    ((getPollutantStatus 200 [50, 100, 150, 200]).className = "unhealthy" ∧
      (getAQIInfo 200).className = "unhealthy") := by
  refine ⟨?_, by decide, by decide, by decide, by decide⟩
  simp only [getPollutantStatus, getAQIInfo, thresholdAt, List.get?, Option.getD, h, if_true]
  by_cases h1 : v.le 50 = true <;> by_cases h2 : v.le 100 = true <;>
    by_cases h3 : v.le 150 = true <;> by_cases h4 : v.le 200 = true <;>
    simp [h1, h2, h3, h4]

/-- Instance of C20 at `v = 150` and at `v = 260`. -/
theorem classifiers_agree_up_to_300_witness :
    (getPollutantStatus 150 [50, 100, 150, 200]).className = (getAQIInfo 150).className ∧
    (getPollutantStatus 260 [50, 100, 150, 200]).className = (getAQIInfo 260).className :=
  ⟨(classifiers_agree_up_to_300 150 (by decide)).1,
    (classifiers_agree_up_to_300 260 (by decide)).1⟩

/-! ## The first candidate and the secondary provider's shape -/

theorem convertNominatim_nonempty (h : Host) (first : JSVal) (rest : List JSVal) :
    convertNominatim h (JSVal.arr (first :: rest)) = (do
      let displayName ← first.getProp "display_name"
      let lat ← first.getProp "lat"
      let lon ← first.getProp "lon"
      pure (JSVal.obj [("results", JSVal.arr [JSVal.obj [
        ("formatted", displayName),
        ("geometry", JSVal.obj [
          ("lat", JSVal.num (h.parseFloat lat)),
          ("lng", JSVal.num (h.parseFloat lon))])]])])) := by
  have hlen : ((JSVal.arr (first :: rest)).getPropOpt "length").toNumber h
      = JSNum.fin ((rest.length + 1 : ℕ) : ℚ) := rfl
  have hgt : (JSNum.fin ((rest.length + 1 : ℕ) : ℚ)).gt 0 = true := by
    simp only [JSNum.gt, JSNum.ofNat_eq, JSNum.lt, decide_eq_true_eq]
    push_cast
    positivity
  simp only [convertNominatim, hlen, hgt, JSVal.truthy, Bool.and_self, if_true]
  rfl

theorem convertNominatim_nil (h : Host) :
    convertNominatim h (JSVal.arr []) = .ok (JSVal.obj [("results", JSVal.arr [])]) := by
  simp [convertNominatim, JSVal.truthy, JSVal.getPropOpt, JSVal.getProp, JSVal.toNumber,
    JSNum.gt, JSNum.lt, JSNum.ofNat_eq, pure, Except.pure]

theorem firstGeometry_nonempty (props : List (String × JSVal)) (first : JSVal)
    (rest : List JSVal) (h : JSVal.lookup "results" props = JSVal.arr (first :: rest)) :
    firstGeometry (JSVal.obj props) = candidateCoordinates first := by
  have hlen : (JSVal.arr (first :: rest)).getProp "length"
      = .ok (JSVal.num (JSNum.fin ((rest.length + 1 : ℕ) : ℚ))) := rfl
  have hne : (JSVal.num (JSNum.fin ((rest.length + 1 : ℕ) : ℚ))).strictEqZero = false := by
    simp only [JSVal.strictEqZero, decide_eq_false_iff_not]
    push_cast
    positivity
  simp only [firstGeometry, noCandidates, JSVal.truthy, JSVal.getProp_obj, h, bind, Except.bind,
    hlen, hne, pure, Except.pure, Bool.not_true, Bool.false_eq_true, if_false]
  rfl

/-- C18: when the secondary provider answers with a success status and a non-empty list
whose first element has `display_name` `d`, `lat` `a` and `lon` `b`,
`getCoordinatesNominatim` returns `{ results: [{ formatted: d, geometry: { lat:
parseFloat(a), lng: parseFloat(b) } }] }`, a results list with exactly one entry; when
the list is empty it returns `{ results: [] }`. -/
theorem getCoordinatesNominatim_shape (e : Env) (s : Monitor) (location : String) :
    (∀ (status : Nat) (first : JSVal) (rest : List JSVal) (d a b : JSVal),
      e.fetch (requestsOf s.trace).length (Request.nominatimSearch location)
        = FetchResult.resolved ⟨status, .ok (JSVal.arr (first :: rest))⟩ →
      (200 ≤ status ∧ status ≤ 299) →
      first.getProp "display_name" = .ok d → first.getProp "lat" = .ok a →
      first.getProp "lon" = .ok b →
      (getCoordinatesNominatim location e s).1 = .ok
        (JSVal.obj [("results", JSVal.arr [JSVal.obj [
          ("formatted", d),
          ("geometry", JSVal.obj [
            ("lat", JSVal.num (e.host.parseFloat a)),
            ("lng", JSVal.num (e.host.parseFloat b))])]])])) ∧
    (∀ (status : Nat),
      e.fetch (requestsOf s.trace).length (Request.nominatimSearch location)
        = FetchResult.resolved ⟨status, .ok (JSVal.arr [])⟩ →
      (200 ≤ status ∧ status ≤ 299) →
      (getCoordinatesNominatim location e s).1 = .ok (JSVal.obj [("results", JSVal.arr [])])) := by
  constructor
  · intro status first rest d a b hfetch hstatus hd ha hb
    rw [getCoordinatesNominatim_apply]
    simp only [nominatimSearchResult, hfetch, Response.ok, hstatus.1, hstatus.2, decide_True,
      Bool.and_self, if_true, bind, Except.bind, convertNominatim_nonempty, hd, ha, hb]
    rfl
  · intro status hfetch hstatus
    rw [getCoordinatesNominatim_apply]
    simp only [nominatimSearchResult, hfetch, Response.ok, hstatus.1, hstatus.2, decide_True,
      Bool.and_self, if_true, bind, Except.bind, convertNominatim_nil]

/-- Instance of C18: the secondary sends one candidate for Paris with its coordinates as
strings; and the secondary sends an empty list. -/
theorem getCoordinatesNominatim_shape_witness :
    (getCoordinatesNominatim "Paris" (exampleEnv providersAuthError) (Monitor.initial "Paris")).1
      = .ok (JSVal.obj [("results", JSVal.arr [JSVal.obj [
          ("formatted", JSVal.str "Paris, France"),
          ("geometry", JSVal.obj [
            ("lat", JSVal.num (exampleHost.parseFloat (JSVal.str "48.8566"))),
            ("lng", JSVal.num (exampleHost.parseFloat (JSVal.str "2.3522")))])]])]) ∧
    (exampleHost.parseFloat (JSVal.str "48.8566") = JSNum.fin (488566 / 10000) ∧
      exampleHost.parseFloat (JSVal.str "2.3522") = JSNum.fin (23522 / 10000)) ∧
    (getCoordinatesNominatim "Atlantis" (exampleEnv providersFallbackNoCandidate)
      (Monitor.initial "Atlantis")).1 = .ok (JSVal.obj [("results", JSVal.arr [])]) :=
  ⟨(getCoordinatesNominatim_shape (exampleEnv providersAuthError) (Monitor.initial "Paris")
      "Paris").1 200 _ [] _ _ _ rfl (by decide) rfl rfl rfl,
    ⟨by decide!, by decide!⟩,
    (getCoordinatesNominatim_shape (exampleEnv providersFallbackNoCandidate)
      (Monitor.initial "Atlantis") "Atlantis").2 200 rfl (by decide)⟩

theorem requestsOf_append (xs ys : List Event) :
    requestsOf (xs ++ ys) = requestsOf xs ++ requestsOf ys := by
  simp [requestsOf]

theorem fetchAirQualityData_requests (lat lon name : JSVal) (e : Env) (s : Monitor) :
    requestsOf (fetchAirQualityData lat lon name e s).2.trace
      = requestsOf s.trace ++ [Request.airPollution lat lon] := by
  have h := (fetchAirQualityData_cases lat lon name e s).2
  cases hw : openWeatherResult e (requestsOf s.trace).length lat lon with
  | none =>
    rw [hw] at h
    simp only at h
    rw [h]
    simp
  | some a =>
    rw [hw] at h
    simp only at h
    rcases h.2 with ht | ht <;> rw [ht, requestsOf_append] <;>
      simp [requestsOf, Event.request?]

theorem tryCatch_fetchAirQualityData (lat lon name : JSVal) (handler : JSError → M Unit)
    (e : Env) (s : Monitor) :
    M.tryCatch (fetchAirQualityData lat lon name) handler e s
      = fetchAirQualityData lat lon name e s := by
  have h := (fetchAirQualityData_cases lat lon name e s).1
  simp only [M.tryCatch_apply]
  rcases hrun : fetchAirQualityData lat lon name e s with ⟨r, s1⟩
  rw [hrun] at h
  simp only at h
  subst h
  rfl

/-- C17: when the primary answers a non-empty query with several candidates,
`fetchDataByLocation` calls `fetchAirQualityData` with `results[0].geometry.lat` and
`results[0].geometry.lng`, so the air-quality request carries the coordinates of the
first candidate whatever the other candidates are; and `getCoordinatesNominatim` builds
its result from the first element of the secondary's list alone. -/
theorem first_candidate_used (e : Env) (s : Monitor) :
    (∀ (resp : Response) (props : List (String × JSVal)) (first : JSVal) (rest : List JSVal)
        (geometry lat lng : JSVal),
      jsTrim s.dom.locationInput ≠ "" →
      e.fetch (requestsOf s.trace).length (Request.openCageForward (jsTrim s.dom.locationInput))
        = FetchResult.resolved resp →
      resp.ok = true → resp.body = .ok (JSVal.obj props) →
      JSVal.lookup "results" props = JSVal.arr (first :: rest) →
      first.getProp "geometry" = .ok geometry → geometry.getProp "lat" = .ok lat →
      geometry.getProp "lng" = .ok lng →
      fetchDataByLocation e s
        = fetchAirQualityData lat lng (JSVal.str (jsTrim s.dom.locationInput)) e
            (s.withLoading.requested (Request.openCageForward (jsTrim s.dom.locationInput))) ∧
      requestsOf (fetchDataByLocation e s).2.trace = requestsOf s.trace ++
        [Request.openCageForward (jsTrim s.dom.locationInput), Request.airPollution lat lng]) ∧
    (∀ (h : Host) (first : JSVal) (rest : List JSVal),
      convertNominatim h (JSVal.arr (first :: rest)) = convertNominatim h (JSVal.arr [first])) := by
  constructor
  · intro resp props first rest geometry lat lng hq hfetch hok hbody hres hgeo hlat hlng
    have hfg : firstGeometry (JSVal.obj props) = .ok (lat, lng) := by
      rw [firstGeometry_nonempty props first rest hres]
      simp only [candidateCoordinates, hgeo, hlat, hlng, bind, Except.bind, pure, Except.pure]
    have hrun : fetchDataByLocation e s
        = fetchAirQualityData lat lng (JSVal.str (jsTrim s.dom.locationInput)) e
            (s.withLoading.requested
              (Request.openCageForward (jsTrim s.dom.locationInput))) := by
      have htc := tryCatch_fetchAirQualityData lat lng (JSVal.str (jsTrim s.dom.locationInput))
        (fun error => showError ("Error: " ++ error.message)) e
        (s.withLoading.requested (Request.openCageForward (jsTrim s.dom.locationInput)))
      rw [← htc]
      simp only [fetchDataByLocation, M.bind_apply, M.get_apply, hq, if_false,
        showLoading_apply, M.tryCatch_apply, getCoordinates_apply, requestsOf_withLoading,
        hfetch, hok, hbody, if_true, M.lift_apply, hfg]
    refine ⟨hrun, ?_⟩
    rw [hrun, fetchAirQualityData_requests]
    simp
  · intro h first rest
    rw [convertNominatim_nonempty, convertNominatim_nonempty]

/-- Instance of C17: the primary sends Paris first and a second candidate after it; the
air-quality request carries the coordinates of Paris. -/
theorem first_candidate_used_witness :
    requestsOf (fetchDataByLocation (exampleEnv providersTwoCandidates)
      (Monitor.initial "Paris")).2.trace
      = [Request.openCageForward "Paris",
          Request.airPollution (JSVal.num (JSNum.fin (488566 / 10000)))
            (JSVal.num (JSNum.fin (23522 / 10000)))] :=
  ((first_candidate_used (exampleEnv providersTwoCandidates) (Monitor.initial "Paris")).1
    ⟨200, .ok twoCandidates⟩ _ _ _ _ _ _ (by decide) rfl (by decide) rfl rfl rfl rfl rfl).2

/-! ## Requests issued by one call of `getCoordinates` -/

theorem getCoordinates_requests (location : String) (e : Env) (s : Monitor) :
    ∃ rs, requestsOf (getCoordinates location e s).2.trace
        = requestsOf s.trace ++ Request.openCageForward location :: rs ∧
      (rs = [] ∨ rs = [Request.nominatimSearch location] ∨
        rs = [Request.nominatimSearch location, Request.nominatimSearch location]) := by
  rw [getCoordinates_apply]
  cases e.fetch (requestsOf s.trace).length (Request.openCageForward location) with
  | rejected err => exact ⟨[Request.nominatimSearch location], by simp, Or.inr (Or.inl rfl)⟩
  | resolved resp =>
    by_cases hok : resp.ok = true
    · simp only [hok, if_true]
      cases resp.body with
      | ok data => exact ⟨[], by simp, Or.inl rfl⟩
      | error err => exact ⟨[Request.nominatimSearch location], by simp, Or.inr (Or.inl rfl)⟩
    · by_cases hst : resp.status = 401 ∨ resp.status = 403
      · simp only [hok, hst, if_true, if_false]
        cases nominatimSearchResult e ((requestsOf s.trace).length + 1) location with
        | ok v => exact ⟨[Request.nominatimSearch location], by simp, Or.inr (Or.inl rfl)⟩
        | error err =>
          exact ⟨[Request.nominatimSearch location, Request.nominatimSearch location],
            by simp, Or.inr (Or.inr rfl)⟩
      · simp only [hok, hst, if_false]
        exact ⟨[], by simp, Or.inl rfl⟩

/-- C14 evaluated where it fails: the primary answers 401 and the secondary answers 500.
The call `getCoordinatesNominatim` sits inside the `try` block, its throw is caught by
the handler meant for the primary, and the handler calls `getCoordinatesNominatim`
again: one call of `getCoordinates` issues one request to the primary and two to the
secondary; when the secondary answers the second request normally, that answer is what
`getCoordinates` returns. -/
theorem getCoordinates_asks_secondary_twice :
    ((requestsOf (getCoordinates "Paris" (exampleEnv providersBothDown)
        (Monitor.initial "Paris")).2.trace).map Request.isSecondary = [false, true, true] ∧
      (getCoordinates "Paris" (exampleEnv providersBothDown) (Monitor.initial "Paris")).1
        = .error ⟨"Error", "Nominatim geocoding failed: 500"⟩) ∧
    ((requestsOf (getCoordinates "Paris" (exampleEnv providersSecondaryRecovers)
        (Monitor.initial "Paris")).2.trace).map Request.isSecondary = [false, true, true] ∧
      (getCoordinates "Paris" (exampleEnv providersSecondaryRecovers)
        (Monitor.initial "Paris")).1
        = .ok (translated exampleHost [
            ("display_name", JSVal.str "Paris, France"),
            ("lat", JSVal.str "48.8566"),
            ("lon", JSVal.str "2.3522")])) := by
  refine ⟨⟨by decide, ?_⟩, ⟨by decide, ?_⟩⟩
  · rw [getCoordinates_apply]; rfl
  · rw [getCoordinates_apply]; rfl

/-! ## Fallback policy of the two directions -/

theorem requestsOf_map_request (rs : List Request) :
    requestsOf (rs.map Event.request) = rs := by
  induction rs with
  | nil => rfl
  | cons r rest ih => simpa [requestsOf, Event.request?] using ih

theorem consultsSecondary_requestedAll (s : Monitor) (rs : List Request) :
    consultsSecondary s (s.requestedAll rs) = rs.any Request.isSecondary := by
  have h : newEvents s (s.requestedAll rs) = rs.map Event.request :=
    newEvents_of_append rfl
  rw [consultsSecondary, h, requestsOf_map_request]

theorem openCageName_error_iff (h : Host) (lat lng : JSNum) (data : JSVal) :
    (∃ err, openCageName h lat lng data = .error err) ↔
      ∃ err, (data.getProp "results" >>= JSVal.index0) = .error err := by
  simp only [openCageName, bind, Except.bind]
  cases data.getProp "results" with
  | error err => simp
  | ok results =>
    simp only
    cases results.index0 with
    | error err => simp
    | ok first => simp [pure, Except.pure]

/-- The primary outcomes on which each of the two methods consults the secondary
provider: `getCoordinates` exactly when the primary status is 401 or 403, the request is
rejected, or the body of a success answer cannot be parsed; `getLocationName` in those
cases and also when a success answer has a parsed body from which `data.results[0]`
cannot be read. -/
theorem fallback_policies (e : Env) (s : Monitor) (location : String) (lat lng : JSNum)
    (o : FetchResult)
    (hforward : e.fetch (requestsOf s.trace).length (Request.openCageForward location) = o)
    (hreverse : e.fetch (requestsOf s.trace).length (Request.openCageReverse lat lng) = o) :
    consultsSecondary s (getCoordinates location e s).2
      = (o.isAuthError || o.isRejected || o.isUnreadable) ∧
    consultsSecondary s (getLocationName lat lng e s).2
      = (o.isAuthError || o.isRejected || o.isUnreadable || o.lacksResults) ∧
    (consultsSecondary s (getCoordinates location e s).2 = true →
      consultsSecondary s (getLocationName lat lng e s).2 = true) := by
  have h1 : consultsSecondary s (getCoordinates location e s).2
      = (o.isAuthError || o.isRejected || o.isUnreadable) := by
    rw [getCoordinates_apply, hforward]
    simp only [requested_eq_requestedAll, requestedAll_requestedAll]
    cases o with
    | rejected err =>
      simp [consultsSecondary_requestedAll, Request.isSecondary, FetchResult.isRejected]
    | resolved resp =>
      by_cases hok : resp.ok = true
      · cases hb : resp.body with
        | ok data =>
          have hst : ¬(resp.status = 401 ∨ resp.status = 403) := by
            intro h
            rcases h with h | h <;> simp [Response.ok, h] at hok
          simp [hok, hb, hst, consultsSecondary_requestedAll, Request.isSecondary,
            FetchResult.isRejected, FetchResult.isUnreadable, FetchResult.isAuthError]
        | error err =>
          simp [hok, hb, consultsSecondary_requestedAll, Request.isSecondary,
            FetchResult.isRejected, FetchResult.isUnreadable, FetchResult.isAuthError]
      · by_cases hst : resp.status = 401 ∨ resp.status = 403
        · simp only [hok, hst, if_true, if_false]
          cases nominatimSearchResult e ((requestsOf s.trace).length + 1) location <;>
            simp [hst, consultsSecondary_requestedAll, Request.isSecondary,
              FetchResult.isAuthError]
        · simp [hok, hst, consultsSecondary_requestedAll, Request.isSecondary,
            FetchResult.isRejected, FetchResult.isUnreadable, FetchResult.isAuthError]
  have h2 : consultsSecondary s (getLocationName lat lng e s).2
      = (o.isAuthError || o.isRejected || o.isUnreadable || o.lacksResults) := by
    rw [getLocationName_apply, hreverse]
    simp only [requested_eq_requestedAll, requestedAll_requestedAll]
    cases o with
    | rejected err =>
      simp [consultsSecondary_requestedAll, Request.isSecondary, FetchResult.isRejected]
    | resolved resp =>
      by_cases hok : resp.ok = true
      · have hst : ¬(resp.status = 401 ∨ resp.status = 403) := by
          intro h
          rcases h with h | h <;> simp [Response.ok, h] at hok
        cases hb : resp.body with
        | error err =>
          simp [hok, hb, bind, Except.bind, consultsSecondary_requestedAll,
            Request.isSecondary, FetchResult.isRejected, FetchResult.isUnreadable,
            FetchResult.isAuthError]
        | ok data =>
          have hiff := openCageName_error_iff e.host lat lng data
          cases hn : openCageName e.host lat lng data with
          | ok v =>
            have hno : ¬∃ err, (data.getProp "results" >>= JSVal.index0) = .error err := by
              rw [← hiff, hn]; simp
            cases hx : (data.getProp "results" >>= JSVal.index0) with
            | error err => exact absurd ⟨err, hx⟩ hno
            | ok w =>
              simp only [bind, Except.bind] at hx
              simp [hok, hb, hn, hx, hst, bind, Except.bind, consultsSecondary_requestedAll,
                Request.isSecondary, FetchResult.isRejected, FetchResult.isUnreadable,
                FetchResult.isAuthError, FetchResult.lacksResults]
          | error err =>
            obtain ⟨err2, hx⟩ := hiff.mp ⟨err, hn⟩
            simp only [bind, Except.bind] at hx
            simp [hok, hb, hn, hx, bind, Except.bind, consultsSecondary_requestedAll,
              Request.isSecondary, FetchResult.lacksResults]
      · by_cases hst : resp.status = 401 ∨ resp.status = 403
        · simp [hok, hst, consultsSecondary_requestedAll, Request.isSecondary,
            FetchResult.isAuthError]
        · simp [hok, hst, consultsSecondary_requestedAll, Request.isSecondary,
            FetchResult.isRejected, FetchResult.isUnreadable, FetchResult.isAuthError,
            FetchResult.lacksResults]
  refine ⟨h1, h2, fun h => ?_⟩
  rw [h2]
  rw [h1] at h
  simp [h]

/-- The primary answers 401 to both directions, and both methods consult the
secondary. -/
theorem fallback_policies_witness :
    consultsSecondary (Monitor.initial "Paris")
      (getCoordinates "Paris" (exampleEnv providersAuth401) (Monitor.initial "Paris")).2
      = true ∧
    consultsSecondary (Monitor.initial "Paris")
      (getLocationName (JSNum.fin 48) (JSNum.fin 2) (exampleEnv providersAuth401)
        (Monitor.initial "Paris")).2 = true := by
  have h := fallback_policies (exampleEnv providersAuth401) (Monitor.initial "Paris") "Paris"
    (JSNum.fin 48) (JSNum.fin 2) _ rfl rfl
  exact ⟨h.1, h.2.1⟩

/-- C16, at the failing input: the primary answers 200 with the body `{}` to a forward and
to a reverse request.  `getCoordinates` returns the body and does not consult the
secondary; `getLocationName` throws at `data.results[0]` inside its `try` block and
consults the secondary, so the two methods do not fall back on the same primary
outcomes. -/
theorem fallback_differs_on_body_without_results :
    providersNoResultsField 0 (Request.openCageForward "Paris")
      = providersNoResultsField 0 (Request.openCageReverse (JSNum.fin 48) (JSNum.fin 2)) ∧
    consultsSecondary (Monitor.initial "Paris")
      (getCoordinates "Paris" (exampleEnv providersNoResultsField) (Monitor.initial "Paris")).2
      = false ∧
    consultsSecondary (Monitor.initial "Paris")
      (getLocationName (JSNum.fin 48) (JSNum.fin 2) (exampleEnv providersNoResultsField)
        (Monitor.initial "Paris")).2 = true :=
  ⟨rfl, by decide, by decide⟩

/-- The guard of `getLocationName` at work: on a 200 answer with an empty result list
`data.results[0]?.formatted` is `undefined`, the coordinate label is returned and the
secondary is not consulted, as in `getCoordinates`. -/
theorem getLocationName_keeps_primary_on_empty_results :
    consultsSecondary (Monitor.initial "Paris")
      (getCoordinates "Paris" (exampleEnv providersEmptyResults) (Monitor.initial "Paris")).2
      = false ∧
    consultsSecondary (Monitor.initial "Paris")
      (getLocationName (JSNum.fin 48) (JSNum.fin 2) (exampleEnv providersEmptyResults)
        (Monitor.initial "Paris")).2 = false ∧
    (getLocationName (JSNum.fin 48) (JSNum.fin 2) (exampleEnv providersEmptyResults)
        (Monitor.initial "Paris")).1
      = .ok (JSVal.str (coordinateLabel exampleHost (JSNum.fin 48) (JSNum.fin 2))) :=
  ⟨by decide, by decide, rfl⟩

/-! ## Outcome of a search -/

theorem fetchAirQualityData_tail (lat lon name : JSVal) (e : Env) (s : Monitor) :
    (fetchAirQualityData lat lon name e s).2.trace
        = s.trace ++ [Event.request (Request.airPollution lat lon),
            Event.showError unavailableError] ∨
    (fetchAirQualityData lat lon name e s).2.trace
        = s.trace ++ [Event.request (Request.airPollution lat lon),
            Event.displayAirQualityData, Event.showResults] ∨
    (fetchAirQualityData lat lon name e s).2.trace
        = s.trace ++ [Event.request (Request.airPollution lat lon),
            Event.displayAirQualityData, Event.showError renderingError] := by
  have h := (fetchAirQualityData_cases lat lon name e s).2
  cases hw : openWeatherResult e (requestsOf s.trace).length lat lon with
  | none =>
    rw [hw] at h
    simp only at h
    rw [h]
    exact Or.inl (by simp [Monitor.withError, Monitor.requested, unavailableError])
  | some a =>
    rw [hw] at h
    simp only at h
    rcases h.2 with ht | ht
    · exact Or.inr (Or.inl ht)
    · exact Or.inr (Or.inr ht)

theorem fetchDataByLocation_cases (e : Env) (s : Monitor)
    (hq : jsTrim s.dom.locationInput ≠ "") :
    ∃ rs, (getCoordinates (jsTrim s.dom.locationInput) e s.withLoading).2
        = s.withLoading.requestedAll rs ∧
      ((∃ err, (getCoordinates (jsTrim s.dom.locationInput) e s.withLoading).1 = .error err ∧
          fetchDataByLocation e s = (.ok (),
            (s.withLoading.requestedAll rs).withError ("Error: " ++ err.message))) ∨
        (∃ data err,
          (getCoordinates (jsTrim s.dom.locationInput) e s.withLoading).1 = .ok data ∧
          firstGeometry data = .error err ∧
          fetchDataByLocation e s = (.ok (),
            (s.withLoading.requestedAll rs).withError ("Error: " ++ err.message))) ∨
        (∃ data lat lng,
          (getCoordinates (jsTrim s.dom.locationInput) e s.withLoading).1 = .ok data ∧
          firstGeometry data = .ok (lat, lng) ∧
          fetchDataByLocation e s
            = fetchAirQualityData lat lng (JSVal.str (jsTrim s.dom.locationInput)) e
                (s.withLoading.requestedAll rs))) := by
  obtain ⟨rs, hstate⟩ := getCoordinates_state (jsTrim s.dom.locationInput) e s.withLoading
  refine ⟨rs, hstate, ?_⟩
  simp only [fetchDataByLocation, M.bind_apply, M.get_apply, hq, if_false, showLoading_apply,
    M.tryCatch_apply, M.lift_apply]
  rcases hgc : getCoordinates (jsTrim s.dom.locationInput) e s.withLoading with ⟨r, s2⟩
  rw [hgc] at hstate
  simp only at hstate
  subst hstate
  cases r with
  | error err => exact Or.inl ⟨err, rfl, rfl⟩
  | ok data =>
    simp only
    cases hfg : firstGeometry data with
    | error err => exact Or.inr (Or.inl ⟨data, err, rfl, hfg, rfl⟩)
    | ok geometry =>
      refine Or.inr (Or.inr ⟨data, geometry.1, geometry.2, rfl, hfg, ?_⟩)
      exact tryCatch_fetchAirQualityData geometry.1 geometry.2 _
        (fun error => showError ("Error: " ++ error.message)) e _

theorem resultsShown_append (xs ys : List Event) :
    resultsShown (xs ++ ys) = resultsShown xs + resultsShown ys := by
  simp [resultsShown]

theorem resultsShown_map_request (rs : List Request) :
    resultsShown (rs.map Event.request) = 0 := by
  induction rs with
  | nil => rfl
  | cons r rest ih => simp [resultsShown, Event.isShowResults]

theorem loading_requests_quiet (rs : List Request) :
    errorsOf ([Event.showLoading] ++ rs.map Event.request) = [] ∧
      resultsShown ([Event.showLoading] ++ rs.map Event.request) = 0 := by
  constructor
  · rw [errorsOf_append, errorsOf_map_request]; rfl
  · rw [resultsShown_append, resultsShown_map_request]; rfl

theorem newEvents_withError (s : Monitor) (rs : List Request) (message : String) :
    newEvents s ((s.withLoading.requestedAll rs).withError message)
      = ([Event.showLoading] ++ rs.map Event.request) ++ [Event.showError message] :=
  newEvents_of_append
    (by simp [Monitor.withError, Monitor.requestedAll, Monitor.withLoading])

/-- C13: every run of `fetchDataByLocation` returns without throwing, whatever the
providers return or raise, and it is of exactly one of two kinds: it reports exactly one
message through `showError` and never calls `showResults`, or it calls `showResults`
(once) and never `showError`. -/
theorem fetchDataByLocation_reports_once (e : Env) (s : Monitor) :
    (fetchDataByLocation e s).1 = .ok () ∧
    (((∃ m, errorsOf (newEvents s (fetchDataByLocation e s).2) = [m]) ∧
        resultsShown (newEvents s (fetchDataByLocation e s).2) = 0) ∨
      (errorsOf (newEvents s (fetchDataByLocation e s).2) = [] ∧
        resultsShown (newEvents s (fetchDataByLocation e s).2) = 1)) := by
  by_cases hq : jsTrim s.dom.locationInput = ""
  · have hrun : fetchDataByLocation e s = (.ok (), s.withError "Please enter a location") := by
      simp only [fetchDataByLocation, M.bind_apply, M.get_apply, hq, if_true, showError_apply]
    rw [hrun]
    have hev : newEvents s (s.withError "Please enter a location")
        = [Event.showError "Please enter a location"] := newEvents_of_append rfl
    exact ⟨rfl, Or.inl ⟨⟨_, by rw [hev]; rfl⟩, by rw [hev]; rfl⟩⟩
  · obtain ⟨rs, -, hcases⟩ := fetchDataByLocation_cases e s hq
    have hquiet := loading_requests_quiet rs
    have hfail : ∀ message : String,
        (∃ m, errorsOf (newEvents s ((s.withLoading.requestedAll rs).withError message)) = [m]) ∧
          resultsShown (newEvents s ((s.withLoading.requestedAll rs).withError message)) = 0 := by
      intro message
      rw [newEvents_withError, errorsOf_append, resultsShown_append, hquiet.1, hquiet.2]
      exact ⟨⟨message, rfl⟩, rfl⟩
    rcases hcases with ⟨err, -, hrun⟩ | ⟨data, err, -, -, hrun⟩ | ⟨data, lat, lng, -, -, hrun⟩
    · rw [hrun]
      exact ⟨rfl, Or.inl (hfail _)⟩
    · rw [hrun]
      exact ⟨rfl, Or.inl (hfail _)⟩
    · rw [hrun]
      refine ⟨(fetchAirQualityData_cases _ _ _ e _).1, ?_⟩
      have hpre : (s.withLoading.requestedAll rs).trace
          = s.trace ++ ([Event.showLoading] ++ rs.map Event.request) := by
        simp [Monitor.requestedAll, Monitor.withLoading]
      rcases fetchAirQualityData_tail lat lng (JSVal.str (jsTrim s.dom.locationInput)) e
        (s.withLoading.requestedAll rs) with ht | ht | ht
      · rw [hpre, List.append_assoc] at ht
        rw [newEvents_of_append ht, errorsOf_append, resultsShown_append, hquiet.1, hquiet.2]
        exact Or.inl ⟨⟨unavailableError, rfl⟩, rfl⟩
      · rw [hpre, List.append_assoc] at ht
        rw [newEvents_of_append ht, errorsOf_append, resultsShown_append, hquiet.1, hquiet.2]
        exact Or.inr ⟨rfl, rfl⟩
      · rw [hpre, List.append_assoc] at ht
        rw [newEvents_of_append ht, errorsOf_append, resultsShown_append, hquiet.1, hquiet.2]
        exact Or.inl ⟨⟨renderingError, rfl⟩, rfl⟩

theorem fetchDataByLocation_geocoded (e : Env) (s s2 : Monitor) (data lat lng : JSVal)
    (hq : jsTrim s.dom.locationInput ≠ "")
    (hgc : getCoordinates (jsTrim s.dom.locationInput) e s.withLoading = (.ok data, s2))
    (hfg : firstGeometry data = .ok (lat, lng)) :
    fetchDataByLocation e s
      = fetchAirQualityData lat lng (JSVal.str (jsTrim s.dom.locationInput)) e s2 := by
  have htc := tryCatch_fetchAirQualityData lat lng (JSVal.str (jsTrim s.dom.locationInput))
    (fun error => showError ("Error: " ++ error.message)) e s2
  rw [← htc]
  simp only [fetchDataByLocation, M.bind_apply, M.get_apply, hq, if_false,
    showLoading_apply, M.tryCatch_apply, hgc, M.lift_apply, hfg]

theorem air_stage_errors (s s2 : Monitor) (pre : List Event) (lat lng name : JSVal) (e : Env)
    (hpre : s2.trace = s.trace ++ pre) (hquiet : errorsOf pre = []) :
    ∀ m ∈ errorsOf (newEvents s (fetchAirQualityData lat lng name e s2).2),
      m = unavailableError ∨ m = renderingError := by
  intro m hm
  rcases fetchAirQualityData_tail lat lng name e s2 with ht | ht | ht <;>
    rw [hpre, List.append_assoc] at ht <;>
    rw [newEvents_of_append ht, errorsOf_append, hquiet] at hm <;>
    simp [errorsOf, Event.error?] at hm
  · exact Or.inl hm
  · exact Or.inr hm

theorem nominatimSearchResult_down (e : Env) (k : Nat) (location : String)
    (h : ((e.fetch k (Request.nominatimSearch location)).isRejected
      || (e.fetch k (Request.nominatimSearch location)).isErrorStatus) = true) :
    ∃ err, nominatimSearchResult e k location = .error err := by
  unfold nominatimSearchResult
  cases hf : e.fetch k (Request.nominatimSearch location) with
  | rejected err => exact ⟨err, rfl⟩
  | resolved resp =>
    rw [hf] at h
    simp only [FetchResult.isRejected, FetchResult.isErrorStatus, Bool.false_or,
      Bool.not_eq_true'] at h
    exact ⟨⟨"Error", "Nominatim geocoding failed: " ++ toString resp.status⟩, by simp [h]⟩

theorem firstGeometry_translated (h : Host) (props : List (String × JSVal)) :
    firstGeometry (translated h props)
      = .ok (JSVal.num (h.parseFloat (JSVal.lookup "lat" props)),
          JSVal.num (h.parseFloat (JSVal.lookup "lon" props))) := by
  have h1 := firstGeometry_nonempty
    [("results", JSVal.arr [JSVal.obj [
      ("formatted", JSVal.lookup "display_name" props),
      ("geometry", JSVal.obj [
        ("lat", JSVal.num (h.parseFloat (JSVal.lookup "lat" props))),
        ("lng", JSVal.num (h.parseFloat (JSVal.lookup "lon" props)))])]])]
    (JSVal.obj [
      ("formatted", JSVal.lookup "display_name" props),
      ("geometry", JSVal.obj [
        ("lat", JSVal.num (h.parseFloat (JSVal.lookup "lat" props))),
        ("lng", JSVal.num (h.parseFloat (JSVal.lookup "lon" props)))])]) [] rfl
  rw [translated, h1]
  rfl

/-- C15, as amended: with a non-empty query, when the primary geocoder fails with 401 or
403 or a transport error and the secondary fails (error status or transport error) each
time it is asked, `fetchDataByLocation` reports an error message and leaves `currentData`
alone; when the primary succeeds with a non-empty result whose first candidate has a
`geometry` from which `lat` and `lng` can be read, or the secondary does, after the
primary fell back, with a non-empty list whose first element can be read (it is not
`null`), the air-quality lookup runs with the coordinates of the first candidate and the
only messages the run can report are those of the air-quality stage, so no geocoding
error is reported. -/
theorem geocoding_error_only_when_both_fail (e : Env) (s : Monitor)
    (hq : jsTrim s.dom.locationInput ≠ "") :
    (((e.fetch (requestsOf s.trace).length
          (Request.openCageForward (jsTrim s.dom.locationInput))).isAuthError
        || (e.fetch (requestsOf s.trace).length
          (Request.openCageForward (jsTrim s.dom.locationInput))).isRejected) = true →
      (∀ k, ((e.fetch k (Request.nominatimSearch (jsTrim s.dom.locationInput))).isRejected
        || (e.fetch k (Request.nominatimSearch (jsTrim s.dom.locationInput))).isErrorStatus)
          = true) →
      (∃ m, errorsOf (newEvents s (fetchDataByLocation e s).2) = ["Error: " ++ m]) ∧
      (fetchDataByLocation e s).2.currentData = s.currentData) ∧
    (∀ (resp : Response) (props : List (String × JSVal)) (first : JSVal) (rest : List JSVal)
        (geometry lat lng : JSVal),
      e.fetch (requestsOf s.trace).length (Request.openCageForward (jsTrim s.dom.locationInput))
        = FetchResult.resolved resp →
      resp.ok = true → resp.body = .ok (JSVal.obj props) →
      JSVal.lookup "results" props = JSVal.arr (first :: rest) →
      first.getProp "geometry" = .ok geometry → geometry.getProp "lat" = .ok lat →
      geometry.getProp "lng" = .ok lng →
      (∀ m ∈ errorsOf (newEvents s (fetchDataByLocation e s).2),
        m = unavailableError ∨ m = renderingError) ∧
      requestsOf (fetchDataByLocation e s).2.trace = requestsOf s.trace ++
        [Request.openCageForward (jsTrim s.dom.locationInput), Request.airPollution lat lng]) ∧
    (∀ (status : Nat) (first : JSVal) (rest : List JSVal) (d a b : JSVal),
      ((e.fetch (requestsOf s.trace).length
          (Request.openCageForward (jsTrim s.dom.locationInput))).isAuthError
        || (e.fetch (requestsOf s.trace).length
          (Request.openCageForward (jsTrim s.dom.locationInput))).isRejected
        || (e.fetch (requestsOf s.trace).length
          (Request.openCageForward (jsTrim s.dom.locationInput))).isUnreadable) = true →
      e.fetch ((requestsOf s.trace).length + 1)
          (Request.nominatimSearch (jsTrim s.dom.locationInput))
        = FetchResult.resolved ⟨status, .ok (JSVal.arr (first :: rest))⟩ →
      (200 ≤ status ∧ status ≤ 299) →
      first.getProp "display_name" = .ok d → first.getProp "lat" = .ok a →
      first.getProp "lon" = .ok b →
      (∀ m ∈ errorsOf (newEvents s (fetchDataByLocation e s).2),
        m = unavailableError ∨ m = renderingError) ∧
      requestsOf (fetchDataByLocation e s).2.trace = requestsOf s.trace ++
        [Request.openCageForward (jsTrim s.dom.locationInput),
          Request.nominatimSearch (jsTrim s.dom.locationInput),
          Request.airPollution (JSVal.num (e.host.parseFloat a))
            (JSVal.num (e.host.parseFloat b))]) := by
  refine ⟨?_, ?_, ?_⟩
  · intro hprimary hsecondary
    have hgc : ∃ err, (getCoordinates (jsTrim s.dom.locationInput) e s.withLoading).1
        = .error err := by
      obtain ⟨err1, h1⟩ := nominatimSearchResult_down e ((requestsOf s.trace).length + 1) _
        (hsecondary _)
      obtain ⟨err2, h2⟩ := nominatimSearchResult_down e ((requestsOf s.trace).length + 2) _
        (hsecondary _)
      rw [getCoordinates_apply]
      simp only [requestsOf_withLoading]
      cases hp : e.fetch (requestsOf s.trace).length
          (Request.openCageForward (jsTrim s.dom.locationInput)) with
      | rejected err => exact ⟨err1, by simp only [h1]⟩
      | resolved resp =>
        rw [hp] at hprimary
        simp only [FetchResult.isAuthError, FetchResult.isRejected, Bool.or_false,
          decide_eq_true_eq] at hprimary
        have hnok : resp.ok = false := by
          rcases hprimary with h | h <;> simp [Response.ok, h]
        exact ⟨err2, by simp only [hnok, hprimary, h1, h2, Bool.false_eq_true, if_false,
          if_true]⟩
    obtain ⟨err, herr⟩ := hgc
    obtain ⟨rs, -, hcases⟩ := fetchDataByLocation_cases e s hq
    rcases hcases with ⟨err1, -, hrun⟩ | ⟨data, err1, hd, -, -⟩ | ⟨data, lat, lng, hd, -, -⟩
    · rw [hrun]
      refine ⟨⟨err1.message, ?_⟩, rfl⟩
      rw [newEvents_withError, errorsOf_append, (loading_requests_quiet rs).1]
      rfl
    · rw [herr] at hd; simp at hd
    · rw [herr] at hd; simp at hd
  · intro resp props first rest geometry lat lng hfetch hok hbody hres hgeo hlat hlng
    have hfg : firstGeometry (JSVal.obj props) = .ok (lat, lng) := by
      rw [firstGeometry_nonempty props first rest hres]
      simp only [candidateCoordinates, hgeo, hlat, hlng, bind, Except.bind, pure, Except.pure]
    have hgc : getCoordinates (jsTrim s.dom.locationInput) e s.withLoading
        = (.ok (JSVal.obj props),
            s.withLoading.requested (Request.openCageForward (jsTrim s.dom.locationInput))) := by
      simp only [getCoordinates_apply, requestsOf_withLoading, hfetch, hok, hbody, if_true]
    rw [fetchDataByLocation_geocoded e s _ _ lat lng hq hgc hfg]
    refine ⟨air_stage_errors s _ [Event.showLoading,
      Event.request (Request.openCageForward (jsTrim s.dom.locationInput))] _ _ _ e
      (by simp [Monitor.requested, Monitor.withLoading]) rfl, ?_⟩
    rw [fetchAirQualityData_requests]
    simp
  · intro status first rest d a b hprimary hsecondary hstatus hd ha hb
    have hnom : nominatimSearchResult e ((requestsOf s.withLoading.trace).length + 1)
        (jsTrim s.dom.locationInput)
        = .ok (JSVal.obj [("results", JSVal.arr [JSVal.obj [
            ("formatted", d),
            ("geometry", JSVal.obj [
              ("lat", JSVal.num (e.host.parseFloat a)),
              ("lng", JSVal.num (e.host.parseFloat b))])]])]) := by
      simp only [requestsOf_withLoading, nominatimSearchResult, hsecondary, Response.ok,
        hstatus.1, hstatus.2, decide_True, Bool.and_self, if_true, bind, Except.bind,
        convertNominatim_nonempty, hd, ha, hb, pure, Except.pure]
    have hfg : firstGeometry (JSVal.obj [("results", JSVal.arr [JSVal.obj [
            ("formatted", d),
            ("geometry", JSVal.obj [
              ("lat", JSVal.num (e.host.parseFloat a)),
              ("lng", JSVal.num (e.host.parseFloat b))])]])])
        = .ok (JSVal.num (e.host.parseFloat a), JSVal.num (e.host.parseFloat b)) := by
      rw [firstGeometry_nonempty [("results", JSVal.arr [JSVal.obj [
            ("formatted", d),
            ("geometry", JSVal.obj [
              ("lat", JSVal.num (e.host.parseFloat a)),
              ("lng", JSVal.num (e.host.parseFloat b))])]])] (JSVal.obj [
            ("formatted", d),
            ("geometry", JSVal.obj [
              ("lat", JSVal.num (e.host.parseFloat a)),
              ("lng", JSVal.num (e.host.parseFloat b))])]) [] rfl]
      rfl
    have hgc := getCoordinates_of_fallback e s.withLoading (jsTrim s.dom.locationInput) _
      (by rw [requestsOf_withLoading]; exact hprimary) hnom
    rw [fetchDataByLocation_geocoded e s _ _ _ _ hq hgc hfg]
    refine ⟨air_stage_errors s _ [Event.showLoading,
      Event.request (Request.openCageForward (jsTrim s.dom.locationInput)),
      Event.request (Request.nominatimSearch (jsTrim s.dom.locationInput))] _ _ _ e
      (by simp [Monitor.requested, Monitor.withLoading]) rfl, ?_⟩
    rw [fetchAirQualityData_requests]
    simp

/-- Instance of C15: the primary answers 401 and the secondary 500, and the run reports
`Error: Nominatim geocoding failed: 500`; the primary answers 401 and the secondary sends
Paris, and the run goes on to the air-quality request. -/
theorem geocoding_error_only_when_both_fail_witness :
    ((∃ m, errorsOf (newEvents (Monitor.initial "Paris")
        (fetchDataByLocation (exampleEnv providersBothDown) (Monitor.initial "Paris")).2)
        = ["Error: " ++ m]) ∧
      errorsOf (fetchDataByLocation (exampleEnv providersBothDown)
        (Monitor.initial "Paris")).2.trace = ["Error: Nominatim geocoding failed: 500"]) ∧
    requestsOf (fetchDataByLocation (exampleEnv providersAuthError)
        (Monitor.initial "Paris")).2.trace
      = [Request.openCageForward "Paris", Request.nominatimSearch "Paris",
          Request.airPollution (JSVal.num (exampleHost.parseFloat (JSVal.str "48.8566")))
            (JSVal.num (exampleHost.parseFloat (JSVal.str "2.3522")))] :=
  ⟨⟨((geocoding_error_only_when_both_fail (exampleEnv providersBothDown)
        (Monitor.initial "Paris") (by decide)).1 (by decide) (fun _ => rfl)).1,
      by decide⟩,
    ((geocoding_error_only_when_both_fail (exampleEnv providersAuthError)
      (Monitor.initial "Paris") (by decide)).2.2 200 _ [] _ _ _ (by decide) rfl (by decide)
      rfl rfl rfl).2⟩

/-- C15 fails as stated: the primary answers 200 with a non-empty result list whose first
candidate has no `geometry`.  Reading `geometry.lat` throws, the handler of
`fetchDataByLocation` reports the thrown error behind `Error: `, a message that is not one
of the air-quality stage, and the only request of the run is the one to the primary. -/
theorem geocoding_error_despite_candidate :
    (providersNoGeometry 0 (Request.openCageForward "Paris")).isSuccessStatus = true ∧
    noCandidates candidateWithoutGeometry = .ok false ∧
    (∃ err, firstGeometry candidateWithoutGeometry = .error err ∧
      errorsOf (newEvents (Monitor.initial "Paris")
        (fetchDataByLocation (exampleEnv providersNoGeometry) (Monitor.initial "Paris")).2)
        = ["Error: " ++ err.message]) ∧
    ¬ (∀ m ∈ errorsOf (newEvents (Monitor.initial "Paris")
        (fetchDataByLocation (exampleEnv providersNoGeometry) (Monitor.initial "Paris")).2),
      m = unavailableError ∨ m = renderingError) ∧
    requestsOf (newEvents (Monitor.initial "Paris")
        (fetchDataByLocation (exampleEnv providersNoGeometry) (Monitor.initial "Paris")).2)
      = [Request.openCageForward "Paris"] :=
  ⟨by decide, rfl,
    ⟨typeError "Cannot read properties of undefined (reading lat)", rfl, by decide⟩,
    by decide, rfl⟩

/-! ## Missing pollutant fields -/

theorem returns_pure (a : α) : M.Returns (pure a : M α) := fun _ s => ⟨a, s, rfl⟩

theorem returns_env : M.Returns M.env := fun e s => ⟨e, s, rfl⟩

theorem returns_modifyDom (f : Dom → Dom) : M.Returns (M.modifyDom f) :=
  fun _ _ => ⟨(), _, rfl⟩

theorem returns_lift_ok (a : α) : M.Returns (M.lift (.ok a)) := fun _ s => ⟨a, s, rfl⟩

theorem returns_bind {m : M α} {f : α → M β} (hm : M.Returns m) (hf : ∀ a, M.Returns (f a)) :
    M.Returns (m >>= f) := by
  intro e s
  obtain ⟨a, s1, h1⟩ := hm e s
  obtain ⟨b, s2, h2⟩ := hf a e s1
  exact ⟨b, s2, by simp only [M.bind_apply, h1, h2]⟩

theorem forEach_returns {callback : α → M Unit} (xs : List α)
    (h : ∀ x ∈ xs, M.Returns (callback x)) : M.Returns (forEach callback xs) := by
  induction xs with
  | nil => exact returns_pure ()
  | cons x rest ih =>
    exact returns_bind (h x (List.mem_cons_self _ _))
      (fun _ => ih (fun y hy => h y (List.mem_cons_of_mem _ hy)))

theorem toFixed_orElse_zero (h : Host) (v : JSVal) (hv : v.NumberOrAbsent) :
    ∃ text, (v.orElse (JSVal.num 0)).toFixed h 1 = .ok text := by
  rcases hv with hv | ⟨x, hv⟩
  · subst hv
    exact ⟨_, rfl⟩
  · subst hv
    by_cases ht : (JSVal.num x).truthy = true
    · exact ⟨_, by simp only [JSVal.orElse, ht, if_true]; rfl⟩
    · exact ⟨_, by simp only [JSVal.orElse, ht, Bool.false_eq_true, if_false]; rfl⟩

theorem updatePollutant_returns (id : String) (v : JSVal) (ths : List JSNum)
    (hv : v.NumberOrAbsent) : M.Returns (updatePollutant (id, v, ths)) := by
  intro e s
  obtain ⟨text, ht⟩ := toFixed_orElse_zero e.host v hv
  exact ⟨(), _, by
    simp only [updatePollutant, M.bind_apply, M.env_apply, M.lift_apply, ht]
    rfl⟩

theorem updatePollutants_returns (a : AirQuality)
    (h10 : a.pm10.NumberOrAbsent) (h25 : a.pm25.NumberOrAbsent) (ho3 : a.o3.NumberOrAbsent)
    (hno2 : a.no2.NumberOrAbsent) (hso2 : a.so2.NumberOrAbsent) :
    M.Returns (updatePollutants a) := by
  apply forEach_returns
  intro p hp
  simp only [pollutantTable, List.mem_cons, List.mem_singleton, List.not_mem_nil,
    or_false] at hp
  rcases hp with rfl | rfl | rfl | rfl | rfl | rfl
  · exact updatePollutant_returns _ _ _ h10
  · exact updatePollutant_returns _ _ _ h25
  · exact updatePollutant_returns _ _ _ ho3
  · exact updatePollutant_returns _ _ _ hno2
  · exact updatePollutant_returns _ _ _ hso2
  · exact updatePollutant_returns _ _ _ (Or.inr ⟨a.co, rfl⟩)

theorem updateLocationInfo_returns (location : JSVal) (x y : JSNum) :
    M.Returns (updateLocationInfo location (JSVal.num x) (JSVal.num y)) := by
  intro e s
  exact ⟨(), _, rfl⟩

theorem updateAQI_returns (aqi : JSNum) : M.Returns (updateAQI aqi) := by
  intro e s
  exact ⟨(), _, rfl⟩

theorem showResults_returns : M.Returns showResults := fun _ _ => ⟨(), _, rfl⟩

theorem tryCatch_renders_returns {k : M Unit} (hk : M.Renders k) (hr : M.Returns k)
    (handler : JSError → M Unit) (e : Env) (s : Monitor) :
    (M.tryCatch k handler e s).2.trace = s.trace ++ [Event.showResults] := by
  obtain ⟨a, s1, hrun⟩ := hr e s
  have h := hk e s
  rw [hrun] at h
  simp only [M.tryCatch_apply, hrun]
  rcases h with ⟨-, ⟨-, ht⟩ | ⟨⟨err, herr⟩, -⟩⟩
  · exact ht
  · simp at herr

theorem displayAirQualityData_succeeds (a : AirQuality) (x y : JSNum) (name : JSVal)
    (h10 : a.pm10.NumberOrAbsent) (h25 : a.pm25.NumberOrAbsent) (ho3 : a.o3.NumberOrAbsent)
    (hno2 : a.no2.NumberOrAbsent) (hso2 : a.so2.NumberOrAbsent) (e : Env) (s : Monitor) :
    (displayAirQualityData a (JSVal.num x) (JSVal.num y) name e s).2.trace
      = s.trace ++ [Event.displayAirQualityData, Event.showResults] := by
  have hR : M.Renders (do
      updateLocationInfo name (JSVal.num x) (JSVal.num y)
      updateAQI a.aqi
      updatePollutants a
      updateRecommendations a.aqi
      showResults) :=
    renders_bind (updateLocationInfo_domOnly _ _ _) fun _ =>
      renders_bind (updateAQI_domOnly _) fun _ =>
        renders_bind (updatePollutants_domOnly _) fun _ =>
          renders_bind (updateRecommendations_domOnly _) fun _ => showResults_renders
  have hReturns : M.Returns (do
      updateLocationInfo name (JSVal.num x) (JSVal.num y)
      updateAQI a.aqi
      updatePollutants a
      updateRecommendations a.aqi
      showResults) :=
    returns_bind (updateLocationInfo_returns _ _ _) fun _ =>
      returns_bind (updateAQI_returns _) fun _ =>
        returns_bind (updatePollutants_returns a h10 h25 ho3 hno2 hso2) fun _ =>
          returns_bind (returns_modifyDom _) fun _ => showResults_returns
  have h := tryCatch_renders_returns hR hReturns
    (fun _ => showError "Error processing air quality data") e
    { s with
      currentData := some (makeSnapshot name (JSVal.num x) (JSVal.num y) a e.now)
      trace := s.trace ++ [Event.displayAirQualityData] }
  simp only [List.append_assoc, List.singleton_append] at h
  exact h

theorem updatePollutant_absent (id : String) (ths : List JSNum) :
    updatePollutant (id, JSVal.undefined, ths) = updatePollutant (id, JSVal.num 0, ths) ∧
    updatePollutant (id, JSVal.num JSNum.nan, ths) = updatePollutant (id, JSVal.num 0, ths) := by
  have h0 : (JSVal.num 0).orElse (JSVal.num 0) = JSVal.num 0 := by
    simp [JSVal.orElse]
  constructor
  · simp only [updatePollutant, h0]
    rfl
  · simp only [updatePollutant, h0]
    rfl

theorem toFixed_zero (h : Host) : (JSNum.fin 0).toFixed h 1 = "0.0" := by
  simp only [JSNum.toFixed]
  norm_num
  decide

theorem openWeatherResult_normalized (e : Env) (n : Nat) (lat lon : JSVal) (resp : Response)
    (data list entry main aqi : JSVal) (c : List (String × JSVal))
    (hfetch : e.fetch n (Request.airPollution lat lon) = FetchResult.resolved resp)
    (hok : resp.ok = true) (hbody : resp.body = .ok data)
    (hlist : data.getProp "list" = .ok list) (hentry : list.index0 = .ok entry)
    (hmain : entry.getProp "main" = .ok main) (haqi : main.getProp "aqi" = .ok aqi)
    (hcomp : entry.getProp "components" = .ok (JSVal.obj c)) :
    openWeatherResult e n lat lon = some (normalizedRecord e.host aqi c) := by
  have hconv : convertOpenWeather e.host data = .ok (normalizedRecord e.host aqi c) := by
    simp only [convertOpenWeather, hlist, hentry, hmain, haqi, hcomp, bind, Except.bind,
      JSVal.getProp_obj, pure, Except.pure, normalizedRecord]
  simp only [openWeatherResult, hfetch, hok, hbody, if_true, bind, Except.bind, hconv]

/-- C11 as the code has it: when the provider answers with a success status and a body
whose `list[0]` has `main.aqi` and an object `components` from which a pollutant field
is absent, the fetch still succeeds: `getOpenWeatherAirQuality` returns a record,
`fetchAirQualityData` stores the snapshot, and with numeric coordinates and the other
pollutants numeric or absent the results are shown.  The stored snapshot holds the absent
pollutant as `undefined` (`NaN` for `co`); the value 0 is substituted only where the
pollutant is rendered, `updatePollutants` treating an absent value exactly as it treats
0, which it prints as `0.0`. -/
theorem missing_pollutant_defaults_at_display (e : Env) (s : Monitor) (lat lon name : JSVal)
    (resp : Response) (data list entry main aqi : JSVal) (c : List (String × JSVal))
    (hfetch : e.fetch (requestsOf s.trace).length (Request.airPollution lat lon)
      = FetchResult.resolved resp)
    (hok : resp.ok = true) (hbody : resp.body = .ok data)
    (hlist : data.getProp "list" = .ok list) (hentry : list.index0 = .ok entry)
    (hmain : entry.getProp "main" = .ok main) (haqi : main.getProp "aqi" = .ok aqi)
    (hcomp : entry.getProp "components" = .ok (JSVal.obj c)) :
    (getOpenWeatherAirQuality lat lon e s).1 = .ok (some (normalizedRecord e.host aqi c)) ∧
    (fetchAirQualityData lat lon name e s).2.currentData
      = some (makeSnapshot name lat lon (normalizedRecord e.host aqi c) e.now) ∧
    ((JSVal.lookup "pm10" c = JSVal.undefined →
        (makeSnapshot name lat lon (normalizedRecord e.host aqi c) e.now).pm10
          = JSVal.undefined) ∧
      (JSVal.lookup "pm2_5" c = JSVal.undefined →
        (makeSnapshot name lat lon (normalizedRecord e.host aqi c) e.now).pm25
          = JSVal.undefined) ∧
      (JSVal.lookup "o3" c = JSVal.undefined →
        (makeSnapshot name lat lon (normalizedRecord e.host aqi c) e.now).o3
          = JSVal.undefined) ∧
      (JSVal.lookup "no2" c = JSVal.undefined →
        (makeSnapshot name lat lon (normalizedRecord e.host aqi c) e.now).no2
          = JSVal.undefined) ∧
      (JSVal.lookup "so2" c = JSVal.undefined →
        (makeSnapshot name lat lon (normalizedRecord e.host aqi c) e.now).so2
          = JSVal.undefined) ∧
      (JSVal.lookup "co" c = JSVal.undefined →
        (makeSnapshot name lat lon (normalizedRecord e.host aqi c) e.now).co = JSNum.nan)) ∧
    (∀ (id : String) (ths : List JSNum),
      updatePollutant (id, JSVal.undefined, ths) = updatePollutant (id, JSVal.num 0, ths) ∧
      updatePollutant (id, JSVal.num JSNum.nan, ths)
        = updatePollutant (id, JSVal.num 0, ths)) ∧
    (JSNum.fin 0).toFixed e.host 1 = "0.0" ∧
    (∀ x y : JSNum, lat = JSVal.num x → lon = JSVal.num y →
      (∀ key ∈ ["pm10", "pm2_5", "o3", "no2", "so2"], (JSVal.lookup key c).NumberOrAbsent) →
      (fetchAirQualityData lat lon name e s).2.trace = s.trace ++
        [Event.request (Request.airPollution lat lon), Event.displayAirQualityData,
          Event.showResults]) := by
  have hres := openWeatherResult_normalized e _ lat lon resp data list entry main aqi c
    hfetch hok hbody hlist hentry hmain haqi hcomp
  have hcases := fetchAirQualityData_cases lat lon name e s
  rw [hres] at hcases
  simp only at hcases
  refine ⟨by rw [getOpenWeatherAirQuality_apply, hres], hcases.2.1, ?_,
    updatePollutant_absent, toFixed_zero e.host, ?_⟩
  · refine ⟨fun h => h, fun h => h, fun h => h, fun h => h, fun h => h, fun h => ?_⟩
    simp [makeSnapshot, normalizedRecord, h, JSVal.toNumber, JSNum.div]
  · intro x y hx hy hc
    subst hx hy
    have hd := displayAirQualityData_succeeds (normalizedRecord e.host aqi c) x y name
      (hc "pm10" (by simp)) (hc "pm2_5" (by simp)) (hc "o3" (by simp)) (hc "no2" (by simp))
      (hc "so2" (by simp)) e (s.requested (Request.airPollution (JSVal.num x) (JSVal.num y)))
    simp only [fetchAirQualityData, M.tryCatch_apply, M.bind_apply,
      getOpenWeatherAirQuality_apply, hres]
    rcases hrun : displayAirQualityData (normalizedRecord e.host aqi c) (JSVal.num x)
      (JSVal.num y) name e
      (s.requested (Request.airPollution (JSVal.num x) (JSVal.num y))) with ⟨r, s2⟩
    have hr := (displayAirQualityData_cases (normalizedRecord e.host aqi c) (JSVal.num x)
      (JSVal.num y) name e
      (s.requested (Request.airPollution (JSVal.num x) (JSVal.num y)))).1
    rw [hrun] at hd hr
    simp only at hd hr
    subst hr
    simp only [hd, Monitor.requested, List.append_assoc, List.singleton_append]

/-- Instance of C11: a search for Paris where the air-quality body has no `pm10` field;
the record is returned with `pm10` undefined, and the results are shown. -/
theorem missing_pollutant_defaults_at_display_witness :
    (getOpenWeatherAirQuality (JSVal.num 48) (JSVal.num 2) (exampleEnv providersMissingPm10)
      (Monitor.initial "Paris")).1
      = .ok (some (normalizedRecord exampleHost (JSVal.num 2) [
          ("co", JSVal.num (JSNum.fin 250)),
          ("no2", JSVal.num (JSNum.fin 12)),
          ("o3", JSVal.num (JSNum.fin 60)),
          ("so2", JSVal.num (JSNum.fin 3)),
          ("pm2_5", JSVal.num (JSNum.fin 8))])) ∧
    (fetchAirQualityData (JSVal.num 48) (JSVal.num 2) (JSVal.str "Paris")
      (exampleEnv providersMissingPm10) (Monitor.initial "Paris")).2.trace
      = [Event.request (Request.airPollution (JSVal.num 48) (JSVal.num 2)),
          Event.displayAirQualityData, Event.showResults] := by
  have h := missing_pollutant_defaults_at_display (exampleEnv providersMissingPm10)
    (Monitor.initial "Paris") (JSVal.num 48) (JSVal.num 2) (JSVal.str "Paris")
    ⟨200, .ok airWithoutPm10⟩ airWithoutPm10 _ _ _ _ _ rfl (by decide) rfl rfl rfl rfl rfl rfl
  refine ⟨h.1, h.2.2.2.2.2 48 2 rfl rfl ?_⟩
  intro key hkey
  simp only [List.mem_cons, List.mem_singleton, List.not_mem_nil, or_false] at hkey
  rcases hkey with rfl | rfl | rfl | rfl | rfl
  · exact Or.inl rfl
  · exact Or.inr ⟨_, rfl⟩
  · exact Or.inr ⟨_, rfl⟩
  · exact Or.inr ⟨_, rfl⟩
  · exact Or.inr ⟨_, rfl⟩

/-- C11 fails as stated: a search for Paris where the air-quality body has no `pm10`
field succeeds (no error, results shown, `0.0` displayed for PM10), and the snapshot
stored in `currentData` has `pm10` equal to `undefined`, not to 0. -/
theorem missing_pollutant_stored_undefined :
    errorsOf (fetchDataByLocation (exampleEnv providersMissingPm10)
      (Monitor.initial "Paris")).2.trace = [] ∧
    resultsShown (fetchDataByLocation (exampleEnv providersMissingPm10)
      (Monitor.initial "Paris")).2.trace = 1 ∧
    (fetchDataByLocation (exampleEnv providersMissingPm10)
      (Monitor.initial "Paris")).2.dom.pollutantValues.lookup "pm10" = some "0.0" ∧
    (fetchDataByLocation (exampleEnv providersMissingPm10)
      (Monitor.initial "Paris")).2.currentData.map Snapshot.pm10 = some JSVal.undefined ∧
    JSVal.undefined ≠ JSVal.num 0 := by
  refine ⟨by decide!, by decide!, by decide!, ?_, by simp⟩
  have hgc : getCoordinates (jsTrim (Monitor.initial "Paris").dom.locationInput)
      (exampleEnv providersMissingPm10) (Monitor.initial "Paris").withLoading
      = (.ok parisOpenCage,
          (Monitor.initial "Paris").withLoading.requested (Request.openCageForward "Paris")) := by
    rw [getCoordinates_apply]
    rfl
  have hfg : firstGeometry parisOpenCage
      = .ok (JSVal.num (JSNum.fin (488566 / 10000)), JSVal.num (JSNum.fin (23522 / 10000))) :=
    rfl
  rw [fetchDataByLocation_geocoded (exampleEnv providersMissingPm10) (Monitor.initial "Paris")
    _ _ _ _ (by decide) hgc hfg]
  have hres := openWeatherResult_normalized (exampleEnv providersMissingPm10) 1
    (JSVal.num (JSNum.fin (488566 / 10000))) (JSVal.num (JSNum.fin (23522 / 10000)))
    ⟨200, .ok airWithoutPm10⟩ airWithoutPm10 _ _ _ _ _ rfl (by decide) rfl rfl rfl rfl rfl rfl
  have hcases := (fetchAirQualityData_cases (JSVal.num (JSNum.fin (488566 / 10000)))
    (JSVal.num (JSNum.fin (23522 / 10000)))
    (JSVal.str (jsTrim (Monitor.initial "Paris").dom.locationInput))
    (exampleEnv providersMissingPm10)
    ((Monitor.initial "Paris").withLoading.requested (Request.openCageForward "Paris"))).2
  rw [show (requestsOf ((Monitor.initial "Paris").withLoading.requested
    (Request.openCageForward "Paris")).trace).length = 1 from rfl, hres] at hcases
  rw [hcases.1]
  rfl

/-! ## Refresh, export and share -/

theorem newEvents_withError_only (s : Monitor) (message : String) :
    newEvents s (s.withError message) = [Event.showError message] :=
  newEvents_of_append (by simp [Monitor.withError])

/-- C21: with `currentData` null, `refreshCurrentData`, `exportData` and `shareData` each
return after one `showError` call and nothing else: no request to a provider and no
download; with `currentData` set, `refreshCurrentData` is the call of
`fetchAirQualityData` with the stored latitude, longitude and location, and the one
request of the run is the air-quality request for the stored coordinates. -/
theorem stored_snapshot_is_context (e : Env) (s : Monitor) :
    (s.currentData = none →
      refreshCurrentData e s
        = (.ok (), s.withError "No data to refresh. Please search for a location first.") ∧
      exportData e s
        = (.ok (), s.withError "No data to export. Please search for a location first.") ∧
      shareData e s
        = (.ok (), s.withError "No data to share. Please search for a location first.") ∧
      ∀ run ∈ [refreshCurrentData, exportData, shareData],
        (∃ m, newEvents s (run e s).2 = [Event.showError m]) ∧
        requestsOf (newEvents s (run e s).2) = [] ∧
        exportsOf (newEvents s (run e s).2) = []) ∧
    (∀ d, s.currentData = some d →
      refreshCurrentData e s = fetchAirQualityData d.latitude d.longitude d.location e s ∧
      requestsOf (newEvents s (refreshCurrentData e s).2)
        = [Request.airPollution d.latitude d.longitude]) := by
  constructor
  · intro hnone
    have hr : refreshCurrentData e s
        = (.ok (), s.withError "No data to refresh. Please search for a location first.") := by
      simp [refreshCurrentData, hnone]
    have hx : exportData e s
        = (.ok (), s.withError "No data to export. Please search for a location first.") := by
      simp [exportData, hnone]
    have hs : shareData e s
        = (.ok (), s.withError "No data to share. Please search for a location first.") := by
      simp [shareData, hnone]
    refine ⟨hr, hx, hs, ?_⟩
    intro run hrun
    simp only [List.mem_cons, List.mem_singleton, List.not_mem_nil, or_false] at hrun
    rcases hrun with h | h | h <;> subst h
    · rw [hr]
      simp only [newEvents_withError_only]
      exact ⟨⟨_, rfl⟩, rfl, rfl⟩
    · rw [hx]
      simp only [newEvents_withError_only]
      exact ⟨⟨_, rfl⟩, rfl, rfl⟩
    · rw [hs]
      simp only [newEvents_withError_only]
      exact ⟨⟨_, rfl⟩, rfl, rfl⟩
  · intro d hd
    have hr : refreshCurrentData e s
        = fetchAirQualityData d.latitude d.longitude d.location e s := by
      simp [refreshCurrentData, hd]
    refine ⟨hr, ?_⟩
    rw [hr]
    rcases fetchAirQualityData_tail d.latitude d.longitude d.location e s with h | h | h <;>
      rw [newEvents_of_append h] <;> rfl

/-- Instance of C21: on the fresh monitor the three methods only report their error; after
a search that stored Paris, a refresh asks the air-quality provider for the stored
coordinates. -/
theorem stored_snapshot_is_context_witness :
    (errorsOf (refreshCurrentData (exampleEnv providersHealthy) (Monitor.initial "")).2.trace
        = ["No data to refresh. Please search for a location first."] ∧
      (exportData (exampleEnv providersHealthy) (Monitor.initial "")).2.trace
        = [Event.showError "No data to export. Please search for a location first."] ∧
      (shareData (exampleEnv providersHealthy) (Monitor.initial "")).2.trace
        = [Event.showError "No data to share. Please search for a location first."]) ∧
    requestsOf (newEvents Monitor.afterParis
        (refreshCurrentData (exampleEnv providersHealthy) Monitor.afterParis).2)
      = [Request.airPollution (JSVal.num 48) (JSVal.num 2)] :=
  ⟨by
      have h := (stored_snapshot_is_context (exampleEnv providersHealthy)
        (Monitor.initial "")).1 rfl
      rw [h.1, h.2.1, h.2.2.1]
      exact ⟨rfl, rfl, rfl⟩,
    ((stored_snapshot_is_context (exampleEnv providersHealthy) Monitor.afterParis).2
      parisSnapshot rfl).2⟩

/-! ## Monotonicity of the classifiers -/

theorem JSNum.le_chain {a b c : JSNum} (hab : a.le b = true) (hbc : b.le c = true) :
    a.le c = true := by
  cases a <;> cases b <;> cases c <;> simp_all [JSNum.le]
  exact le_trans hab hbc

/-- C23: for `a <= b` (the comparison of the language, so neither is `NaN`), the band of
`getAQIInfo(a)` is at or before the band of `getAQIInfo(b)` in the severity order, and for
every list of thresholds, sorted or not, the tier of `getPollutantStatus(a, thresholds)`
is at or before the tier of `getPollutantStatus(b, thresholds)`. -/
theorem classifiers_monotone (a b : JSNum) (h : a.le b = true) :
    bandRank (getAQIInfo a).category ≤ bandRank (getAQIInfo b).category ∧
    ∀ thresholds : List JSNum,
      tierRank (getPollutantStatus a thresholds).text
        ≤ tierRank (getPollutantStatus b thresholds).text := by
  have hc : ∀ c : JSNum, b.le c = true → a.le c = true := fun c => JSNum.le_chain h
  constructor
  · have h1 := hc 50
    have h2 := hc 100
    have h3 := hc 150
    have h4 := hc 200
    have h5 := hc 300
    simp only [getAQIInfo]
    by_cases b1 : b.le 50 = true
    · simp only [h1 b1, b1, if_true]; decide
    by_cases b2 : b.le 100 = true
    · simp only [h2 b2, b1, b2, if_true]
      by_cases a1 : a.le 50 = true <;> simp only [a1, if_true] <;> decide
    by_cases b3 : b.le 150 = true
    · simp only [h3 b3, b1, b2, b3, if_true]
      by_cases a1 : a.le 50 = true <;> by_cases a2 : a.le 100 = true <;>
        simp only [a1, a2, if_true] <;> decide
    by_cases b4 : b.le 200 = true
    · simp only [h4 b4, b1, b2, b3, b4, if_true]
      by_cases a1 : a.le 50 = true <;> by_cases a2 : a.le 100 = true <;>
        by_cases a3 : a.le 150 = true <;>
        simp only [a1, a2, a3, if_true] <;> decide
    by_cases b5 : b.le 300 = true
    · simp only [h5 b5, b1, b2, b3, b4, b5, if_true]
      by_cases a1 : a.le 50 = true <;> by_cases a2 : a.le 100 = true <;>
        by_cases a3 : a.le 150 = true <;> by_cases a4 : a.le 200 = true <;>
        simp only [a1, a2, a3, a4, if_true] <;> decide
    · simp only [b1, b2, b3, b4, b5]
      by_cases a1 : a.le 50 = true <;> by_cases a2 : a.le 100 = true <;>
        by_cases a3 : a.le 150 = true <;> by_cases a4 : a.le 200 = true <;>
        by_cases a5 : a.le 300 = true <;>
        simp only [a1, a2, a3, a4, a5, if_true] <;> decide
  · intro thresholds
    have h1 := hc (thresholdAt thresholds 0)
    have h2 := hc (thresholdAt thresholds 1)
    have h3 := hc (thresholdAt thresholds 2)
    have h4 := hc (thresholdAt thresholds 3)
    simp only [getPollutantStatus]
    by_cases b1 : b.le (thresholdAt thresholds 0) = true
    · simp only [h1 b1, b1, if_true]; decide
    by_cases b2 : b.le (thresholdAt thresholds 1) = true
    · simp only [h2 b2, b1, b2, if_true]
      by_cases a1 : a.le (thresholdAt thresholds 0) = true <;> simp only [a1, if_true] <;> decide
    by_cases b3 : b.le (thresholdAt thresholds 2) = true
    · simp only [h3 b3, b1, b2, b3, if_true]
      by_cases a1 : a.le (thresholdAt thresholds 0) = true <;>
        by_cases a2 : a.le (thresholdAt thresholds 1) = true <;>
        simp only [a1, a2, if_true] <;> decide
    by_cases b4 : b.le (thresholdAt thresholds 3) = true
    · simp only [h4 b4, b1, b2, b3, b4, if_true]
      by_cases a1 : a.le (thresholdAt thresholds 0) = true <;>
        by_cases a2 : a.le (thresholdAt thresholds 1) = true <;>
        by_cases a3 : a.le (thresholdAt thresholds 2) = true <;>
        simp only [a1, a2, a3, if_true] <;> decide
    · simp only [b1, b2, b3, b4]
      by_cases a1 : a.le (thresholdAt thresholds 0) = true <;>
        by_cases a2 : a.le (thresholdAt thresholds 1) = true <;>
        by_cases a3 : a.le (thresholdAt thresholds 2) = true <;>
        by_cases a4 : a.le (thresholdAt thresholds 3) = true <;>
        simp only [a1, a2, a3, a4, if_true] <;> decide

/-- Instance of C23: 120 and 180 for the index, and for a pollutant with the unsorted
thresholds 100, 50, 200, 150. -/
theorem classifiers_monotone_witness :
    bandRank (getAQIInfo 120).category ≤ bandRank (getAQIInfo 180).category ∧
    tierRank (getPollutantStatus 120 [100, 50, 200, 150]).text
      ≤ tierRank (getPollutantStatus 180 [100, 50, 200, 150]).text :=
  ⟨(classifiers_monotone 120 180 (by decide)).1,
    (classifiers_monotone 120 180 (by decide)).2 [100, 50, 200, 150]⟩

/-! ## Other error statuses of the primary geocoder -/

theorem getCoordinates_of_other_status (location : String) (e : Env) (s : Monitor)
    (resp : Response)
    (hfetch : e.fetch (requestsOf s.trace).length (Request.openCageForward location)
      = FetchResult.resolved resp)
    (hok : resp.ok = false) (h401 : resp.status ≠ 401) (h403 : resp.status ≠ 403) :
    getCoordinates location e s
      = (.ok JSVal.undefined, s.requested (Request.openCageForward location)) := by
  rw [getCoordinates_apply, hfetch]
  simp [hok, h401, h403]

/-- C24: with a non-empty query, when the primary geocoder answers with a status outside
200-299 other than 401 and 403, `getCoordinates` returns `undefined` after its one
request to the primary, and `fetchDataByLocation` reports
`Location not found. Please check the spelling and try again.` (behind the prefix
`Error: `) as its only error; the only request of the run is the one to the primary, so
neither the secondary geocoder nor the air-quality provider is asked, and `currentData`
is unchanged. -/
theorem fetchDataByLocation_other_error_status (e : Env) (s : Monitor) (resp : Response)
    (hquery : jsTrim s.dom.locationInput ≠ "")
    (hfetch : e.fetch (requestsOf s.trace).length
        (Request.openCageForward (jsTrim s.dom.locationInput)) = FetchResult.resolved resp)
    (hok : resp.ok = false) (h401 : resp.status ≠ 401) (h403 : resp.status ≠ 403) :
    getCoordinates (jsTrim s.dom.locationInput) e s.withLoading
      = (.ok JSVal.undefined,
          s.withLoading.requested (Request.openCageForward (jsTrim s.dom.locationInput))) ∧
    (fetchDataByLocation e s).1 = .ok () ∧
    newEvents s (fetchDataByLocation e s).2
      = [Event.showLoading,
          Event.request (Request.openCageForward (jsTrim s.dom.locationInput)),
          Event.showError "Error: Location not found. Please check the spelling and try again."] ∧
    requestsOf (newEvents s (fetchDataByLocation e s).2)
      = [Request.openCageForward (jsTrim s.dom.locationInput)] ∧
    errorsOf (newEvents s (fetchDataByLocation e s).2)
      = ["Error: Location not found. Please check the spelling and try again."] ∧
    (fetchDataByLocation e s).2.currentData = s.currentData := by
  have hgc : getCoordinates (jsTrim s.dom.locationInput) e s.withLoading
      = (.ok JSVal.undefined,
          s.withLoading.requested (Request.openCageForward (jsTrim s.dom.locationInput))) :=
    getCoordinates_of_other_status _ e s.withLoading resp
      (by rw [requestsOf_withLoading]; exact hfetch) hok h401 h403
  have hfg : firstGeometry JSVal.undefined = .error notFoundError := rfl
  have hrun : fetchDataByLocation e s = (.ok (),
      ((s.withLoading).requested
        (Request.openCageForward (jsTrim s.dom.locationInput))).withError
        "Error: Location not found. Please check the spelling and try again.") := by
    simp [fetchDataByLocation, hquery, M.bind_apply, M.get_apply,
      showLoading_apply, M.tryCatch_apply, hgc, M.lift_apply, hfg, showError_apply,
      notFoundError]
  have hev : newEvents s (fetchDataByLocation e s).2
      = [Event.showLoading,
          Event.request (Request.openCageForward (jsTrim s.dom.locationInput)),
          Event.showError "Error: Location not found. Please check the spelling and try again."] := by
    rw [hrun]
    exact newEvents_of_append
      (by simp [Monitor.withError, Monitor.requested, Monitor.withLoading])
  refine ⟨hgc, by rw [hrun], hev, ?_, ?_, by rw [hrun]; rfl⟩
  · rw [hev]; rfl
  · rw [hev]; rfl

/-- Instance of C24: the primary answers 429, and the primary answers 500. -/
theorem fetchDataByLocation_other_error_status_witness :
    errorsOf (newEvents (Monitor.initial "Paris")
        (fetchDataByLocation (exampleEnv (providersPrimaryStatus 429)) (Monitor.initial "Paris")).2)
      = ["Error: Location not found. Please check the spelling and try again."] ∧
    requestsOf (newEvents (Monitor.initial "Paris")
        (fetchDataByLocation (exampleEnv (providersPrimaryStatus 500)) (Monitor.initial "Paris")).2)
      = [Request.openCageForward "Paris"] :=
  ⟨(fetchDataByLocation_other_error_status (exampleEnv (providersPrimaryStatus 429))
      (Monitor.initial "Paris") ⟨429, .ok JSVal.null⟩ (by decide) rfl (by decide) (by decide)
      (by decide)).2.2.2.2.1,
    (fetchDataByLocation_other_error_status (exampleEnv (providersPrimaryStatus 500))
      (Monitor.initial "Paris") ⟨500, .ok JSVal.null⟩ (by decide) rfl (by decide) (by decide)
      (by decide)).2.2.2.1⟩

/-! ## The five advisory lists and the index text -/

theorem recommendationsFor_of_band (i : AdvisoryBand) (a : JSNum)
    (h : i.contains a = true) :
    recommendationsFor a = match i with
      | .upTo50 => recommendationsFor 50
      | .upTo100 => recommendationsFor 100
      | .upTo150 => recommendationsFor 150
      | .upTo200 => recommendationsFor 200
      | .above200 => recommendationsFor 201 := by
  cases a with
  | nan => cases i <;> simp [AdvisoryBand.contains, JSNum.le, JSNum.lt, JSNum.gt] at h
  | negInf =>
    cases i <;> simp [AdvisoryBand.contains, JSNum.le, JSNum.lt, JSNum.gt, OfNat.ofNat] at h
    rfl
  | posInf =>
    cases i <;> simp [AdvisoryBand.contains, JSNum.le, JSNum.lt, JSNum.gt, OfNat.ofNat] at h
    rfl
  | fin q =>
    cases i <;>
      simp only [AdvisoryBand.contains, JSNum.le, JSNum.lt, JSNum.gt, OfNat.ofNat,
        Bool.and_eq_true, decide_eq_true_eq] at h <;>
      norm_num at h <;>
      simp only [recommendationsFor, JSNum.le, OfNat.ofNat, decide_eq_true_eq] <;>
      norm_num <;>
      (try (intro h2; exfalso; linarith)) <;>
      (repeat (first
        | rw [if_pos (by linarith [h.1, h.2])] | rw [if_neg (by linarith [h.1, h.2])]
        | rw [if_pos (by linarith)] | rw [if_neg (by linarith)]))

/-- The text `updateRecommendations` writes into the `recommendations` element. -/
theorem updateRecommendations_html (aqi : JSNum) (e : Env) (s : Monitor) :
    (updateRecommendations aqi e s).2.dom.recommendationsHtml
      = String.join ((recommendationsFor aqi).map fun rec =>
          "<div class=\"recommendation-item\"><i class=\"fas fa-check-circle\"></i> " ++ rec
            ++ "</div>") := rfl

/-- C25: `updateRecommendations` has five advisory lists.  Every `aqi > 200` gets one and
the same list, of five items, whether Very Unhealthy or Hazardous; and two index values
from different bands among `aqi <= 50`, `50 < aqi <= 100`, `100 < aqi <= 150`,
`150 < aqi <= 200`, `aqi > 200` get different lists and different rendered texts. -/
theorem recommendations_five_bands (a b : JSNum) :
    (a.gt 200 = true → b.gt 200 = true →
      recommendationsFor a = recommendationsFor b ∧ (recommendationsFor a).length = 5 ∧
      updateRecommendations a = updateRecommendations b) ∧
    (∀ i j : AdvisoryBand, i.contains a = true → j.contains b = true → i ≠ j →
      recommendationsFor a ≠ recommendationsFor b ∧
      ∀ (e : Env) (s : Monitor),
        (updateRecommendations a e s).2.dom.recommendationsHtml
          ≠ (updateRecommendations b e s).2.dom.recommendationsHtml) := by
  have r50 : recommendationsFor 50 =
      [ "Air quality is excellent. Perfect for outdoor activities.",
        "No health precautions needed.",
        "Great time for exercise and outdoor sports." ] := by
    simp only [recommendationsFor, JSNum.le, OfNat.ofNat, decide_eq_true_eq]; norm_num
  have r100 : recommendationsFor 100 =
      [ "Air quality is acceptable for most people.",
        "Sensitive individuals should consider reducing prolonged outdoor exertion.",
        "Generally safe for outdoor activities." ] := by
    simp only [recommendationsFor, JSNum.le, OfNat.ofNat, decide_eq_true_eq]; norm_num
  have r150 : recommendationsFor 150 =
      [ "Sensitive groups should avoid outdoor activities.",
        "Children, elderly, and people with respiratory conditions should limit outdoor exposure.",
        "Consider wearing a mask if you must go outside." ] := by
    simp only [recommendationsFor, JSNum.le, OfNat.ofNat, decide_eq_true_eq]; norm_num
  have r200 : recommendationsFor 200 =
      [ "Everyone should avoid prolonged outdoor activities.",
        "Keep windows closed and use air purifiers indoors.",
        "Wear N95 masks when outdoors.",
        "Postpone outdoor exercise." ] := by
    simp only [recommendationsFor, JSNum.le, OfNat.ofNat, decide_eq_true_eq]; norm_num
  have r201 : recommendationsFor 201 =
      [ "Stay indoors and keep windows closed.",
        "Use air purifiers if available.",
        "Avoid all outdoor activities.",
        "Seek immediate medical attention if experiencing difficulty breathing.",
        "Consider relocating temporarily if possible." ] := by
    simp only [recommendationsFor, JSNum.le, OfNat.ofNat, decide_eq_true_eq]; norm_num
  constructor
  · intro ha hb
    have h1 := recommendationsFor_of_band AdvisoryBand.above200 a ha
    have h2 := recommendationsFor_of_band AdvisoryBand.above200 b hb
    simp only at h1 h2
    refine ⟨by rw [h1, h2], by rw [h1, r201]; rfl, ?_⟩
    simp only [updateRecommendations, h1, h2]
  · intro i j hi hj hne
    have h1 := recommendationsFor_of_band i a hi
    have h2 := recommendationsFor_of_band j b hj
    constructor
    · rw [h1, h2]
      cases i <;> cases j <;> simp only [r50, r100, r150, r200, r201] <;>
        first
          | exact absurd rfl hne
          | decide
    · intro e s
      rw [updateRecommendations_html, updateRecommendations_html, h1, h2]
      cases i <;> cases j <;> simp only [r50, r100, r150, r200, r201] <;>
        first
          | exact absurd rfl hne
          | decide

/-- Instance of C25: 250 (Very Unhealthy) and 400 (Hazardous) get the same list, 40 and
80 get different lists. -/
theorem recommendations_five_bands_witness :
    recommendationsFor 250 = recommendationsFor 400 ∧
    recommendationsFor 40 ≠ recommendationsFor 80 :=
  ⟨((recommendations_five_bands 250 400).1 (by decide) (by decide)).1,
    ((recommendations_five_bands 40 80).2 AdvisoryBand.upTo50 AdvisoryBand.upTo100
      (by decide) (by decide) (by decide)).1⟩

/-- C26: for an integer `aqi`, `updateAQI` writes the integer itself as the index text
when it is not zero and `N/A` when it is zero, and for `aqi = 0` the category written is
still `Good`. -/
theorem updateAQI_index_text (n : ℤ) (e : Env) (s : Monitor) :
    (n ≠ 0 →
      (updateAQI (JSNum.fin (n : ℚ)) e s).2.dom.aqiText = JSVal.num (JSNum.fin (n : ℚ))) ∧
    (n = 0 →
      (updateAQI (JSNum.fin (n : ℚ)) e s).2.dom.aqiText = JSVal.str "N/A" ∧
      (updateAQI (JSNum.fin (n : ℚ)) e s).2.dom.aqiCategory = "Good") := by
  have hround : (JSNum.fin (n : ℚ)).round = JSNum.fin (n : ℚ) := by
    have hfloor : ⌊(n : ℚ) + 1 / 2⌋ = n := by
      rw [Int.floor_eq_iff]
      constructor <;> norm_num
    simp only [JSNum.round, hfloor]
  have htext : (updateAQI (JSNum.fin (n : ℚ)) e s).2.dom.aqiText
      = (JSVal.num (JSNum.fin (n : ℚ)).round).orElse (JSVal.str "N/A") := rfl
  have hcat : (updateAQI (JSNum.fin (n : ℚ)) e s).2.dom.aqiCategory
      = (getAQIInfo (JSNum.fin (n : ℚ))).category := rfl
  constructor
  · intro hn
    rw [htext, hround]
    simp [JSVal.orElse, JSVal.truthy, JSNum.truthy, hn]
  · intro hn
    subst hn
    rw [htext, hcat, hround]
    refine ⟨by simp [JSVal.orElse, JSVal.truthy, JSNum.truthy], ?_⟩
    simp only [getAQIInfo, JSNum.ofNat_eq, JSNum.le]
    norm_num

/-- Instance of C26: the index 100 is shown as 100, the index 0 as `N/A` under `Good`. -/
theorem updateAQI_index_text_witness :
    (updateAQI (JSNum.fin ((100 : ℤ) : ℚ)) (exampleEnv providersHealthy)
        (Monitor.initial "")).2.dom.aqiText = JSVal.num (JSNum.fin ((100 : ℤ) : ℚ)) ∧
    ((updateAQI (JSNum.fin ((0 : ℤ) : ℚ)) (exampleEnv providersHealthy)
        (Monitor.initial "")).2.dom.aqiText = JSVal.str "N/A" ∧
      (updateAQI (JSNum.fin ((0 : ℤ) : ℚ)) (exampleEnv providersHealthy)
        (Monitor.initial "")).2.dom.aqiCategory = "Good") :=
  ⟨(updateAQI_index_text 100 (exampleEnv providersHealthy) (Monitor.initial "")).1 (by decide),
    (updateAQI_index_text 0 (exampleEnv providersHealthy) (Monitor.initial "")).2 rfl⟩

end AirQualityMonitor

/-! # Properties of the reverse-geocoding lookup -/

namespace LocationLookup

open AirQualityMonitor (JSNum Host)

theorem outside_iff (x : JSNum) (lo hi : ℚ) (hx : x ≠ JSNum.nan) :
    (x.lt (JSNum.fin lo) || x.gt (JSNum.fin hi)) = true ↔ ¬ Within lo hi x := by
  cases x with
  | nan => exact absurd rfl hx
  | negInf => simp [JSNum.lt, JSNum.gt, Within]
  | posInf => simp [JSNum.lt, JSNum.gt, Within]
  | fin q =>
    simp only [JSNum.lt, JSNum.gt, Within, Bool.or_eq_true, decide_eq_true_eq, not_and_or,
      not_le]

/-- C22: for field values that both parse as numbers (they are not empty and `ToNumber`
does not give `NaN`), the click handler issues the request (with these two values) if and
only if `-90 <= latitude <= 90` and
`-180 <= longitude <= 180`, the bounds included, and otherwise issues none; when a field
is empty it writes the message asking for both values, when both are filled and the
latitude is a number outside its range it writes the latitude message, when both are
filled, the latitude is not outside its range and the longitude is a number outside its
range it writes the longitude message, and in these three cases no request is issued. -/
theorem fetchLocationClick_validates (h : Host) (p : Page) :
    (ParsesAsNumber h p.latitude → ParsesAsNumber h p.longitude →
      ((fetchLocationClick h p).requests = p.requests ++ [⟨p.latitude, p.longitude⟩] ↔
        Within (-90) 90 (h.stringToNumber p.latitude) ∧
          Within (-180) 180 (h.stringToNumber p.longitude)) ∧
      ((fetchLocationClick h p).requests = p.requests ↔
        ¬ (Within (-90) 90 (h.stringToNumber p.latitude) ∧
          Within (-180) 180 (h.stringToNumber p.longitude)))) ∧
    (p.latitude = "" ∨ p.longitude = "" →
      (fetchLocationClick h p).location = bothMessage ∧
      (fetchLocationClick h p).requests = p.requests) ∧
    (p.latitude ≠ "" → p.longitude ≠ "" → OutOfRange h (-90) 90 p.latitude →
      (fetchLocationClick h p).location = latitudeMessage ∧
      (fetchLocationClick h p).requests = p.requests) ∧
    (p.latitude ≠ "" → p.longitude ≠ "" → ¬ OutOfRange h (-90) 90 p.latitude →
      OutOfRange h (-180) 180 p.longitude →
      (fetchLocationClick h p).location = longitudeMessage ∧
      (fetchLocationClick h p).requests = p.requests) := by
  have h90 : (90 : JSNum) = JSNum.fin 90 := by
    rw [AirQualityMonitor.JSNum.ofNat_eq]; norm_num
  have h180 : (180 : JSNum) = JSNum.fin 180 := by
    rw [AirQualityMonitor.JSNum.ofNat_eq]; norm_num
  have hne : ∀ (l : List Request) (r : Request), l ≠ l ++ [r] := fun l r hl => by
    have := congrArg List.length hl
    simp at this
  refine ⟨?_, ?_, ?_, ?_⟩
  · intro hlat hlon
    have hla := outside_iff _ (-90) 90 hlat.2
    have hlo := outside_iff _ (-180) 180 hlon.2
    simp only [fetchLocationClick, ltNumber, gtNumber, h90, h180, hlat.1, hlon.1, or_self,
      if_false]
    by_cases h1 : Within (-90) 90 (h.stringToNumber p.latitude)
    · rw [if_neg (fun hc => hla.mp hc h1)]
      by_cases h2 : Within (-180) 180 (h.stringToNumber p.longitude)
      · rw [if_neg (fun hc => hlo.mp hc h2)]
        simp [h1, h2, (hne _ _).symm]
      · rw [if_pos (hlo.mpr h2)]
        simp [h1, h2, hne]
    · rw [if_pos (hla.mpr h1)]
      simp [h1, hne]
  · intro hempty
    simp [fetchLocationClick, hempty]
  · intro hlat hlon hout
    have hla := outside_iff _ (-90) 90 hout.1.2
    simp only [fetchLocationClick, ltNumber, gtNumber, h90, hlat, hlon, or_self, if_false]
    rw [if_pos (hla.mpr hout.2)]
    exact ⟨rfl, rfl⟩
  · intro hlat hlon hin hout
    have hlo := outside_iff _ (-180) 180 hout.1.2
    have hpass : ¬ ((h.stringToNumber p.latitude).lt (JSNum.fin (-90))
        || (h.stringToNumber p.latitude).gt (JSNum.fin 90)) = true := by
      intro hc
      by_cases hnan : h.stringToNumber p.latitude = JSNum.nan
      · rw [hnan] at hc
        simp [JSNum.lt, JSNum.gt] at hc
      · exact hin ⟨⟨hlat, hnan⟩, (outside_iff _ (-90) 90 hnan).mp hc⟩
    simp only [fetchLocationClick, ltNumber, gtNumber, h90, h180, hlat, hlon, or_self,
      if_false]
    rw [if_neg hpass, if_pos (hlo.mpr hout.2)]
    exact ⟨rfl, rfl⟩

/-- Instance of C22: the bounds 90 and -180 are accepted and the request is issued; the
latitude 90.5 is refused with the latitude message; an empty latitude is refused with
the message asking for both values. -/
theorem fetchLocationClick_validates_witness :
    (fetchLocationClick AirQualityMonitor.exampleHost (Page.initial "90" "-180")).requests
      = [⟨"90", "-180"⟩] ∧
    ((fetchLocationClick AirQualityMonitor.exampleHost (Page.initial "90.5" "0")).location
        = latitudeMessage ∧
      (fetchLocationClick AirQualityMonitor.exampleHost (Page.initial "90.5" "0")).requests
        = []) ∧
    ((fetchLocationClick AirQualityMonitor.exampleHost (Page.initial "" "10")).location
        = bothMessage ∧
      (fetchLocationClick AirQualityMonitor.exampleHost (Page.initial "" "10")).requests
        = []) :=
  ⟨((fetchLocationClick_validates AirQualityMonitor.exampleHost (Page.initial "90" "-180")).1
      ⟨by decide, by decide!⟩ ⟨by decide, by decide!⟩).1.mpr
      ⟨by
        rw [show AirQualityMonitor.exampleHost.stringToNumber (Page.initial "90" "-180").latitude
          = JSNum.fin 90 from by decide!]
        exact ⟨by norm_num, by norm_num⟩,
      by
        rw [show AirQualityMonitor.exampleHost.stringToNumber (Page.initial "90" "-180").longitude
          = JSNum.fin (-180) from by decide!]
        exact ⟨by norm_num, by norm_num⟩⟩,
    (fetchLocationClick_validates AirQualityMonitor.exampleHost (Page.initial "90.5" "0")).2.2.1
      (by decide) (by decide)
      ⟨⟨by decide, by decide!⟩, by
        rw [show AirQualityMonitor.exampleHost.stringToNumber (Page.initial "90.5" "0").latitude
          = JSNum.fin (181 / 2) from by decide!]
        intro hw
        have := hw.2
        norm_num at this⟩,
    (fetchLocationClick_validates AirQualityMonitor.exampleHost (Page.initial "" "10")).2.1
      (Or.inl rfl)⟩

end LocationLookup

/-! # Properties of the photo gallery -/

namespace PhotoVaultApp

open AirQualityMonitor (JSError typeError jsTrim)

/-! ## The login counter -/

theorem selectImage_messages (index : Int) (app : App) :
    (selectImage index app).messages = app.messages := by
  unfold selectImage incrementViewCount
  split <;> [skip; rfl]
  split <;> rfl

theorem selectImage_length (index : Int) (app : App) :
    (selectImage index app).images.length = app.images.length := by
  unfold selectImage incrementViewCount
  split <;> [skip; rfl]
  split
  · simp
  · rfl

theorem selectImage_state (index : Int) (app : App) :
    (selectImage index app).state
      = { app.state with currentImageIndex := (selectImage index app).state.currentImageIndex } := by
  unfold selectImage incrementViewCount
  split <;> [skip; rfl]
  split <;> rfl

theorem selectImage_loginAttempts (index : Int) (app : App) :
    (selectImage index app).state.loginAttempts = app.state.loginAttempts := by
  rw [selectImage_state]

theorem reportedRemaining_append (xs ys : List Message) :
    reportedRemaining (xs ++ ys) = reportedRemaining xs ++ reportedRemaining ys := by
  induction xs with
  | nil => rfl
  | cons m rest ih =>
    cases m with
    | error t => cases t <;> simp [reportedRemaining, ih]
    | success t => simp [reportedRemaining, ih]
    | info t => simp [reportedRemaining, ih]

/-- The invariant of the login counter: it lies between 0 and `maxLoginAttempts`, and
no reported number of remaining attempts is negative. -/
theorem handleLogin_keeps_bounds (env : Env) (form : LoginForm) (app : App)
    (h0 : 0 ≤ app.state.loginAttempts)
    (h5 : app.state.loginAttempts ≤ config.maxLoginAttempts)
    (hrep : ∀ k ∈ reportedRemaining app.messages, 0 ≤ k) :
    0 ≤ (handleLogin env form app).state.loginAttempts ∧
    (handleLogin env form app).state.loginAttempts ≤ config.maxLoginAttempts ∧
    ∀ k ∈ reportedRemaining (handleLogin env form app).messages, 0 ≤ k := by
  unfold handleLogin
  simp only
  split
  · exact ⟨h0, h5, by simpa [showError, reportedRemaining_append, reportedRemaining] using hrep⟩
  split
  · exact ⟨h0, h5, by simpa [showError, reportedRemaining_append, reportedRemaining] using hrep⟩
  rename_i hlt
  split
  · split
    · refine ⟨by simp [showError], by simp [showError, config.maxLoginAttempts], ?_⟩
      simpa [showError, reportedRemaining_append, reportedRemaining] using hrep
    · simp only [showPhotoSection, selectImage_loginAttempts, selectImage_messages, showSuccess]
      split <;>
        exact ⟨by simp, by simp [config.maxLoginAttempts],
          by simpa [reportedRemaining_append, reportedRemaining] using hrep⟩
  · have hlt' : app.state.loginAttempts < config.maxLoginAttempts := not_le.mp hlt
    simp only [showError, reportedRemaining_append, reportedRemaining, List.mem_append,
      List.mem_singleton]
    refine ⟨by omega, by omega, ?_⟩
    intro k hk
    rcases hk with hk | hk
    · exact hrep k hk
    · omega

theorem handleLogin_locked (env : Env) (form : LoginForm) (app : App)
    (h : config.maxLoginAttempts ≤ app.state.loginAttempts) :
    (handleLogin env form app).state = app.state := by
  unfold handleLogin
  simp only
  split
  · rfl
  · rfl

/-- C27: from the application as constructed, after any sequence of `handleLogin` calls
(failed or not) the counter `loginAttempts` lies between 0 and `maxLoginAttempts`, which
is 5 as in the configuration file, and no message reports a negative number of
remaining attempts; and from an application whose counter has reached
`maxLoginAttempts`, no sequence of `handleLogin` calls changes the state: `isLoggedIn`
is not set and the counter is not reset, whatever the credentials. -/
theorem loginAttempts_bounded (elements : Elements) (calls : List (Env × LoginForm)) :
    (0 ≤ (loginSequence calls (App.initial elements)).state.loginAttempts ∧
      (loginSequence calls (App.initial elements)).state.loginAttempts
        ≤ config.maxLoginAttempts) ∧
    (config.maxLoginAttempts = 5 ∧
      config.maxLoginAttempts = PHOTOVAULT_CONFIG.auth.maxLoginAttempts) ∧
    (∀ k ∈ reportedRemaining (loginSequence calls (App.initial elements)).messages, 0 ≤ k) ∧
    (∀ locked : App, config.maxLoginAttempts ≤ locked.state.loginAttempts →
      ∀ later : List (Env × LoginForm),
        (loginSequence later locked).state = locked.state ∧
        (loginSequence later locked).state.isLoggedIn = locked.state.isLoggedIn ∧
        (loginSequence later locked).state.loginAttempts = locked.state.loginAttempts) := by
  have hinv : ∀ (calls : List (Env × LoginForm)) (app : App),
      0 ≤ app.state.loginAttempts → app.state.loginAttempts ≤ config.maxLoginAttempts →
      (∀ k ∈ reportedRemaining app.messages, 0 ≤ k) →
      0 ≤ (loginSequence calls app).state.loginAttempts ∧
      (loginSequence calls app).state.loginAttempts ≤ config.maxLoginAttempts ∧
      ∀ k ∈ reportedRemaining (loginSequence calls app).messages, 0 ≤ k := by
    intro calls
    induction calls with
    | nil => intro app h0 h5 hrep; exact ⟨h0, h5, hrep⟩
    | cons call rest ih =>
      intro app h0 h5 hrep
      obtain ⟨k0, k5, krep⟩ := handleLogin_keeps_bounds call.1 call.2 app h0 h5 hrep
      exact ih _ k0 k5 krep
  have hlocked : ∀ (later : List (Env × LoginForm)) (locked : App),
      config.maxLoginAttempts ≤ locked.state.loginAttempts →
      (loginSequence later locked).state = locked.state := by
    intro later
    induction later with
    | nil => intro locked _; rfl
    | cons call rest ih =>
      intro locked h
      have hstep := handleLogin_locked call.1 call.2 locked h
      have := ih (handleLogin call.1 call.2 locked) (by rw [hstep]; exact h)
      simp only [loginSequence]
      rw [this, hstep]
  obtain ⟨k0, k5, krep⟩ := hinv calls (App.initial elements) (le_refl _)
    (by simp [App.initial, config.maxLoginAttempts])
    (by intro k hk; simp [App.initial, reportedRemaining] at hk)
  refine ⟨⟨k0, k5⟩, ⟨rfl, rfl⟩, krep, ?_⟩
  intro locked h later
  have := hlocked later locked h
  exact ⟨this, by rw [this], by rw [this]⟩

/-- Instance of C27: seven logins with a wrong password leave the counter at 5, and a
login with valid credentials after them does not log in. -/
theorem loginAttempts_bounded_witness :
    (loginSequence (List.replicate 7 wrongPassword)
        (App.initial ⟨true, true⟩)).state.loginAttempts ≤ config.maxLoginAttempts ∧
    (loginSequence [adminLogin]
        (loginSequence (List.replicate 7 wrongPassword) (App.initial ⟨true, true⟩))).state.isLoggedIn
      = false :=
  ⟨(loginAttempts_bounded ⟨true, true⟩ (List.replicate 7 wrongPassword)).1.2,
    ((loginAttempts_bounded ⟨true, true⟩ []).2.2.2
      (loginSequence (List.replicate 7 wrongPassword) (App.initial ⟨true, true⟩))
      (by decide) [adminLogin]).2.1⟩

/-! ## The image index -/

theorem selectImage_valid (index : Int) (app : App) (h : ValidIndex app) :
    ValidIndex (selectImage index app) := by
  unfold ValidIndex
  rw [selectImage_length]
  unfold selectImage incrementViewCount
  split
  · rename_i hc
    split <;> exact hc
  · exact h

theorem processFiles_keeps (files : List UploadedFile) (app : App) :
    (processFiles files app).state = app.state ∧
    app.images.length ≤ (processFiles files app).images.length := by
  induction files generalizing app with
  | nil => exact ⟨rfl, le_refl _⟩
  | cons file rest ih =>
    simp only [processFiles]
    cases hp : processFile file app with
    | none => exact ⟨rfl, le_refl _⟩
    | some app1 =>
      have h1 : app1.state = app.state ∧ app.images.length ≤ app1.images.length := by
        unfold processFile at hp
        split at hp
        · cases hp
        · cases hp
          exact ⟨rfl, by simp⟩
      obtain ⟨hs, hl⟩ := ih app1
      exact ⟨by rw [hs, h1.1], le_trans h1.2 hl⟩

theorem handleFiles_valid (files : List UploadedFile) (app : App) (h : ValidIndex app) :
    ValidIndex (handleFiles files app) := by
  unfold handleFiles
  simp only
  split
  · exact h
  · obtain ⟨hs, hl⟩ := processFiles_keeps
      (files.filter fun file => file.type.startsWith "image/") app
    unfold ValidIndex at h ⊢
    simp only [showSuccess, hs]
    exact ⟨h.1, lt_of_lt_of_le h.2 (by exact_mod_cast hl)⟩

theorem perform_valid (action : GalleryAction) (app : App) (h : ValidIndex app) :
    ValidIndex (action.perform app) := by
  cases action with
  | navigateImage direction =>
    simp only [GalleryAction.perform, navigateImage]
    split
    · exact selectImage_valid _ app h
    · exact h
  | selectImage index => exact selectImage_valid _ app h
  | slideshowTick =>
    simp only [GalleryAction.perform, slideshowTick]
    split
    · exact h
    · exact selectImage_valid _ app h
  | upload files => exact handleFiles_valid files app h

theorem performAll_valid (actions : List GalleryAction) (app : App) (h : ValidIndex app) :
    ValidIndex (GalleryAction.performAll actions app) := by
  induction actions generalizing app with
  | nil => exact h
  | cons action rest ih => exact ih _ (perform_valid action app h)

theorem selectImage_index (index : Int) (app : App)
    (h : 0 ≤ index ∧ index < app.images.length) :
    (selectImage index app).state.currentImageIndex = index := by
  unfold selectImage incrementViewCount
  rw [if_pos h]
  split <;> rfl

/-- C28: starting from index 0 with a non-empty image list, after any sequence of
`navigateImage(d)` (for any integer `d`, in particular -1 and 1), `selectImage(i)` for any
integer `i`, slideshow ticks and uploads, `0 <= currentImageIndex < images.length`; and
in any application `navigateImage(-1)` at index 0 and `navigateImage(1)` at the last
index change nothing, and a slideshow tick at the last index of a non-empty list moves
to index 0. -/
theorem currentImageIndex_valid (start : App) (actions : List GalleryAction)
    (hindex : start.state.currentImageIndex = 0) (himages : start.images ≠ []) :
    (0 ≤ (GalleryAction.performAll actions start).state.currentImageIndex ∧
      (GalleryAction.performAll actions start).state.currentImageIndex
        < (GalleryAction.performAll actions start).images.length) ∧
    (∀ app : App, app.state.currentImageIndex = 0 → navigateImage (-1) app = app) ∧
    (∀ app : App, app.state.currentImageIndex = (app.images.length : Int) - 1 →
      navigateImage 1 app = app) ∧
    (∀ app : App, app.images ≠ [] →
      app.state.currentImageIndex = (app.images.length : Int) - 1 →
      (slideshowTick app).state.currentImageIndex = 0) := by
  have hstart : ValidIndex start := by
    unfold ValidIndex
    rw [hindex]
    have : 0 < start.images.length := List.length_pos.mpr himages
    exact ⟨le_refl _, by exact_mod_cast this⟩
  refine ⟨performAll_valid actions start hstart, ?_, ?_, ?_⟩
  · intro app h0
    simp [navigateImage, h0]
  · intro app hlast
    simp [navigateImage, hlast]
  · intro app hne hlast
    have hpos : 0 < app.images.length := List.length_pos.mpr hne
    have hlen : app.images.length ≠ 0 := by omega
    simp only [slideshowTick, hlast, if_neg hlen, sub_add_cancel, Int.tmod_self]
    exact selectImage_index 0 app ⟨le_refl _, by exact_mod_cast hpos⟩

/-- Instance of C28: from the application as constructed, going back once, selecting
index 9, uploading a picture and ticking keeps the index valid. -/
theorem currentImageIndex_valid_witness :
    0 ≤ (GalleryAction.performAll
        [GalleryAction.navigateImage (-1), GalleryAction.selectImage 9,
          GalleryAction.upload [holidayPhoto], GalleryAction.slideshowTick]
        (App.initial ⟨true, true⟩)).state.currentImageIndex ∧
      (GalleryAction.performAll
        [GalleryAction.navigateImage (-1), GalleryAction.selectImage 9,
          GalleryAction.upload [holidayPhoto], GalleryAction.slideshowTick]
        (App.initial ⟨true, true⟩)).state.currentImageIndex
      < (GalleryAction.performAll
        [GalleryAction.navigateImage (-1), GalleryAction.selectImage 9,
          GalleryAction.upload [holidayPhoto], GalleryAction.slideshowTick]
        (App.initial ⟨true, true⟩)).images.length :=
  (currentImageIndex_valid (App.initial ⟨true, true⟩)
    [GalleryAction.navigateImage (-1), GalleryAction.selectImage 9,
      GalleryAction.upload [holidayPhoto], GalleryAction.slideshowTick]
    rfl (by decide)).1

/-! ## The fullscreen viewer -/

theorem viewerBounds_reset (app : App) (isFullscreen : Bool) :
    ViewerBounds { app with
      state := { app.state with isFullscreen := isFullscreen, zoomLevel := 1, rotation := 0 } } := by
  simp only [ViewerBounds, PHOTOVAULT_CONFIG.gallery.minZoomLevel,
    PHOTOVAULT_CONFIG.gallery.maxZoomLevel]
  exact ⟨⟨by norm_num, by norm_num⟩, by simp⟩

theorem perform_openFullscreen (app : App) :
    ViewerAction.openFullscreen.perform app = app ∨
    ViewerAction.openFullscreen.perform app = { app with
      state := { app.state with isFullscreen := true, zoomLevel := 1, rotation := 0 } } := by
  simp only [ViewerAction.perform, openFullscreen]
  cases imageAt app.images app.state.currentImageIndex with
  | none => exact Or.inl rfl
  | some _ =>
    cases hm : app.elements.fullscreenModal <;> cases hi : app.elements.fullscreenImage <;> simp

theorem viewer_perform_bounds (action : ViewerAction) (app : App) (h : ViewerBounds app) :
    ViewerBounds (action.perform app) := by
  obtain ⟨⟨hlo, hhi⟩, hrot⟩ := h
  simp only [PHOTOVAULT_CONFIG.gallery.minZoomLevel, PHOTOVAULT_CONFIG.gallery.maxZoomLevel]
    at hlo hhi
  cases action with
  | openFullscreen =>
    rcases perform_openFullscreen app with hp | hp <;> rw [hp]
    · exact ⟨⟨hlo, hhi⟩, hrot⟩
    · exact viewerBounds_reset app true
  | closeFullscreen =>
    simp only [ViewerAction.perform, closeFullscreen]
    split
    · exact viewerBounds_reset app false
    · exact ⟨⟨hlo, hhi⟩, hrot⟩
  | zoomIn =>
    simp only [ViewerAction.perform, zoomIn]
    split
    · refine ⟨⟨?_, ?_⟩, hrot⟩
      · simp only [PHOTOVAULT_CONFIG.gallery.minZoomLevel]
        exact le_min (by linarith) (by norm_num)
      · simp only [PHOTOVAULT_CONFIG.gallery.maxZoomLevel]
        exact min_le_right _ _
    · exact ⟨⟨hlo, hhi⟩, hrot⟩
  | zoomOut =>
    simp only [ViewerAction.perform, zoomOut]
    split
    · refine ⟨⟨?_, ?_⟩, hrot⟩
      · simp only [PHOTOVAULT_CONFIG.gallery.minZoomLevel]
        exact le_max_right _ _
      · simp only [PHOTOVAULT_CONFIG.gallery.maxZoomLevel]
        refine max_le ?_ (by norm_num)
        rw [div_le_iff₀ (by norm_num)]
        linarith
    · exact ⟨⟨hlo, hhi⟩, hrot⟩
  | rotateImage =>
    simp only [ViewerAction.perform, rotateImage]
    split
    · refine ⟨⟨hlo, hhi⟩, ?_⟩
      simp only [List.mem_cons, List.mem_singleton, List.not_mem_nil, or_false] at hrot ⊢
      rcases hrot with h | h | h | h <;> rw [h] <;> decide
    · exact ⟨⟨hlo, hhi⟩, hrot⟩

theorem viewer_performAll_bounds (actions : List ViewerAction) (app : App)
    (h : ViewerBounds app) : ViewerBounds (ViewerAction.performAll actions app) := by
  induction actions generalizing app with
  | nil => exact h
  | cons action rest ih => exact ih _ (viewer_perform_bounds action app h)

/-- C29: from the application as constructed, after any sequence of `openFullscreen`,
`closeFullscreen`, `zoomIn`, `zoomOut` and `rotateImage` the zoom level lies between 0.25
and 5, the configured `minZoomLevel` and `maxZoomLevel`, and the rotation is one of 0, 90,
180, 270; `zoomIn`, `zoomOut` and `rotateImage` leave an application that is not in
fullscreen as it is; and in fullscreen, with the rotation one of 0, 90, 180, 270, four
`rotateImage` calls restore the rotation. -/
theorem viewer_bounds (elements : Elements) (actions : List ViewerAction) :
    ((25 / 100 ≤ (ViewerAction.performAll actions (App.initial elements)).state.zoomLevel ∧
        (ViewerAction.performAll actions (App.initial elements)).state.zoomLevel ≤ 5) ∧
      (ViewerAction.performAll actions (App.initial elements)).state.rotation
        ∈ [0, 90, 180, 270]) ∧
    (PHOTOVAULT_CONFIG.gallery.minZoomLevel = 25 / 100 ∧
      PHOTOVAULT_CONFIG.gallery.maxZoomLevel = 5) ∧
    (∀ app : App, app.state.isFullscreen = false →
      zoomIn app = app ∧ zoomOut app = app ∧ rotateImage app = app) ∧
    (∀ app : App, app.state.isFullscreen = true → app.state.rotation ∈ [0, 90, 180, 270] →
      (rotateImage (rotateImage (rotateImage (rotateImage app)))).state.rotation
        = app.state.rotation) := by
  refine ⟨?_, ⟨rfl, rfl⟩, ?_, ?_⟩
  · exact viewer_performAll_bounds actions (App.initial elements)
      (viewerBounds_reset (App.initial elements) false)
  · intro app h
    simp [zoomIn, zoomOut, rotateImage, h]
  · intro app hfull hrot
    simp only [List.mem_cons, List.mem_singleton, List.not_mem_nil, or_false] at hrot
    simp only [rotateImage, hfull, if_true]
    rcases hrot with h | h | h | h <;> rw [h] <;> decide

/-- Instance of C29: zooming in nine times in fullscreen stops at the configured
maximum, and four rotations after one restore the rotation 90. -/
theorem viewer_bounds_witness :
    (ViewerAction.performAll (ViewerAction.openFullscreen :: List.replicate 9 ViewerAction.zoomIn)
        (App.initial ⟨true, true⟩)).state.zoomLevel ≤ 5 ∧
    (rotateImage (rotateImage (rotateImage (rotateImage
        (ViewerAction.performAll [ViewerAction.openFullscreen, ViewerAction.rotateImage]
          (App.initial ⟨true, true⟩)))))).state.rotation
      = (ViewerAction.performAll [ViewerAction.openFullscreen, ViewerAction.rotateImage]
          (App.initial ⟨true, true⟩)).state.rotation :=
  ⟨(viewer_bounds ⟨true, true⟩
      (ViewerAction.openFullscreen :: List.replicate 9 ViewerAction.zoomIn)).1.1.2,
    (viewer_bounds ⟨true, true⟩ []).2.2.2
      (ViewerAction.performAll [ViewerAction.openFullscreen, ViewerAction.rotateImage]
        (App.initial ⟨true, true⟩))
      (by decide) (by decide)⟩

end PhotoVaultApp

/-! # Properties of the forecast grouping -/

namespace WeatherForecast

open AirQualityMonitor (JSVal JSError typeError)

theorem getEntry_setEntry_same (key : String) (v : List Forecast) (acc : Groups) :
    getEntry key (AirQualityMonitor.setEntry key v acc) = some v := by
  induction acc with
  | nil => simp [AirQualityMonitor.setEntry, getEntry]
  | cons p rest ih =>
    obtain ⟨k, w⟩ := p
    by_cases hk : k = key <;> simp [AirQualityMonitor.setEntry, getEntry, hk, ih]

theorem getEntry_setEntry_other (key other : String) (v : List Forecast) (acc : Groups)
    (h : other ≠ key) :
    getEntry other (AirQualityMonitor.setEntry key v acc) = getEntry other acc := by
  induction acc with
  | nil => simp [AirQualityMonitor.setEntry, getEntry, h.symm]
  | cons p rest ih =>
    obtain ⟨k, w⟩ := p
    by_cases hk : k = key
    · subst hk
      simp [AirQualityMonitor.setEntry, getEntry, h.symm]
    · by_cases hko : k = other
      · subst hko
        simp [AirQualityMonitor.setEntry, getEntry, hk]
      · simp [AirQualityMonitor.setEntry, getEntry, hk, hko, ih]

theorem getEntry_eq_none_iff (key : String) (acc : Groups) :
    getEntry key acc = none ↔ key ∉ acc.map Prod.fst := by
  induction acc with
  | nil => simp [getEntry]
  | cons p rest ih =>
    obtain ⟨k, w⟩ := p
    by_cases hk : k = key
    · simp [getEntry, hk]
    · simp [getEntry, hk, ih, Ne.symm hk]

theorem keys_setEntry_present (key : String) (v g : List Forecast) (acc : Groups)
    (h : getEntry key acc = some g) :
    (AirQualityMonitor.setEntry key v acc).map Prod.fst = acc.map Prod.fst ∧
    (((AirQualityMonitor.setEntry key v acc).map fun p => p.2.length).sum + g.length
      = (acc.map fun p => p.2.length).sum + v.length) := by
  induction acc with
  | nil => simp [getEntry] at h
  | cons p rest ih =>
    obtain ⟨k, w⟩ := p
    by_cases hk : k = key
    · simp only [getEntry, hk, if_true, Option.some.injEq] at h
      subst h
      simp [AirQualityMonitor.setEntry, hk]
      omega
    · simp only [getEntry, hk, if_false] at h
      obtain ⟨h1, h2⟩ := ih h
      simp [AirQualityMonitor.setEntry, hk, h1]
      omega

theorem keys_setEntry_absent (key : String) (v : List Forecast) (acc : Groups)
    (h : getEntry key acc = none) :
    (AirQualityMonitor.setEntry key v acc).map Prod.fst = acc.map Prod.fst ++ [key] ∧
    ((AirQualityMonitor.setEntry key v acc).map fun p => p.2.length).sum
      = (acc.map fun p => p.2.length).sum + v.length := by
  induction acc with
  | nil => simp [AirQualityMonitor.setEntry]
  | cons p rest ih =>
    obtain ⟨k, w⟩ := p
    by_cases hk : k = key
    · simp [getEntry, hk] at h
    · simp only [getEntry, hk, if_false] at h
      obtain ⟨h1, h2⟩ := ih h
      simp [AirQualityMonitor.setEntry, hk, h1, h2]
      omega

theorem getEntry_mem (key : String) (g : List Forecast) (acc : Groups)
    (h : getEntry key acc = some g) : (key, g) ∈ acc := by
  induction acc with
  | nil => simp [getEntry] at h
  | cons p rest ih =>
    obtain ⟨k, w⟩ := p
    by_cases hk : k = key
    · simp only [getEntry, hk, if_true, Option.some.injEq] at h
      simp [hk, h]
    · simp only [getEntry, hk, if_false] at h
      exact List.mem_cons_of_mem _ (ih h)

theorem mem_getEntry (key : String) (g : List Forecast) (acc : Groups)
    (hnodup : (acc.map Prod.fst).Nodup) (h : (key, g) ∈ acc) : getEntry key acc = some g := by
  induction acc with
  | nil => simp at h
  | cons p rest ih =>
    obtain ⟨k, w⟩ := p
    simp only [List.map_cons, List.nodup_cons] at hnodup
    rcases List.mem_cons.mp h with heq | hmem
    · cases heq
      simp [getEntry]
    · have hne : k ≠ key := by
        intro hk
        subst hk
        exact hnodup.1 (List.mem_map.mpr ⟨(k, g), hmem, rfl⟩)
      simp only [getEntry, hne, if_false]
      exact ih hnodup.2 hmem

theorem filter_date_append (seen : List Forecast) (f : Forecast) (d : String) :
    ((seen ++ [f]).filter fun x => x.date = d)
      = if f.date = d then (seen.filter fun x => x.date = d) ++ [f]
        else seen.filter fun x => x.date = d := by
  by_cases h : f.date = d <;> simp [List.filter_append, List.filter_cons, h]

theorem groupStep_grouped (seen : List Forecast) (acc : Groups) (f : Forecast)
    (hinv : Grouped seen acc) (hkey : f.date ∉ objectPrototypeKeys) :
    ∃ acc1, groupStep acc f = .ok acc1 ∧ Grouped (seen ++ [f]) acc1 := by
  obtain ⟨hnodup, hget, hsum⟩ := hinv
  cases hg : getEntry f.date acc with
  | none =>
    have hread : readSlot acc f.date = Slot.missing := by
      simp [readSlot, hg, hkey]
    have hread1 : readSlot (AirQualityMonitor.setEntry f.date [] acc) f.date = Slot.own [] := by
      simp [readSlot, getEntry_setEntry_same]
    refine ⟨AirQualityMonitor.setEntry f.date [f] (AirQualityMonitor.setEntry f.date [] acc),
      by simp [groupStep, hread, hread1], ?_, ?_, ?_⟩
    · obtain ⟨hk1, _⟩ := keys_setEntry_absent f.date [] acc hg
      obtain ⟨hk2, _⟩ := keys_setEntry_present f.date [f] [] _
        (getEntry_setEntry_same f.date [] acc)
      rw [hk2, hk1]
      rw [List.nodup_append]
      refine ⟨hnodup, List.nodup_singleton _, ?_⟩
      intro k hk hk1
      rw [List.mem_singleton] at hk1
      subst hk1
      exact (getEntry_eq_none_iff _ acc).mp hg hk
    · intro d
      rw [filter_date_append]
      by_cases hd : f.date = d
      · subst hd
        have hempty : (seen.filter fun x => x.date = f.date) = [] := by
          have := hget f.date
          rw [hg] at this
          by_cases he : (seen.filter fun x => x.date = f.date).isEmpty
          · exact List.isEmpty_iff.mp he
          · simp [he] at this
        rw [getEntry_setEntry_same]
        simp [hempty]
      · rw [getEntry_setEntry_other _ _ _ _ (Ne.symm hd),
          getEntry_setEntry_other _ _ _ _ (Ne.symm hd), hget d]
        simp [hd]
    · obtain ⟨_, hs1⟩ := keys_setEntry_absent f.date [] acc hg
      obtain ⟨_, hs2⟩ := keys_setEntry_present f.date [f] [] _
        (getEntry_setEntry_same f.date [] acc)
      simp only [List.length_nil, List.length_singleton, add_zero, List.length_append] at hs1 hs2 ⊢
      omega
  | some g =>
    have hread : readSlot acc f.date = Slot.own g := by
      simp [readSlot, hg]
    refine ⟨AirQualityMonitor.setEntry f.date (g ++ [f]) acc,
      by simp [groupStep, hread], ?_, ?_, ?_⟩
    · rw [(keys_setEntry_present f.date (g ++ [f]) g acc hg).1]
      exact hnodup
    · intro d
      rw [filter_date_append]
      by_cases hd : f.date = d
      · subst hd
        have hfilter : (seen.filter fun x => x.date = f.date) = g := by
          have := hget f.date
          rw [hg] at this
          by_cases he : (seen.filter fun x => x.date = f.date).isEmpty
          · simp [he] at this
          · simp only [he] at this
            simpa using this.symm
        rw [getEntry_setEntry_same]
        simp [hfilter]
      · rw [getEntry_setEntry_other _ _ _ _ (Ne.symm hd), hget d]
        simp [hd]
    · have hs := (keys_setEntry_present f.date (g ++ [f]) g acc hg).2
      simp only [List.length_append, List.length_singleton] at hs ⊢
      omega

theorem reduce_grouped (rest seen : List Forecast) (acc : Groups)
    (hinv : Grouped seen acc) (hkeys : ∀ f ∈ rest, f.date ∉ objectPrototypeKeys) :
    ∃ groups, reduce groupStep rest acc = .ok groups ∧ Grouped (seen ++ rest) groups := by
  induction rest generalizing seen acc with
  | nil => exact ⟨acc, rfl, by simpa using hinv⟩
  | cons f rest ih =>
    obtain ⟨acc1, hstep, hinv1⟩ :=
      groupStep_grouped seen acc f hinv (hkeys f (List.mem_cons_self _ _))
    obtain ⟨groups, hrun, hfinal⟩ :=
      ih (seen ++ [f]) acc1 hinv1 (fun x hx => hkeys x (List.mem_cons_of_mem _ hx))
    refine ⟨groups, ?_, by simpa using hfinal⟩
    simp only [reduce, hstep]
    exact hrun

/-- C30, as amended: for every list of forecasts none of whose dates is the name of a
property inherited from `Object.prototype`, `groupForecastsByDate` returns a grouping
with distinct keys in which each key `d` holds exactly the forecasts whose date is `d`, in
their original order; no group is empty, every forecast of the input is in the group of
its date and in no other group, and the group sizes add up to the length of the input. -/
theorem groupForecastsByDate_groups (forecasts : List Forecast)
    (hkeys : ∀ f ∈ forecasts, f.date ∉ objectPrototypeKeys) :
    ∃ groups, groupForecastsByDate forecasts = .ok groups ∧
      (groups.map Prod.fst).Nodup ∧
      (∀ d g, (d, g) ∈ groups → g = (forecasts.filter fun f => f.date = d) ∧ g ≠ []) ∧
      (∀ f ∈ forecasts, ∃ g, (f.date, g) ∈ groups ∧ f ∈ g ∧
        ∀ d other, (d, other) ∈ groups → f ∈ other → d = f.date) ∧
      (groups.map fun p => p.2.length).sum = forecasts.length := by
  obtain ⟨groups, hrun, hnodup, hget, hsum⟩ :=
    reduce_grouped forecasts [] [] ⟨by simp, by intro d; simp [getEntry], by simp⟩ hkeys
  simp only [List.nil_append] at hget hsum
  have hgroup : ∀ d g, (d, g) ∈ groups →
      g = (forecasts.filter fun f => f.date = d) ∧ g ≠ [] := by
    intro d g hmem
    have h1 := mem_getEntry d g groups hnodup hmem
    rw [hget d] at h1
    by_cases he : (forecasts.filter fun f => f.date = d).isEmpty
    · simp [he] at h1
    · simp only [he] at h1
      have hg : (forecasts.filter fun f => f.date = d) = g := by simpa using h1
      refine ⟨hg.symm, ?_⟩
      rw [← hg]
      intro hnil
      exact he (List.isEmpty_iff.mpr hnil)
  refine ⟨groups, hrun, hnodup, hgroup, ?_, hsum⟩
  intro f hf
  have hin : f ∈ forecasts.filter fun x => x.date = f.date := by
    simp [List.mem_filter, hf]
  have hne : ¬ (forecasts.filter fun x => x.date = f.date).isEmpty = true := by
    intro he
    rw [List.isEmpty_iff.mp he] at hin
    simp at hin
  have h1 := hget f.date
  simp only [hne] at h1
  refine ⟨_, getEntry_mem _ _ _ (by simpa using h1), hin, ?_⟩
  intro d other hmem hfo
  rw [(hgroup d other hmem).1] at hfo
  have hd := (List.mem_filter.mp hfo).2
  simp only [decide_eq_true_eq] at hd
  exact hd.symm

/-- Instance of C30: three forecasts over two days are grouped without a throw, and
the sizes of the groups add up to three. -/
theorem groupForecastsByDate_groups_witness :
    (match groupForecastsByDate twoDays with
      | .ok groups => (groups.map fun p => p.2.length).sum
      | .error _ => 0) = twoDays.length := by
  obtain ⟨groups, hrun, _, _, _, hsum⟩ := groupForecastsByDate_groups twoDays (by
    intro f hf
    simp only [twoDays, List.mem_cons, List.mem_singleton, List.not_mem_nil, or_false] at hf
    rcases hf with h | h | h <;> subst h <;> decide)
  rw [hrun]
  exact hsum

/-- Counterexample to C30 as stated: on a single forecast whose date reads
`constructor` the function throws and returns no grouping. -/
theorem groupForecastsByDate_throws_on_inherited_key :
    groupForecastsByDate [Forecast.at "constructor 09:00:00" "constructor"]
        = .error (typeError "acc[forecast.date].push is not a function") ∧
    ¬ ∃ groups, groupForecastsByDate [Forecast.at "constructor 09:00:00" "constructor"]
        = .ok groups := by
  have h : groupForecastsByDate [Forecast.at "constructor 09:00:00" "constructor"]
      = .error (typeError "acc[forecast.date].push is not a function") := by
    simp [groupForecastsByDate, reduce, groupStep, readSlot, getEntry, objectPrototypeKeys,
      Forecast.at]
  refine ⟨h, ?_⟩
  rintro ⟨groups, hg⟩
  rw [h] at hg
  cases hg

end WeatherForecast
